import Mathlib

/-!
Configuration command class of the znet controller library

A shallow embedding of `src/znet_cmd_configuration.c` (with the constants and
types of `src/znet.h`) and theorems about it.

Conventions of the embedding:

* machine integers are natural numbers (`int` values are integers); a store
  into a narrower C type is written with an explicit `% 2 ^ w`;
* a C buffer `(cc_data, cc_data_len)` is a list of bytes whose length is
  `cc_data_len`; a read at an index that is not below the length is a fault;
* `assert` is active: a failed assertion aborts the call;
* everything a routine does to the outside world (a log line, a user callback,
  a call into the lower send layer) is recorded, in order, in a trace of events;
* the global `znet_cb` is an explicit argument, `none` while the library is not
  initialised.
-/

namespace Znet

/-! ## Constants of `znet.h` -/

abbrev ZNET_NODE_ID_ANY : Nat := 0
abbrev ZNET_NODE_ID_MIN : Nat := 1
abbrev ZNET_NODE_ID_MAX : Nat := 232
abbrev ZNET_NODE_ID_INVALID : Nat := 0xFF

abbrev ZNET_CHANNEL_ID_ROOT : Nat := 0
abbrev ZNET_CHANNEL_ID_MIN : Nat := 1
abbrev ZNET_CHANNEL_ID_MAX : Nat := 127

abbrev ZNET_CMD_CONFIGURATION_PARAM_NUM_INVALID : Nat := 0x03
abbrev ZNET_CMD_CONFIGURATION_PARAM_NUM_MAX : Nat := 0x04
abbrev ZNET_CMD_CONFIGURATION_REPORT_CHECK_LEN : Nat := 0x04
abbrev ZNET_CMD_CONFIGURATION_BULK_REPORT_CHECK_LEN : Nat := 0x07
abbrev ZNET_CMD_CONFIGURATION_NIP_REPORT_CHECK_LEN : Nat := 0x05
abbrev ZNET_CMD_CONFIGURATION_PROP_REPORT_CHECK_LEN : Nat := 0x06

/-! ## Constants declared outside `src/` -/

/-- Modelled from the spec: the command class byte of the Configuration class;
its declaration (`znet_defs.h`) is not part of the sources. The value is the one
the Z-Wave command class list assigns; the theorems use the name only. -/
abbrev ZNET_COMMAND_CLASS_CONFIGURATION : Nat := 0x70

/-- Modelled from the spec: the command byte of a Configuration Report; its
declaration is not part of the sources. The theorems use the name only. -/
abbrev CONFIGURATION_REPORT : Nat := 0x06

/-- Modelled from the spec: the size mask of the properties byte, "the size
field is the low 3 bits of the properties byte"; its declaration is not part of
the sources. -/
abbrev CONFIGURATION_SET_LEVEL_SIZE_MASK : Nat := 0x07

/-- Modelled from the spec: the command byte of a Configuration Bulk Report; its
declaration is not part of the sources. The theorems use the name only. -/
abbrev CONFIGURATION_BULK_REPORT_V4 : Nat := 0x09

/-- Modelled from the spec: the command byte of a Configuration Name Report; its
declaration is not part of the sources. The theorems use the name only. -/
abbrev CONFIGURATION_NAME_REPORT_V4 : Nat := 0x0B

/-- Modelled from the spec: the command byte of a Configuration Info Report; its
declaration is not part of the sources. The theorems use the name only. -/
abbrev CONFIGURATION_INFO_REPORT_V4 : Nat := 0x0D

/-- Modelled from the spec: the command byte of a Configuration Properties
Report; its declaration is not part of the sources. The theorems use the name
only. -/
abbrev CONFIGURATION_PROPERTIES_REPORT_V4 : Nat := 0x0F

/-- Modelled from the spec: the size mask of the properties byte of a Bulk
Report, "the size field is the low 3 bits of the properties byte"; its
declaration is not part of the sources. -/
abbrev CONFIGURATION_BULK_REPORT_PROPERTIES1_SIZE_MASK_V2 : Nat := 0x07

/-- Modelled from the spec: the size mask of the properties byte of a Properties
Report, the low 3 bits; its declaration is not part of the sources. -/
abbrev CONFIGURATION_PROPERTIES_REPORT_PROPERTIES1_SIZE_MASK_V4 : Nat := 0x07

/-- Modelled from the spec: the format mask of the properties byte of a
Properties Report, the three bits above the size field; its declaration is not
part of the sources. -/
abbrev CONFIGURATION_PROPERTIES_REPORT_PROPERTIES1_FORMAT_MASK_V4 : Nat := 0x38

/-- Modelled from the spec: the shift that brings the format bits of the
properties byte down; its declaration is not part of the sources. -/
abbrev CONFIGURATION_PROPERTIES_REPORT_PROPERTIES1_FORMAT_SHIFT_V4 : Nat := 0x03

/-- Modelled from the spec: the empty encapsulation flag set of `encap_type_t`
(`znet_lib.h`, not part of the sources): "no encapsulation". -/
abbrev Encapsulation_None : Nat := 0

/-- Modelled from the spec: the Multi-Channel flag of `encap_type_t`
(`znet_lib.h`, not part of the sources). The source combines it with
`encap |= Encapsulation_MuCh`, so it is a non-empty bit flag; the theorems rely
on nothing else about its value. -/
abbrev Encapsulation_MuCh : Nat := 1

/-! ## Data model -/

/-- Report of the Configuration command class, version 1
(`znet_configuration_report_t`). -/
structure znet_configuration_report_t where
  __ver : Nat
  param_number : Nat
  data_count : Nat
  value : Nat
  deriving DecidableEq, Repr

/-- Bulk report, versions 2-4 (`znet_configuration_bulk_report_t`); the trailing
array `data[]` is a list. -/
structure znet_configuration_bulk_report_t where
  __ver : Nat
  param_offset : Nat
  param_number : Nat
  rep_to_follows : Nat
  data_count : Nat
  data : List Nat
  deriving DecidableEq, Repr

/-- Name report, versions 3-4 (`znet_configuration_name_report_t`). -/
structure znet_configuration_name_report_t where
  __ver : Nat
  param_number : Nat
  rep_to_follows : Nat
  data : List Nat
  deriving DecidableEq, Repr

/-- Info report, versions 3-4 (`znet_configuration_info_report_t`). -/
structure znet_configuration_info_report_t where
  __ver : Nat
  param_number : Nat
  rep_to_follows : Nat
  data : List Nat
  deriving DecidableEq, Repr

/-- Properties report, versions 3-4
(`znet_configuration_properties_report_t`). -/
structure znet_configuration_properties_report_t where
  __ver : Nat
  param_number : Nat
  data_format : Nat
  data_size : Nat
  data : List Nat
  deriving DecidableEq, Repr

/-- The part of `znet_callbacks_t` the configuration class uses: the
uninterpreted `arg` and, for each optional result callback, whether the pointer is non-null. -/
structure znet_callbacks_t where
  arg : Nat
  node_cmd_configuration_result : Bool
  node_cmd_configuration_bulk_result : Bool
  node_cmd_configuration_name_result : Bool
  node_cmd_configuration_info_result : Bool
  node_cmd_configuration_properties_result : Bool
  deriving DecidableEq, Repr

/-- The session record a handler receives (`ZFunction`); the configuration class
reads its `_endpoint` only. -/
structure ZFunction where
  _endpoint : Nat
  deriving DecidableEq, Repr

/-- Completion handlers this file registers with the lower layer. -/
inductive CompletionHandler where
  | _znet_node_cmd_configuration_get_cb
  deriving DecidableEq, Repr

/-- A call into the lower send layer (`znet_lib`), with the arguments passed
after `&znet`. `cb` is the completion handler (`none` for `NULL`),
`callbackArg` the endpoint pair `from_to` (`none` for `NULL`). -/
inductive LowerCall where
  | znet_cc_configuration_get (node_id config_param_num : Nat)
      (cb : Option CompletionHandler) (callbackArg : Option (Nat × Nat)) (encap : Nat)
  | znet_cc_configuration_set (node_id config_param_num : Nat) (set_to_default : Bool)
      (config_value config_size : Nat)
      (cb : Option CompletionHandler) (callbackArg : Option (Nat × Nat)) (encap : Nat)
  | znet_cc_configuration_bulk_set (node_id config_id config_count : Nat)
      (set_to_default need_report : Bool) (config_size : Nat) (config_value : List Nat)
      (cb : Option CompletionHandler) (callbackArg : Option (Nat × Nat)) (encap : Nat)
  | znet_cc_configuration_bulk_get (node_id config_id config_count : Nat)
      (cb : Option CompletionHandler) (callbackArg : Option (Nat × Nat)) (encap : Nat)
  | znet_cc_configuration_name_get (node_id param_number : Nat)
      (cb : Option CompletionHandler) (callbackArg : Option (Nat × Nat)) (encap : Nat)
  | znet_cc_configuration_info_get (node_id param_number : Nat)
      (cb : Option CompletionHandler) (callbackArg : Option (Nat × Nat)) (encap : Nat)
  | znet_cc_configuration_properties_get (node_id param_number : Nat)
      (cb : Option CompletionHandler) (callbackArg : Option (Nat × Nat)) (encap : Nat)
  | znet_cc_configuration_default_reset (node_id : Nat)
      (cb : Option CompletionHandler) (callbackArg : Option (Nat × Nat)) (encap : Nat)
  deriving DecidableEq, Repr

/-- The endpoint argument of a lower-layer call. -/
def LowerCall.callbackArg : LowerCall → Option (Nat × Nat)
  | .znet_cc_configuration_get _ _ _ a _ => a
  | .znet_cc_configuration_set _ _ _ _ _ _ a _ => a
  | .znet_cc_configuration_bulk_set _ _ _ _ _ _ _ _ a _ => a
  | .znet_cc_configuration_bulk_get _ _ _ _ a _ => a
  | .znet_cc_configuration_name_get _ _ _ a _ => a
  | .znet_cc_configuration_info_get _ _ _ a _ => a
  | .znet_cc_configuration_properties_get _ _ _ a _ => a
  | .znet_cc_configuration_default_reset _ _ a _ => a

/-- The encapsulation argument of a lower-layer call. -/
def LowerCall.encap : LowerCall → Nat
  | .znet_cc_configuration_get _ _ _ _ e => e
  | .znet_cc_configuration_set _ _ _ _ _ _ _ e => e
  | .znet_cc_configuration_bulk_set _ _ _ _ _ _ _ _ _ e => e
  | .znet_cc_configuration_bulk_get _ _ _ _ _ e => e
  | .znet_cc_configuration_name_get _ _ _ _ e => e
  | .znet_cc_configuration_info_get _ _ _ _ e => e
  | .znet_cc_configuration_properties_get _ _ _ _ e => e
  | .znet_cc_configuration_default_reset _ _ _ e => e

/-- The completion handler argument of a lower-layer call (`none` for `NULL`). -/
def LowerCall.cb : LowerCall → Option CompletionHandler
  | .znet_cc_configuration_get _ _ h _ _ => h
  | .znet_cc_configuration_set _ _ _ _ _ h _ _ => h
  | .znet_cc_configuration_bulk_set _ _ _ _ _ _ _ h _ _ => h
  | .znet_cc_configuration_bulk_get _ _ _ h _ _ => h
  | .znet_cc_configuration_name_get _ _ h _ _ => h
  | .znet_cc_configuration_info_get _ _ h _ _ => h
  | .znet_cc_configuration_properties_get _ _ h _ _ => h
  | .znet_cc_configuration_default_reset _ h _ _ => h

/-- What a routine does to the outside world. Each user callback carries the
arguments it is invoked with, `value = none` standing for a null payload. -/
inductive Event where
  | log (msg : String)
  | node_cmd_configuration_result (err : Int) (node_id channel_id : Nat)
      (value : Option znet_configuration_report_t) (arg : Nat)
  | node_cmd_configuration_bulk_result (err : Int) (node_id channel_id : Nat)
      (value : Option znet_configuration_bulk_report_t) (arg : Nat)
  | node_cmd_configuration_name_result (err : Int) (node_id channel_id : Nat)
      (value : Option znet_configuration_name_report_t) (arg : Nat)
  | node_cmd_configuration_info_result (err : Int) (node_id channel_id : Nat)
      (value : Option znet_configuration_info_report_t) (arg : Nat)
  | node_cmd_configuration_properties_result (err : Int) (node_id channel_id : Nat)
      (value : Option znet_configuration_properties_report_t) (arg : Nat)
  | lower (call : LowerCall)
  deriving DecidableEq, Repr

/-- Whether an event is the invocation of a user result callback. -/
def Event.isUserCallback : Event → Bool
  | .log _ => false
  | .lower _ => false
  | _ => true

/-- Whether an event is a log line. -/
def Event.isLog : Event → Bool
  | .log _ => true
  | _ => false

/-- The lower-layer call of an event, if it is one. -/
def Event.lowerCall : Event → Option LowerCall
  | .lower c => some c
  | _ => none

/-- Why a call does not return: a failed assertion, a dereference of the null
`znet_cb`, a read of `cc_data` at an index not below its length, or a write to an
output array at an index not below the bytes reserved for it. -/
inductive Fault where
  | assertion (condition : String)
  | null_znet_cb
  | out_of_bounds (index : Nat)
  | write_past_buffer (index : Nat)
  deriving DecidableEq, Repr

/-- The result of running a routine: it returns, or it stops at a fault; in both
cases with the events produced so far. -/
inductive Outcome where
  | returned (trace : List Event)
  | aborted (fault : Fault) (trace : List Event)
  deriving DecidableEq, Repr

/-- The events of a run. -/
def Outcome.trace : Outcome → List Event
  | .returned t => t
  | .aborted _ t => t

/-- The user callbacks invoked during a run, in order. -/
def Outcome.userCallbacks (o : Outcome) : List Event :=
  o.trace.filter Event.isUserCallback

/-- The lower-layer calls made during a run, in order. -/
def Outcome.lowerCalls (o : Outcome) : List LowerCall :=
  o.trace.filterMap Event.lowerCall

/-- The log lines written during a run, in order. -/
def Outcome.logs (o : Outcome) : List Event :=
  o.trace.filter Event.isLog

/-- Read of `cc_data[i]`: a fault when `i` is not below the length. -/
def read (cc_data : List Nat) (i : Nat) : Except Fault Nat :=
  match cc_data[i]? with
  | some b => .ok b
  | none => .error (.out_of_bounds i)

/-! ## Report handler, Configuration command class v1 -/

/-- The body of `znet_cc_configuration_report` after its size check: builds the
report from the value bytes (source lines 46-58). -/
def znet_cc_configuration_report_build (param_size : Nat) (cc_data : List Nat) :
    Except Fault znet_configuration_report_t := do
  let param_number ← read cc_data 2
  let data_count := param_size
  let mut value ← read cc_data 4
  if data_count > 1 then
    value := ((value <<< 8) ||| (← read cc_data 5)) % 2 ^ 32
  if data_count > 2 then
    value := ((value <<< 8) ||| (← read cc_data 6)) % 2 ^ 32
    value := ((value <<< 8) ||| (← read cc_data 7)) % 2 ^ 32
  return { __ver := 0, param_number := param_number, data_count := data_count, value := value }

/-- Embedding of `znet_cc_configuration_report` (source lines 26-63). -/
def znet_cc_configuration_report (znet_cb : Option znet_callbacks_t) (func : ZFunction)
    (node_id : Nat) (cc_data : List Nat) : Outcome :=
  if cc_data.length < ZNET_CMD_CONFIGURATION_REPORT_CHECK_LEN then
    .aborted (.assertion "cc_data_len >= ZNET_CMD_CONFIGURATION_REPORT_CHECK_LEN") []
  else if cc_data.getD 0 0 ≠ ZNET_COMMAND_CLASS_CONFIGURATION then
    .aborted (.assertion "cc_data[0] == ZNET_COMMAND_CLASS_CONFIGURATION") []
  else if cc_data.getD 1 0 ≠ CONFIGURATION_REPORT then
    .aborted (.assertion "cc_data[1] == CONFIGURATION_REPORT") []
  else if cc_data.getD 2 0 = 0 then
    .aborted (.assertion "cc_data[2]") []
  else if node_id < ZNET_NODE_ID_MIN ∨ node_id > ZNET_NODE_ID_MAX then
    .returned []
  else
    let param_size := (cc_data.getD 3 0 &&& CONFIGURATION_SET_LEVEL_SIZE_MASK) % 256
    if param_size > ZNET_CMD_CONFIGURATION_PARAM_NUM_MAX ∨ param_size = 0 ∨
        param_size = ZNET_CMD_CONFIGURATION_PARAM_NUM_INVALID then
      .returned [.log "ZNET: Invalid size ID!\n"]
    else
      match znet_cc_configuration_report_build param_size cc_data with
      | .error fault => .aborted fault []
      | .ok report =>
        match znet_cb with
        | none => .aborted .null_znet_cb []
        | some cb =>
          if cb.node_cmd_configuration_result then
            .returned [.node_cmd_configuration_result 0 node_id func._endpoint
              (some report) cb.arg]
          else
            .returned []

/-! ## Report handlers, Configuration command class v2 to v4 -/

/-- The copy loop `for (i = 0; i < count; i++) data[i] = cc_data[offset + i]`:
the bytes written into `data`, in order; each read may fault. It is used where
the output buffer reserves exactly `count` bytes for `data` (bulk, name, info),
so that no write leaves the buffer. -/
def copy_bytes (cc_data : List Nat) (offset : Nat) : Nat → Except Fault (List Nat)
  | 0 => .ok []
  | count + 1 =>
    match read cc_data offset with
    | .error fault => .error fault
    | .ok b =>
      match copy_bytes cc_data (offset + 1) count with
      | .error fault => .error fault
      | .ok rest => .ok (b :: rest)

/-- Embedding of `znet_cc_configuration_bulk_report` (source lines 156-207). -/
def znet_cc_configuration_bulk_report (znet_cb : Option znet_callbacks_t) (func : ZFunction)
    (node_id : Nat) (cc_data : List Nat) : Outcome :=
  if cc_data.length < ZNET_CMD_CONFIGURATION_BULK_REPORT_CHECK_LEN then
    .aborted (.assertion "cc_data_len >= ZNET_CMD_CONFIGURATION_BULK_REPORT_CHECK_LEN") []
  else if cc_data.getD 0 0 ≠ ZNET_COMMAND_CLASS_CONFIGURATION then
    .aborted (.assertion "cc_data[0] == ZNET_COMMAND_CLASS_CONFIGURATION") []
  else if cc_data.getD 1 0 ≠ CONFIGURATION_BULK_REPORT_V4 then
    .aborted (.assertion "cc_data[1] == CONFIGURATION_BULK_REPORT_V4") []
  else if cc_data.getD 4 0 = 0 then
    .aborted (.assertion "cc_data[4]") []
  else
    let temp_value := ((cc_data.getD 2 0 <<< 8) ||| cc_data.getD 3 0) % 2 ^ 16
    if temp_value = 0 then
      .returned [.log "ZNET: Invalid offset parameter!\n"]
    else
      let param_size :=
        (cc_data.getD 6 0 &&& CONFIGURATION_BULK_REPORT_PROPERTIES1_SIZE_MASK_V2) % 256
      if param_size > ZNET_CMD_CONFIGURATION_PARAM_NUM_MAX ∨ param_size = 0 ∨
          param_size = ZNET_CMD_CONFIGURATION_PARAM_NUM_INVALID then
        .returned [.log "ZNET: Invalid size ID!\n"]
      else if node_id < ZNET_NODE_ID_MIN ∨ node_id > ZNET_NODE_ID_MAX then
        .returned []
      else
        let data_count := param_size * cc_data.getD 4 0
        if cc_data.length < ZNET_CMD_CONFIGURATION_BULK_REPORT_CHECK_LEN + data_count then
          .aborted (.assertion
            "cc_data_len >= ZNET_CMD_CONFIGURATION_BULK_REPORT_CHECK_LEN + data_count") []
        else
          match copy_bytes cc_data ZNET_CMD_CONFIGURATION_BULK_REPORT_CHECK_LEN data_count with
          | .error fault => .aborted fault []
          | .ok data =>
            let bulk_report : znet_configuration_bulk_report_t :=
              { __ver := 0, param_offset := temp_value, param_number := cc_data.getD 4 0,
                rep_to_follows := cc_data.getD 5 0, data_count := param_size, data := data }
            match znet_cb with
            | none => .aborted .null_znet_cb []
            | some cb =>
              if cb.node_cmd_configuration_bulk_result then
                .returned [.node_cmd_configuration_bulk_result 0 node_id func._endpoint
                  (some bulk_report) cb.arg]
              else
                .returned []

/-- Embedding of `znet_cc_configuration_name_report` (source lines 283-313). The
16-bit value of `cc_data[2..3]` is both stored as `param_number` and used, under
the name `name_count`, as the number of name bytes. -/
def znet_cc_configuration_name_report (znet_cb : Option znet_callbacks_t) (func : ZFunction)
    (node_id : Nat) (cc_data : List Nat) : Outcome :=
  if cc_data.length < ZNET_CMD_CONFIGURATION_NIP_REPORT_CHECK_LEN then
    .aborted (.assertion "cc_data_len >= ZNET_CMD_CONFIGURATION_NIP_REPORT_CHECK_LEN") []
  else if cc_data.getD 0 0 ≠ ZNET_COMMAND_CLASS_CONFIGURATION then
    .aborted (.assertion "cc_data[0] == ZNET_COMMAND_CLASS_CONFIGURATION") []
  else if cc_data.getD 1 0 ≠ CONFIGURATION_NAME_REPORT_V4 then
    .aborted (.assertion "cc_data[1] == CONFIGURATION_NAME_REPORT_V4") []
  else if node_id < ZNET_NODE_ID_MIN ∨ node_id > ZNET_NODE_ID_MAX then
    .returned []
  else
    let name_count := ((cc_data.getD 2 0 <<< 8) ||| cc_data.getD 3 0) % 2 ^ 16
    if cc_data.length < ZNET_CMD_CONFIGURATION_NIP_REPORT_CHECK_LEN + name_count then
      .aborted (.assertion
        "cc_data_len >= ZNET_CMD_CONFIGURATION_NIP_REPORT_CHECK_LEN + name_count") []
    else
      match copy_bytes cc_data ZNET_CMD_CONFIGURATION_NIP_REPORT_CHECK_LEN name_count with
      | .error fault => .aborted fault []
      | .ok data =>
        let name_report : znet_configuration_name_report_t :=
          { __ver := 0, param_number := name_count, rep_to_follows := cc_data.getD 4 0,
            data := data }
        match znet_cb with
        | none => .aborted .null_znet_cb []
        | some cb =>
          if cb.node_cmd_configuration_name_result then
            .returned [.node_cmd_configuration_name_result 0 node_id func._endpoint
              (some name_report) cb.arg]
          else
            .returned []

/-- Embedding of `znet_cc_configuration_info_report` (source lines 349-380). -/
def znet_cc_configuration_info_report (znet_cb : Option znet_callbacks_t) (func : ZFunction)
    (node_id : Nat) (cc_data : List Nat) : Outcome :=
  if cc_data.length < ZNET_CMD_CONFIGURATION_NIP_REPORT_CHECK_LEN then
    .aborted (.assertion "cc_data_len >= ZNET_CMD_CONFIGURATION_NIP_REPORT_CHECK_LEN") []
  else if cc_data.getD 0 0 ≠ ZNET_COMMAND_CLASS_CONFIGURATION then
    .aborted (.assertion "cc_data[0] == ZNET_COMMAND_CLASS_CONFIGURATION") []
  else if cc_data.getD 1 0 ≠ CONFIGURATION_INFO_REPORT_V4 then
    .aborted (.assertion "cc_data[1] == CONFIGURATION_INFO_REPORT_V4") []
  else if node_id < ZNET_NODE_ID_MIN ∨ node_id > ZNET_NODE_ID_MAX then
    .returned []
  else
    let info_count := (((cc_data.getD 2 0 <<< 8) % 2 ^ 16) ||| cc_data.getD 3 0) % 2 ^ 16
    if cc_data.length < ZNET_CMD_CONFIGURATION_NIP_REPORT_CHECK_LEN + info_count then
      .aborted (.assertion
        "cc_data_len >= ZNET_CMD_CONFIGURATION_NIP_REPORT_CHECK_LEN + info_count") []
    else
      match copy_bytes cc_data ZNET_CMD_CONFIGURATION_NIP_REPORT_CHECK_LEN info_count with
      | .error fault => .aborted fault []
      | .ok data =>
        let info_report : znet_configuration_info_report_t :=
          { __ver := 0, param_number := info_count, rep_to_follows := cc_data.getD 4 0,
            data := data }
        match znet_cb with
        | none => .aborted .null_znet_cb []
        | some cb =>
          if cb.node_cmd_configuration_info_result then
            .returned [.node_cmd_configuration_info_result 0 node_id func._endpoint
              (some info_report) cb.arg]
          else
            .returned []

/-- The copy loop `for (i = 0; i < count; i++) data[i] = cc_data[offset + i]`
into a `data` array for which the output buffer reserves `reserved` bytes, from
index `i` on: the bytes written, in order. Each iteration reads `cc_data` and
then writes `data[i]`; the read may fault, and a write at an index that is not
below `reserved` is a fault. -/
def copy_bytes_reserved (cc_data : List Nat) (reserved offset : Nat) :
    Nat → Nat → Except Fault (List Nat)
  | _, 0 => .ok []
  | i, count + 1 =>
    match read cc_data (offset + i) with
    | .error fault => .error fault
    | .ok b =>
      if reserved ≤ i then
        .error (.write_past_buffer i)
      else
        match copy_bytes_reserved cc_data reserved offset (i + 1) count with
        | .error fault => .error fault
        | .ok rest => .ok (b :: rest)

/-- Embedding of `znet_cc_configuration_properties_report` (source lines
416-453). The output buffer is the report header plus `param_size` bytes, so it
reserves `param_size` bytes for `data`; the copy loop runs over
`param_size + 2` indices. -/
def znet_cc_configuration_properties_report (znet_cb : Option znet_callbacks_t)
    (func : ZFunction) (node_id : Nat) (cc_data : List Nat) : Outcome :=
  if cc_data.length < ZNET_CMD_CONFIGURATION_PROP_REPORT_CHECK_LEN then
    .aborted (.assertion "cc_data_len >= ZNET_CMD_CONFIGURATION_PROP_REPORT_CHECK_LEN") []
  else if cc_data.getD 0 0 ≠ ZNET_COMMAND_CLASS_CONFIGURATION then
    .aborted (.assertion "cc_data[0] == ZNET_COMMAND_CLASS_CONFIGURATION") []
  else if cc_data.getD 1 0 ≠ CONFIGURATION_PROPERTIES_REPORT_V4 then
    .aborted (.assertion "cc_data[1] == CONFIGURATION_PROPERTIES_REPORT_V4") []
  else if ¬ (cc_data.getD 4 0 &&& 0x07) ≠ 0x03 then
    .aborted (.assertion "( cc_data[4] & 0x07 ) != 0x03") []
  else if node_id < ZNET_NODE_ID_MIN ∨ node_id > ZNET_NODE_ID_MAX then
    .returned []
  else
    let param_num := ((cc_data.getD 2 0 <<< 8) ||| cc_data.getD 3 0) % 2 ^ 16
    if param_num = 0 then
      .aborted (.assertion "param_num") []
    else
      let param_size := (cc_data.getD 4 0 &&& 0x07) * 0x03
      if cc_data.length < ZNET_CMD_CONFIGURATION_PROP_REPORT_CHECK_LEN + param_size then
        .aborted (.assertion
          "cc_data_len >= ZNET_CMD_CONFIGURATION_PROP_REPORT_CHECK_LEN + param_size") []
      else
        match copy_bytes_reserved cc_data param_size
            (ZNET_CMD_CONFIGURATION_PROP_REPORT_CHECK_LEN - 2) 0 (param_size + 2) with
        | .error fault => .aborted fault []
        | .ok data =>
          let prop_report : znet_configuration_properties_report_t :=
            { __ver := 0, param_number := param_num,
              data_format :=
                ((cc_data.getD 4 0 &&& CONFIGURATION_PROPERTIES_REPORT_PROPERTIES1_FORMAT_MASK_V4)
                  >>> CONFIGURATION_PROPERTIES_REPORT_PROPERTIES1_FORMAT_SHIFT_V4) % 256,
              data_size :=
                (cc_data.getD 4 0 &&&
                  CONFIGURATION_PROPERTIES_REPORT_PROPERTIES1_SIZE_MASK_V4) % 256,
              data := data }
          match znet_cb with
          | none => .aborted .null_znet_cb []
          | some cb =>
            if cb.node_cmd_configuration_properties_result then
              .returned [.node_cmd_configuration_properties_result 0 node_id func._endpoint
                (some prop_report) cb.arg]
            else
              .returned []

/-! ## Public entries

`send` stands for the lower send layer (`znet_lib`, not part of the sources): it
gives, for each call, the boolean the call returns. The call itself is recorded
in the trace. -/

/-- Embedding of `_znet_node_cmd_configuration_get_cb` (source lines 67-76).
`reason_ok` is `FUNC_OK == reason`. -/
def _znet_node_cmd_configuration_get_cb (znet_cb : Option znet_callbacks_t) (func : ZFunction)
    (reason_ok : Bool) : Outcome :=
  if !reason_ok then
    match znet_cb with
    | none => .aborted .null_znet_cb []
    | some cb =>
      if cb.node_cmd_configuration_result then
        .returned [.node_cmd_configuration_result (-1) ZNET_NODE_ID_INVALID func._endpoint
          none cb.arg]
      else
        .returned []
  else
    .returned []

/-- Embedding of `znet_node_cmd_configuration_get` (source lines 78-113). -/
def znet_node_cmd_configuration_get (znet_cb : Option znet_callbacks_t)
    (send : LowerCall → Bool) (node_id channel_id config_param_num : Nat) : Outcome :=
  if config_param_num = 0 then
    .aborted (.assertion "config_param_num") []
  else
    match znet_cb with
    | none => .returned [.log "ZNET: Library not initialized!\n"]
    | some cb =>
      let rejected : List Event :=
        if node_id < ZNET_NODE_ID_MIN ∨ node_id > ZNET_NODE_ID_MAX then
          if cb.node_cmd_configuration_result then
            [.node_cmd_configuration_result (-1) ZNET_NODE_ID_INVALID channel_id none cb.arg]
          else []
        else []
      let from_to : Nat × Nat := (ZNET_CHANNEL_ID_ROOT, channel_id)
      let callbackArg : Option (Nat × Nat) :=
        if channel_id ≠ ZNET_CHANNEL_ID_ROOT then some from_to else none
      let encap : Nat :=
        if channel_id ≠ ZNET_CHANNEL_ID_ROOT then Encapsulation_None ||| Encapsulation_MuCh
        else Encapsulation_None
      let call := LowerCall.znet_cc_configuration_get node_id config_param_num
        (some ._znet_node_cmd_configuration_get_cb) callbackArg encap
      let failed : List Event :=
        if !send call then
          if cb.node_cmd_configuration_result then
            [.node_cmd_configuration_result (-1) ZNET_NODE_ID_INVALID channel_id none cb.arg]
          else []
        else []
      .returned (rejected ++ [.lower call] ++ failed)

/-- Embedding of `znet_node_cmd_configuration_set` (source lines 116-153). -/
def znet_node_cmd_configuration_set (znet_cb : Option znet_callbacks_t)
    (node_id channel_id config_param_num config_size : Nat) (set_to_default : Int)
    (config_value : Nat) : Outcome :=
  if ¬ config_param_num > 0 then
    .aborted (.assertion "config_param_num > 0") []
  else
    match znet_cb with
    | none => .returned [.log "ZNET: Library not initialized!\n"]
    | some _ =>
      if node_id < ZNET_NODE_ID_MIN ∨ node_id > ZNET_NODE_ID_MAX then
        .returned [.log "ZNET: Invalid node ID!\n"]
      else
        let temp_val := (config_size &&& CONFIGURATION_SET_LEVEL_SIZE_MASK) % 256
        if temp_val > ZNET_CMD_CONFIGURATION_PARAM_NUM_MAX ∨ temp_val = 0 ∨
            temp_val = ZNET_CMD_CONFIGURATION_PARAM_NUM_INVALID then
          .returned [.log "ZNET: Invalid size ID!\n"]
        else
          let from_to : Nat × Nat := (ZNET_CHANNEL_ID_ROOT, channel_id)
          let callbackArg : Option (Nat × Nat) :=
            if channel_id ≠ ZNET_CHANNEL_ID_ROOT then some from_to else none
          let encap : Nat :=
            if channel_id ≠ ZNET_CHANNEL_ID_ROOT then Encapsulation_None ||| Encapsulation_MuCh
            else Encapsulation_None
          .returned [.lower (.znet_cc_configuration_set node_id config_param_num
            (decide (set_to_default ≠ 0)) config_value config_size none callbackArg encap)]

/-- Embedding of `znet_node_cmd_configuration_bulk_set` (source lines 209-246).
`config_value` is the buffer the pointer argument designates. -/
def znet_node_cmd_configuration_bulk_set (znet_cb : Option znet_callbacks_t)
    (node_id channel_id config_id config_count config_size : Nat)
    (need_report set_to_default : Int) (config_value : List Nat) : Outcome :=
  match znet_cb with
  | none => .returned [.log "ZNET: Library not initialized!\n"]
  | some _ =>
    if node_id < ZNET_NODE_ID_MIN ∨ node_id > ZNET_NODE_ID_MAX then
      .returned []
    else
      let temp_val := (config_size &&& CONFIGURATION_SET_LEVEL_SIZE_MASK) % 256
      if temp_val > ZNET_CMD_CONFIGURATION_PARAM_NUM_MAX ∨ temp_val = 0 ∨
          temp_val = ZNET_CMD_CONFIGURATION_PARAM_NUM_INVALID then
        .returned [.log "ZNET: Invalid size ID!\n"]
      else
        let from_to : Nat × Nat := (ZNET_CHANNEL_ID_ROOT, channel_id)
        let callbackArg : Option (Nat × Nat) :=
          if channel_id ≠ ZNET_CHANNEL_ID_ROOT then some from_to else none
        let encap : Nat :=
          if channel_id ≠ ZNET_CHANNEL_ID_ROOT then Encapsulation_None ||| Encapsulation_MuCh
          else Encapsulation_None
        .returned [.lower (.znet_cc_configuration_bulk_set node_id config_id config_count
          (decide (set_to_default ≠ 0)) (decide (need_report ≠ 0)) temp_val config_value
          none callbackArg encap)]

/-- Embedding of `znet_node_cmd_configuration_bulk_get` (source lines 248-280). -/
def znet_node_cmd_configuration_bulk_get (znet_cb : Option znet_callbacks_t)
    (send : LowerCall → Bool) (node_id channel_id config_id config_count : Nat) : Outcome :=
  match znet_cb with
  | none => .returned [.log "ZNET: Library not initialized!\n"]
  | some cb =>
    if node_id < ZNET_NODE_ID_MIN ∨ node_id > ZNET_NODE_ID_MAX then
      .returned []
    else
      let from_to : Nat × Nat := (ZNET_CHANNEL_ID_ROOT, channel_id)
      let callbackArg : Option (Nat × Nat) :=
        if channel_id ≠ ZNET_CHANNEL_ID_ROOT then some from_to else none
      let encap : Nat :=
        if channel_id ≠ ZNET_CHANNEL_ID_ROOT then Encapsulation_None ||| Encapsulation_MuCh
        else Encapsulation_None
      let call := LowerCall.znet_cc_configuration_bulk_get node_id config_id config_count
        none callbackArg encap
      let failed : List Event :=
        if !send call then
          if cb.node_cmd_configuration_bulk_result then
            [.node_cmd_configuration_bulk_result (-1) ZNET_NODE_ID_INVALID channel_id none cb.arg]
          else []
        else []
      .returned ([.lower call] ++ failed)

/-- Embedding of `znet_node_cmd_configuration_name_get` (source lines 315-347). -/
def znet_node_cmd_configuration_name_get (znet_cb : Option znet_callbacks_t)
    (send : LowerCall → Bool) (node_id channel_id param_number : Nat) : Outcome :=
  match znet_cb with
  | none => .returned [.log "ZNET: Library not initialized!\n"]
  | some cb =>
    if node_id < ZNET_NODE_ID_MIN ∨ node_id > ZNET_NODE_ID_MAX then
      .returned []
    else
      let from_to : Nat × Nat := (ZNET_CHANNEL_ID_ROOT, channel_id)
      let callbackArg : Option (Nat × Nat) :=
        if channel_id ≠ ZNET_CHANNEL_ID_ROOT then some from_to else none
      let encap : Nat :=
        if channel_id ≠ ZNET_CHANNEL_ID_ROOT then Encapsulation_None ||| Encapsulation_MuCh
        else Encapsulation_None
      let call := LowerCall.znet_cc_configuration_name_get node_id param_number
        none callbackArg encap
      let failed : List Event :=
        if !send call then
          if cb.node_cmd_configuration_name_result then
            [.node_cmd_configuration_name_result (-1) ZNET_NODE_ID_INVALID channel_id none cb.arg]
          else []
        else []
      .returned ([.lower call] ++ failed)

/-- Embedding of `znet_node_cmd_configuration_info_get` (source lines 382-414). -/
def znet_node_cmd_configuration_info_get (znet_cb : Option znet_callbacks_t)
    (send : LowerCall → Bool) (node_id channel_id param_number : Nat) : Outcome :=
  match znet_cb with
  | none => .returned [.log "ZNET: Library not initialized!\n"]
  | some cb =>
    if node_id < ZNET_NODE_ID_MIN ∨ node_id > ZNET_NODE_ID_MAX then
      .returned []
    else
      let from_to : Nat × Nat := (ZNET_CHANNEL_ID_ROOT, channel_id)
      let callbackArg : Option (Nat × Nat) :=
        if channel_id ≠ ZNET_CHANNEL_ID_ROOT then some from_to else none
      let encap : Nat :=
        if channel_id ≠ ZNET_CHANNEL_ID_ROOT then Encapsulation_None ||| Encapsulation_MuCh
        else Encapsulation_None
      let call := LowerCall.znet_cc_configuration_info_get node_id param_number
        none callbackArg encap
      let failed : List Event :=
        if !send call then
          if cb.node_cmd_configuration_info_result then
            [.node_cmd_configuration_info_result (-1) ZNET_NODE_ID_INVALID channel_id none cb.arg]
          else []
        else []
      .returned ([.lower call] ++ failed)

/-- Embedding of `znet_node_cmd_configuration_properties_get` (source lines
455-488). -/
def znet_node_cmd_configuration_properties_get (znet_cb : Option znet_callbacks_t)
    (send : LowerCall → Bool) (node_id channel_id param_number : Nat) : Outcome :=
  match znet_cb with
  | none => .returned [.log "ZNET: Library not initialized!\n"]
  | some cb =>
    if node_id < ZNET_NODE_ID_MIN ∨ node_id > ZNET_NODE_ID_MAX then
      .returned []
    else
      let from_to : Nat × Nat := (ZNET_CHANNEL_ID_ROOT, channel_id)
      let callbackArg : Option (Nat × Nat) :=
        if channel_id ≠ ZNET_CHANNEL_ID_ROOT then some from_to else none
      let encap : Nat :=
        if channel_id ≠ ZNET_CHANNEL_ID_ROOT then Encapsulation_None ||| Encapsulation_MuCh
        else Encapsulation_None
      let call := LowerCall.znet_cc_configuration_properties_get node_id param_number
        none callbackArg encap
      let failed : List Event :=
        if !send call then
          if cb.node_cmd_configuration_properties_result then
            [.node_cmd_configuration_properties_result (-1) ZNET_NODE_ID_INVALID channel_id
              none cb.arg]
          else []
        else []
      .returned ([.lower call] ++ failed)

/-- Embedding of `znet_node_cmd_configuration_default_reset` (source lines
490-515). The source computes `encap` and then passes the constant
`Encapsulation_None` in the call. -/
def znet_node_cmd_configuration_default_reset (znet_cb : Option znet_callbacks_t)
    (node_id channel_id : Nat) : Outcome :=
  match znet_cb with
  | none => .returned [.log "ZNET: Library not initialized!\n"]
  | some _ =>
    if node_id < ZNET_NODE_ID_MIN ∨ node_id > ZNET_NODE_ID_MAX then
      .returned [.log "ZNET: Wrong node ID!\n"]
    else
      let from_to : Nat × Nat := (ZNET_CHANNEL_ID_ROOT, channel_id)
      let callbackArg : Option (Nat × Nat) :=
        if channel_id ≠ ZNET_CHANNEL_ID_ROOT then some from_to else none
      let _encap : Nat :=
        if channel_id ≠ ZNET_CHANNEL_ID_ROOT then Encapsulation_None ||| Encapsulation_MuCh
        else Encapsulation_None
      .returned [.lower (.znet_cc_configuration_default_reset node_id none callbackArg
        Encapsulation_None)]

/-! ## Specification-side definitions -/

/-- The unsigned integer a list of bytes denotes, most significant byte first. -/
def be_value (bytes : List Nat) : Nat :=
  bytes.foldl (fun acc b => acc * 256 + b) 0

/-- The `s` big-endian bytes of `v`. -/
def be_bytes : Nat → Nat → List Nat
  | 0, _ => []
  | s + 1, v => (v / 256 ^ s) % 256 :: be_bytes s v

/-- The Configuration Report frame that carries parameter `p` of size `s` and
value `v`: class byte, command byte, parameter number, size, value bytes. -/
def configuration_report_frame (p s v : Nat) : List Nat :=
  [ZNET_COMMAND_CLASS_CONFIGURATION, CONFIGURATION_REPORT, p, s] ++ be_bytes s v

/-- The encapsulation a request for endpoint `channel_id` is to carry: for a
non-root endpoint the Multi-Channel flag and the endpoint pair (root,
`channel_id`); for the root endpoint no encapsulation and no endpoint pair. -/
def issued_for_channel (channel_id : Nat) (call : LowerCall) : Prop :=
  if channel_id ≠ ZNET_CHANNEL_ID_ROOT then
    call.encap &&& Encapsulation_MuCh = Encapsulation_MuCh ∧
      call.callbackArg = some (ZNET_CHANNEL_ID_ROOT, channel_id)
  else
    call.encap = Encapsulation_None ∧ call.callbackArg = none

instance (channel_id : Nat) (call : LowerCall) : Decidable (issued_for_channel channel_id call) := by
  unfold issued_for_channel; infer_instance

/-- A Configuration Report frame that passes every check of
`znet_cc_configuration_report` and holds its value bytes: class and command
bytes, non-zero parameter number, size field 1, 2 or 4, and at least `4 + size`
bytes. -/
def configuration_report_valid (cc_data : List Nat) : Prop :=
  cc_data.getD 0 0 = ZNET_COMMAND_CLASS_CONFIGURATION ∧
  cc_data.getD 1 0 = CONFIGURATION_REPORT ∧
  cc_data.getD 2 0 ≠ 0 ∧
  (cc_data.getD 3 0 &&& 0x07 = 1 ∨ cc_data.getD 3 0 &&& 0x07 = 2 ∨
    cc_data.getD 3 0 &&& 0x07 = 4) ∧
  4 + (cc_data.getD 3 0 &&& 0x07) ≤ cc_data.length

instance (cc_data : List Nat) : Decidable (configuration_report_valid cc_data) := by
  unfold configuration_report_valid; infer_instance

/-- A Configuration Bulk Report frame that passes every check of
`znet_cc_configuration_bulk_report`: minimum length, class and command bytes,
non-zero count, non-zero 16-bit offset, size field 1, 2 or 4, and at least
`7 + size * count` bytes. -/
def bulk_report_valid (cc_data : List Nat) : Prop :=
  7 ≤ cc_data.length ∧
  cc_data.getD 0 0 = ZNET_COMMAND_CLASS_CONFIGURATION ∧
  cc_data.getD 1 0 = CONFIGURATION_BULK_REPORT_V4 ∧
  cc_data.getD 4 0 ≠ 0 ∧
  ((cc_data.getD 2 0 <<< 8) ||| cc_data.getD 3 0) % 2 ^ 16 ≠ 0 ∧
  (cc_data.getD 6 0 &&& 0x07 = 1 ∨ cc_data.getD 6 0 &&& 0x07 = 2 ∨
    cc_data.getD 6 0 &&& 0x07 = 4) ∧
  7 + (cc_data.getD 6 0 &&& 0x07) * cc_data.getD 4 0 ≤ cc_data.length

instance (cc_data : List Nat) : Decidable (bulk_report_valid cc_data) := by
  unfold bulk_report_valid; infer_instance

/-- A Configuration Name Report frame that passes every check of
`znet_cc_configuration_name_report`: class and command bytes, and at least 5
bytes plus as many as the 16-bit value of `cc_data[2..3]`. -/
def name_report_valid (cc_data : List Nat) : Prop :=
  cc_data.getD 0 0 = ZNET_COMMAND_CLASS_CONFIGURATION ∧
  cc_data.getD 1 0 = CONFIGURATION_NAME_REPORT_V4 ∧
  5 + ((cc_data.getD 2 0 <<< 8) ||| cc_data.getD 3 0) % 2 ^ 16 ≤ cc_data.length

instance (cc_data : List Nat) : Decidable (name_report_valid cc_data) := by
  unfold name_report_valid; infer_instance

/-- A Configuration Info Report frame that passes every check of
`znet_cc_configuration_info_report`. -/
def info_report_valid (cc_data : List Nat) : Prop :=
  cc_data.getD 0 0 = ZNET_COMMAND_CLASS_CONFIGURATION ∧
  cc_data.getD 1 0 = CONFIGURATION_INFO_REPORT_V4 ∧
  5 + (((cc_data.getD 2 0 <<< 8) % 2 ^ 16) ||| cc_data.getD 3 0) % 2 ^ 16 ≤ cc_data.length

instance (cc_data : List Nat) : Decidable (info_report_valid cc_data) := by
  unfold info_report_valid; infer_instance

/-- A Configuration Properties Report frame that passes every check of
`znet_cc_configuration_properties_report`: class and command bytes, size field
other than 3, non-zero 16-bit parameter number, and at least `6 + 3 * size`
bytes. -/
def properties_report_valid (cc_data : List Nat) : Prop :=
  cc_data.getD 0 0 = ZNET_COMMAND_CLASS_CONFIGURATION ∧
  cc_data.getD 1 0 = CONFIGURATION_PROPERTIES_REPORT_V4 ∧
  cc_data.getD 4 0 &&& 0x07 ≠ 0x03 ∧
  ((cc_data.getD 2 0 <<< 8) ||| cc_data.getD 3 0) % 2 ^ 16 ≠ 0 ∧
  6 + (cc_data.getD 4 0 &&& 0x07) * 3 ≤ cc_data.length

instance (cc_data : List Nat) : Decidable (properties_report_valid cc_data) := by
  unfold properties_report_valid; infer_instance

/-! ## Indices read and written by the report handlers

For each handler of versions 2 to 4, the indices of `cc_data` it reads, in the
order of the source, along the path the call takes: a failed assertion or an
early return ends the list. -/

/-- The indices of `cc_data` read by `znet_cc_configuration_bulk_report` (source
lines 159-200). -/
def znet_cc_configuration_bulk_report_reads (node_id : Nat) (cc_data : List Nat) : List Nat :=
  if cc_data.length < ZNET_CMD_CONFIGURATION_BULK_REPORT_CHECK_LEN then
    []
  else if cc_data.getD 0 0 ≠ ZNET_COMMAND_CLASS_CONFIGURATION then
    [0]
  else if cc_data.getD 1 0 ≠ CONFIGURATION_BULK_REPORT_V4 then
    [0, 1]
  else if cc_data.getD 4 0 = 0 then
    [0, 1, 4]
  else
    let temp_value := ((cc_data.getD 2 0 <<< 8) ||| cc_data.getD 3 0) % 2 ^ 16
    if temp_value = 0 then
      [0, 1, 4, 2, 3]
    else
      let param_size :=
        (cc_data.getD 6 0 &&& CONFIGURATION_BULK_REPORT_PROPERTIES1_SIZE_MASK_V2) % 256
      if param_size > ZNET_CMD_CONFIGURATION_PARAM_NUM_MAX ∨ param_size = 0 ∨
          param_size = ZNET_CMD_CONFIGURATION_PARAM_NUM_INVALID then
        [0, 1, 4, 2, 3, 6]
      else if node_id < ZNET_NODE_ID_MIN ∨ node_id > ZNET_NODE_ID_MAX then
        [0, 1, 4, 2, 3, 6]
      else
        let data_count := param_size * cc_data.getD 4 0
        if cc_data.length < ZNET_CMD_CONFIGURATION_BULK_REPORT_CHECK_LEN + data_count then
          [0, 1, 4, 2, 3, 6, 4]
        else
          [0, 1, 4, 2, 3, 6, 4, 4, 5] ++
            (List.range data_count).map
              (fun i => ZNET_CMD_CONFIGURATION_BULK_REPORT_CHECK_LEN + i)

/-- The indices of `cc_data` read by `znet_cc_configuration_name_report` (source
lines 286-306). -/
def znet_cc_configuration_name_report_reads (node_id : Nat) (cc_data : List Nat) : List Nat :=
  if cc_data.length < ZNET_CMD_CONFIGURATION_NIP_REPORT_CHECK_LEN then
    []
  else if cc_data.getD 0 0 ≠ ZNET_COMMAND_CLASS_CONFIGURATION then
    [0]
  else if cc_data.getD 1 0 ≠ CONFIGURATION_NAME_REPORT_V4 then
    [0, 1]
  else if node_id < ZNET_NODE_ID_MIN ∨ node_id > ZNET_NODE_ID_MAX then
    [0, 1]
  else
    let name_count := ((cc_data.getD 2 0 <<< 8) ||| cc_data.getD 3 0) % 2 ^ 16
    if cc_data.length < ZNET_CMD_CONFIGURATION_NIP_REPORT_CHECK_LEN + name_count then
      [0, 1, 2, 3]
    else
      [0, 1, 2, 3, 4] ++
        (List.range name_count).map (fun i => ZNET_CMD_CONFIGURATION_NIP_REPORT_CHECK_LEN + i)

/-- The indices of `cc_data` read by `znet_cc_configuration_info_report` (source
lines 352-373). -/
def znet_cc_configuration_info_report_reads (node_id : Nat) (cc_data : List Nat) : List Nat :=
  if cc_data.length < ZNET_CMD_CONFIGURATION_NIP_REPORT_CHECK_LEN then
    []
  else if cc_data.getD 0 0 ≠ ZNET_COMMAND_CLASS_CONFIGURATION then
    [0]
  else if cc_data.getD 1 0 ≠ CONFIGURATION_INFO_REPORT_V4 then
    [0, 1]
  else if node_id < ZNET_NODE_ID_MIN ∨ node_id > ZNET_NODE_ID_MAX then
    [0, 1]
  else
    let info_count := (((cc_data.getD 2 0 <<< 8) % 2 ^ 16) ||| cc_data.getD 3 0) % 2 ^ 16
    if cc_data.length < ZNET_CMD_CONFIGURATION_NIP_REPORT_CHECK_LEN + info_count then
      [0, 1, 2, 3]
    else
      [0, 1, 2, 3, 4] ++
        (List.range info_count).map (fun i => ZNET_CMD_CONFIGURATION_NIP_REPORT_CHECK_LEN + i)

/-- The indices of `cc_data` read by `znet_cc_configuration_properties_report`
(source lines 419-446); the reads of the copy loop are listed for all the
`param_size + 2` iterations of the source. -/
def znet_cc_configuration_properties_report_reads (node_id : Nat) (cc_data : List Nat) :
    List Nat :=
  if cc_data.length < ZNET_CMD_CONFIGURATION_PROP_REPORT_CHECK_LEN then
    []
  else if cc_data.getD 0 0 ≠ ZNET_COMMAND_CLASS_CONFIGURATION then
    [0]
  else if cc_data.getD 1 0 ≠ CONFIGURATION_PROPERTIES_REPORT_V4 then
    [0, 1]
  else if ¬ (cc_data.getD 4 0 &&& 0x07) ≠ 0x03 then
    [0, 1, 4]
  else if node_id < ZNET_NODE_ID_MIN ∨ node_id > ZNET_NODE_ID_MAX then
    [0, 1, 4]
  else
    let param_num := ((cc_data.getD 2 0 <<< 8) ||| cc_data.getD 3 0) % 2 ^ 16
    if param_num = 0 then
      [0, 1, 4, 2, 3]
    else
      let param_size := (cc_data.getD 4 0 &&& 0x07) * 0x03
      if cc_data.length < ZNET_CMD_CONFIGURATION_PROP_REPORT_CHECK_LEN + param_size then
        [0, 1, 4, 2, 3, 4]
      else
        [0, 1, 4, 2, 3, 4, 4, 4] ++
          (List.range (param_size + 2)).map
            (fun i => (ZNET_CMD_CONFIGURATION_PROP_REPORT_CHECK_LEN - 2) + i)

/-- The number of bytes of the `data` array that the output buffer of
`znet_cc_configuration_properties_report` reserves (source lines 431-436):
`buff_size` is the size of the report header plus `param_size`. -/
def znet_cc_configuration_properties_report_data_reserved (cc_data : List Nat) : Nat :=
  (cc_data.getD 4 0 &&& 0x07) * 0x03

/-- The indices of the `data` array that the copy loop of
`znet_cc_configuration_properties_report` writes (source lines 445-446):
`for (i = 0; i < param_size + 2; i++) prop_report->data[i] = ...`. -/
def znet_cc_configuration_properties_report_data_writes (cc_data : List Nat) : List Nat :=
  List.range ((cc_data.getD 4 0 &&& 0x07) * 0x03 + 2)

/-- Whether a run stopped at a read of `cc_data` past its length. -/
def Outcome.readPastFrame : Outcome → Bool
  | .aborted (.out_of_bounds _) _ => true
  | _ => false

/-- Whether a run returned normally. -/
def Outcome.isReturned : Outcome → Bool
  | .returned _ => true
  | .aborted _ _ => false

/-- The invocation of the info result callback that carries the same error,
node, channel, argument and report fields (reserved byte, param_number,
rep_to_follows, data) as a given invocation of the name result callback; other
events are left as they are. -/
def name_result_as_info_result : Event → Event
  | .node_cmd_configuration_name_result err node_id channel_id value arg =>
    .node_cmd_configuration_info_result err node_id channel_id
      (value.map fun r =>
        { __ver := r.__ver, param_number := r.param_number,
          rep_to_follows := r.rep_to_follows, data := r.data }) arg
  | e => e

/-! ## Theorems -/

/-! ### Arithmetic of the byte operations -/

theorem shl8_or_eq (a b : Nat) (hb : b < 256) : (a <<< 8) ||| b = a * 256 + b := by
  have h := Nat.mul_add_lt_is_or (i := 8) (b := b) (by simpa using hb) a
  rw [Nat.shiftLeft_eq, ← Nat.mul_comm (2 ^ 8) a, ← h]

theorem and_seven_eq_mod (x : Nat) : x &&& 7 = x % 8 :=
  Nat.and_pow_two_sub_one_eq_mod x 3

theorem size_field_eq (x : Nat) :
    (x &&& CONFIGURATION_SET_LEVEL_SIZE_MASK) % 256 = x % 8 := by
  show (x &&& 7) % 256 = x % 8
  rw [and_seven_eq_mod]
  omega

/-- The run of `znet_cc_configuration_report` on an accepted frame: one
invocation of the configuration result callback, carrying the decoded report. -/
theorem znet_cc_configuration_report_accepted (cb : znet_callbacks_t) (func : ZFunction)
    (node_id : Nat) (cc_data : List Nat) (s : Nat)
    (hbytes : ∀ b ∈ cc_data, b < 256)
    (hclass : cc_data.getD 0 0 = ZNET_COMMAND_CLASS_CONFIGURATION)
    (hcmd : cc_data.getD 1 0 = CONFIGURATION_REPORT)
    (hparam : cc_data.getD 2 0 ≠ 0)
    (hnode : ZNET_NODE_ID_MIN ≤ node_id ∧ node_id ≤ ZNET_NODE_ID_MAX)
    (hsize : cc_data.getD 3 0 &&& 0x07 = s)
    (hlegal : s = 1 ∨ s = 2 ∨ s = 4)
    (hlen : 4 + s ≤ cc_data.length)
    (hcb : cb.node_cmd_configuration_result = true) :
    znet_cc_configuration_report (some cb) func node_id cc_data =
      .returned [.node_cmd_configuration_result 0 node_id func._endpoint
        (some { __ver := 0, param_number := cc_data.getD 2 0, data_count := s,
                value := be_value ((cc_data.drop 4).take s) }) cb.arg] := by
  obtain ⟨hmin, hmax⟩ := hnode
  have hnode2 : ¬ (node_id < ZNET_NODE_ID_MIN ∨ node_id > ZNET_NODE_ID_MAX) := by
    simp only [ZNET_NODE_ID_MIN, ZNET_NODE_ID_MAX] at *; omega
  have hs1 : 1 ≤ s := by omega
  rcases cc_data with _ | ⟨c0, _ | ⟨c1, _ | ⟨p, _ | ⟨q, _ | ⟨v0, rest⟩⟩⟩⟩⟩ <;>
    simp only [List.length_cons, List.length_nil] at hlen <;> try omega
  simp only [List.getD_cons_zero, List.getD_cons_succ] at hclass hcmd hparam hsize
  have hq : (q &&& CONFIGURATION_SET_LEVEL_SIZE_MASK) % 256 = s := by
    rw [size_field_eq, ← and_seven_eq_mod]; exact hsize
  have hv0 : v0 < 256 := hbytes v0 (by simp)
  rcases hlegal with h | h | h
  · subst h
    simp [znet_cc_configuration_report, znet_cc_configuration_report_build, read, hclass,
      hcmd, hparam, hnode2, hq, hcb, be_value, bind, Except.bind, pure, Except.pure,
      ZNET_CMD_CONFIGURATION_REPORT_CHECK_LEN, ZNET_CMD_CONFIGURATION_PARAM_NUM_MAX,
      ZNET_CMD_CONFIGURATION_PARAM_NUM_INVALID]
    rw [if_neg (by omega), if_neg (by simp only [ZNET_NODE_ID_MIN, ZNET_NODE_ID_MAX] at *; omega)]
  · subst h
    rcases rest with _ | ⟨v1, rest⟩ <;>
      simp only [List.length_cons, List.length_nil] at hlen <;> try omega
    have hv1 : v1 < 256 := hbytes v1 (by simp)
    have e1 : (v0 <<< 8 ||| v1) % 4294967296 = v0 * 256 + v1 := by
      rw [shl8_or_eq v0 v1 hv1]; omega
    simp [znet_cc_configuration_report, znet_cc_configuration_report_build, read, hclass,
      hcmd, hparam, hnode2, hq, hcb, be_value, e1, bind, Except.bind, pure, Except.pure,
      ZNET_CMD_CONFIGURATION_REPORT_CHECK_LEN, ZNET_CMD_CONFIGURATION_PARAM_NUM_MAX,
      ZNET_CMD_CONFIGURATION_PARAM_NUM_INVALID]
    rw [if_neg (by omega), if_neg (by simp only [ZNET_NODE_ID_MIN, ZNET_NODE_ID_MAX] at *; omega)]
  · subst h
    rcases rest with _ | ⟨v1, _ | ⟨v2, _ | ⟨v3, rest⟩⟩⟩ <;>
      simp only [List.length_cons, List.length_nil] at hlen <;> try omega
    have hv1 : v1 < 256 := hbytes v1 (by simp)
    have hv2 : v2 < 256 := hbytes v2 (by simp)
    have hv3 : v3 < 256 := hbytes v3 (by simp)
    have e1 : (v0 <<< 8 ||| v1) % 4294967296 = v0 * 256 + v1 := by
      rw [shl8_or_eq v0 v1 hv1]; omega
    have e2 : ((v0 * 256 + v1) <<< 8 ||| v2) % 4294967296 = (v0 * 256 + v1) * 256 + v2 := by
      rw [shl8_or_eq _ v2 hv2]; omega
    have e3 : (((v0 * 256 + v1) * 256 + v2) <<< 8 ||| v3) % 4294967296 =
        ((v0 * 256 + v1) * 256 + v2) * 256 + v3 := by
      rw [shl8_or_eq _ v3 hv3]; omega
    simp [znet_cc_configuration_report, znet_cc_configuration_report_build, read, hclass,
      hcmd, hparam, hnode2, hq, hcb, be_value, e1, e2, e3, bind, Except.bind, pure, Except.pure,
      ZNET_CMD_CONFIGURATION_REPORT_CHECK_LEN, ZNET_CMD_CONFIGURATION_PARAM_NUM_MAX,
      ZNET_CMD_CONFIGURATION_PARAM_NUM_INVALID]
    rw [if_neg (by omega), if_neg (by simp only [ZNET_NODE_ID_MIN, ZNET_NODE_ID_MAX] at *; omega)]

theorem be_bytes_length (s v : Nat) : (be_bytes s v).length = s := by
  induction s with
  | zero => rfl
  | succ n ih => simp [be_bytes, ih]

theorem be_bytes_lt (s v : Nat) : ∀ b ∈ be_bytes s v, b < 256 := by
  induction s with
  | zero => simp [be_bytes]
  | succ n ih =>
    intro b hb
    simp only [be_bytes, List.mem_cons] at hb
    rcases hb with h | h
    · subst h; exact Nat.mod_lt _ (by norm_num)
    · exact ih b h

/-- Decoding the big-endian bytes of a value that fits gives the value back, for
the three legal sizes. -/
theorem be_value_be_bytes (s v : Nat) (hs : s = 1 ∨ s = 2 ∨ s = 4) (hv : v < 2 ^ (8 * s)) :
    be_value (be_bytes s v) = v := by
  rcases hs with h | h | h <;> subst h <;> norm_num at hv <;>
    simp [be_value, be_bytes] <;> omega

/-- The run of `znet_cc_configuration_report` on an encoded report frame. -/
theorem znet_cc_configuration_report_frame (cb : znet_callbacks_t) (func : ZFunction)
    (node_id p s v : Nat)
    (hnode : ZNET_NODE_ID_MIN ≤ node_id ∧ node_id ≤ ZNET_NODE_ID_MAX)
    (hcb : cb.node_cmd_configuration_result = true)
    (hp : 1 ≤ p ∧ p ≤ 255) (hs : s = 1 ∨ s = 2 ∨ s = 4) (hv : v < 2 ^ (8 * s)) :
    znet_cc_configuration_report (some cb) func node_id (configuration_report_frame p s v) =
      .returned [.node_cmd_configuration_result 0 node_id func._endpoint
        (some { __ver := 0, param_number := p, data_count := s, value := v }) cb.arg] := by
  have hs7 : s &&& 0x07 = s := by
    rcases hs with h | h | h <;> subst h <;> decide
  have h := znet_cc_configuration_report_accepted cb func node_id
    (configuration_report_frame p s v) s
    (by
      intro b hb
      simp only [configuration_report_frame, List.cons_append, List.nil_append,
        List.mem_cons] at hb
      rcases hb with h | h | h | h | h
      · subst h; decide
      · subst h; decide
      · omega
      · rcases hs with h1 | h1 | h1 <;> omega
      · exact be_bytes_lt s v b h)
    (by simp [configuration_report_frame])
    (by simp [configuration_report_frame])
    (by simp [configuration_report_frame]; omega)
    hnode
    (by simpa [configuration_report_frame] using hs7)
    hs
    (by simp [configuration_report_frame, be_bytes_length]; omega)
    hcb
  rw [h]
  have hd : ((configuration_report_frame p s v).drop 4).take s = be_bytes s v := by
    simp only [configuration_report_frame, List.cons_append, List.nil_append,
      List.drop_succ_cons, List.drop_zero]
    exact List.take_of_length_le (by rw [be_bytes_length])
  rw [hd, be_value_be_bytes s v hs hv]
  simp [configuration_report_frame]

/-- C1: a well-formed Configuration Report with size 1, 2 or 4 and enough
bytes, for a node in [1,232], makes the handler invoke the configuration result
callback exactly once (the trace is that single event), with err 0, the node,
the endpoint of the session and the report (parameter number, size, big-endian
value of the value bytes). -/
theorem configuration_report_delivers (cb : znet_callbacks_t) (func : ZFunction)
    (node_id : Nat) (cc_data : List Nat) (s : Nat)
    (hbytes : ∀ b ∈ cc_data, b < 256)
    (hclass : cc_data.getD 0 0 = ZNET_COMMAND_CLASS_CONFIGURATION)
    (hcmd : cc_data.getD 1 0 = CONFIGURATION_REPORT)
    (hparam : cc_data.getD 2 0 ≠ 0)
    (hnode : ZNET_NODE_ID_MIN ≤ node_id ∧ node_id ≤ ZNET_NODE_ID_MAX)
    (hsize : cc_data.getD 3 0 &&& 0x07 = s)
    (hlegal : s = 1 ∨ s = 2 ∨ s = 4)
    (hlen : 4 + s ≤ cc_data.length)
    (hcb : cb.node_cmd_configuration_result = true) :
    znet_cc_configuration_report (some cb) func node_id cc_data =
      .returned [.node_cmd_configuration_result 0 node_id func._endpoint
        (some { __ver := 0, param_number := cc_data.getD 2 0, data_count := s,
                value := be_value ((cc_data.drop 4).take s) }) cb.arg] :=
  znet_cc_configuration_report_accepted cb func node_id cc_data s hbytes hclass hcmd hparam
    hnode hsize hlegal hlen hcb

/-- Witness of C1: node 5, endpoint 3, parameter 7 of size 2 with value bytes
0x12 0x34. -/
theorem configuration_report_delivers_witness :
    znet_cc_configuration_report (some ⟨9, true, true, true, true, true⟩) ⟨3⟩ 5
      [0x70, 0x06, 7, 2, 0x12, 0x34] =
      .returned [.node_cmd_configuration_result 0 5 3 (some ⟨0, 7, 2, 0x1234⟩) 9] :=
  configuration_report_delivers ⟨9, true, true, true, true, true⟩ ⟨3⟩ 5
    [0x70, 0x06, 7, 2, 0x12, 0x34] 2 (by decide) (by decide) (by decide) (by decide)
    (by decide) (by decide) (by decide) (by decide) (by decide)

/-- C2: round trip of Configuration reports. Decoding the frame that encodes
(p, s, v), with p in 1..255, s in 1, 2, 4 and v below 2^(8 s), delivers
exactly the report (p, s, v); and two such frames whose decodings are equal are
equal. -/
theorem configuration_report_round_trip (cb : znet_callbacks_t) (func : ZFunction)
    (node_id p s v : Nat)
    (hnode : ZNET_NODE_ID_MIN ≤ node_id ∧ node_id ≤ ZNET_NODE_ID_MAX)
    (hcb : cb.node_cmd_configuration_result = true)
    (hp : 1 ≤ p ∧ p ≤ 255) (hs : s = 1 ∨ s = 2 ∨ s = 4) (hv : v < 2 ^ (8 * s)) :
    znet_cc_configuration_report (some cb) func node_id (configuration_report_frame p s v) =
      .returned [.node_cmd_configuration_result 0 node_id func._endpoint
        (some { __ver := 0, param_number := p, data_count := s, value := v }) cb.arg]
    ∧ ∀ p2 s2 v2 : Nat, (1 ≤ p2 ∧ p2 ≤ 255) → (s2 = 1 ∨ s2 = 2 ∨ s2 = 4) → v2 < 2 ^ (8 * s2) →
        znet_cc_configuration_report (some cb) func node_id (configuration_report_frame p2 s2 v2)
          = znet_cc_configuration_report (some cb) func node_id
              (configuration_report_frame p s v) →
        configuration_report_frame p2 s2 v2 = configuration_report_frame p s v := by
  refine ⟨znet_cc_configuration_report_frame cb func node_id p s v hnode hcb hp hs hv, ?_⟩
  intro p2 s2 v2 hp2 hs2 hv2 heq
  rw [znet_cc_configuration_report_frame cb func node_id p s v hnode hcb hp hs hv,
    znet_cc_configuration_report_frame cb func node_id p2 s2 v2 hnode hcb hp2 hs2 hv2] at heq
  simp only [Outcome.returned.injEq, List.cons.injEq, Event.node_cmd_configuration_result.injEq,
    Option.some.injEq, znet_configuration_report_t.mk.injEq, and_true, true_and] at heq
  obtain ⟨h1, h2, h3⟩ := heq
  rw [h1, h2, h3]

/-- Witness of C2: parameter 7, size 2, value 0x1234, node 5. -/
theorem configuration_report_round_trip_witness :
    znet_cc_configuration_report (some ⟨9, true, true, true, true, true⟩) ⟨3⟩ 5
        (configuration_report_frame 7 2 0x1234) =
      .returned [.node_cmd_configuration_result 0 5 3 (some ⟨0, 7, 2, 0x1234⟩) 9] :=
  (configuration_report_round_trip ⟨9, true, true, true, true, true⟩ ⟨3⟩ 5 7 2 0x1234
    (by decide) (by decide) (by decide) (by decide) (by decide)).1

/-- C3: a Configuration Report whose size field (low 3 bits of `cc_data[3]`) is
not 1, 2 or 4 makes the handler invoke no user callback, whatever the other
bytes, the node id and the callback table are. -/
theorem configuration_report_illegal_size_silent (znet_cb : Option znet_callbacks_t)
    (func : ZFunction) (node_id : Nat) (cc_data : List Nat)
    (hsize : cc_data.getD 3 0 &&& 0x07 ≠ 1 ∧ cc_data.getD 3 0 &&& 0x07 ≠ 2 ∧
      cc_data.getD 3 0 &&& 0x07 ≠ 4) :
    (znet_cc_configuration_report znet_cb func node_id cc_data).userCallbacks = [] := by
  have hq := size_field_eq (cc_data.getD 3 0)
  rw [and_seven_eq_mod] at hsize
  unfold znet_cc_configuration_report
  simp only [hq]
  split_ifs with h1 h2 h3 h4 h5 h6
  · rfl
  · rfl
  · rfl
  · rfl
  · rfl
  · rfl
  · exfalso
    simp only [ZNET_CMD_CONFIGURATION_PARAM_NUM_MAX,
      ZNET_CMD_CONFIGURATION_PARAM_NUM_INVALID] at h6
    omega

/-- Witness of C3: size field 3 in an otherwise well-formed frame, node 5, all
callbacks present; the run only logs. -/
theorem configuration_report_illegal_size_silent_witness :
    (znet_cc_configuration_report (some ⟨9, true, true, true, true, true⟩) ⟨0⟩ 5
      [0x70, 0x06, 1, 3, 0, 0, 0]).userCallbacks = [] ∧
    znet_cc_configuration_report (some ⟨9, true, true, true, true, true⟩) ⟨0⟩ 5
      [0x70, 0x06, 1, 3, 0, 0, 0] = .returned [.log "ZNET: Invalid size ID!\n"] :=
  ⟨configuration_report_illegal_size_silent (some ⟨9, true, true, true, true, true⟩) ⟨0⟩ 5
    [0x70, 0x06, 1, 3, 0, 0, 0] (by decide), by decide⟩

/-- The size check of the set entries accepts exactly the sizes whose low three
bits are 1, 2 or 4. -/
theorem size_check_rejects_iff (config_size : Nat) :
    ((config_size &&& CONFIGURATION_SET_LEVEL_SIZE_MASK) % 256 >
        ZNET_CMD_CONFIGURATION_PARAM_NUM_MAX ∨
      (config_size &&& CONFIGURATION_SET_LEVEL_SIZE_MASK) % 256 = 0 ∨
      (config_size &&& CONFIGURATION_SET_LEVEL_SIZE_MASK) % 256 =
        ZNET_CMD_CONFIGURATION_PARAM_NUM_INVALID) ↔
    (config_size &&& 0x07 ≠ 1 ∧ config_size &&& 0x07 ≠ 2 ∧ config_size &&& 0x07 ≠ 4) := by
  rw [size_field_eq, and_seven_eq_mod]
  simp only [ZNET_CMD_CONFIGURATION_PARAM_NUM_MAX, ZNET_CMD_CONFIGURATION_PARAM_NUM_INVALID]
  omega

/-- C4, as stated, fails: `config_size = 9` is none of 1, 2, 4, yet the call
for node 5, parameter 1 is accepted: the lower layer is called, with size 9, and
nothing is logged. -/
theorem configuration_set_size_nine_sent :
    (9 ≠ 1 ∧ 9 ≠ 2 ∧ 9 ≠ 4) ∧
    znet_node_cmd_configuration_set (some ⟨0, true, true, true, true, true⟩) 5 0 1 9 0 0 =
      .returned [.lower (.znet_cc_configuration_set 5 1 false 0 9 none none
        Encapsulation_None)] ∧
    (znet_node_cmd_configuration_set (some ⟨0, true, true, true, true, true⟩) 5 0 1 9 0
      0).logs = [] := by
  decide

/-- C4, amended: on an initialised library, a call with a non-zero parameter
number and a size whose low three bits are not 1, 2 or 4 is rejected
synchronously: the call returns, its whole trace is one error log line, and so
the lower layer is never called. -/
theorem configuration_set_illegal_size_rejected (cb : znet_callbacks_t)
    (node_id channel_id config_param_num config_size : Nat) (set_to_default : Int)
    (config_value : Nat)
    (hparam : config_param_num > 0)
    (hsize : config_size &&& 0x07 ≠ 1 ∧ config_size &&& 0x07 ≠ 2 ∧ config_size &&& 0x07 ≠ 4) :
    (∃ msg, znet_node_cmd_configuration_set (some cb) node_id channel_id config_param_num
        config_size set_to_default config_value = .returned [.log msg]) ∧
    (znet_node_cmd_configuration_set (some cb) node_id channel_id config_param_num
        config_size set_to_default config_value).lowerCalls = [] ∧
    (znet_node_cmd_configuration_set (some cb) node_id channel_id config_param_num
        config_size set_to_default config_value).logs ≠ [] := by
  have hrej := (size_check_rejects_iff config_size).mpr hsize
  unfold znet_node_cmd_configuration_set
  simp only [hparam, not_true_eq_false, if_false]
  by_cases hnode : node_id < ZNET_NODE_ID_MIN ∨ node_id > ZNET_NODE_ID_MAX
  · rw [if_pos hnode]
    exact ⟨⟨_, rfl⟩, rfl, by simp [Outcome.logs, Outcome.trace, Event.isLog]⟩
  · rw [if_neg hnode, if_pos hrej]
    exact ⟨⟨_, rfl⟩, rfl, by simp [Outcome.logs, Outcome.trace, Event.isLog]⟩

/-- Witness of C4 amended: node 5, parameter 1, size 3, value 0. -/
theorem configuration_set_illegal_size_rejected_witness :
    znet_node_cmd_configuration_set (some ⟨0, true, true, true, true, true⟩) 5 0 1 3 0 0 =
      .returned [.log "ZNET: Invalid size ID!\n"] ∧
    (znet_node_cmd_configuration_set (some ⟨0, true, true, true, true, true⟩) 5 0 1 3 0
      0).lowerCalls = [] :=
  ⟨by decide,
    (configuration_set_illegal_size_rejected ⟨0, true, true, true, true, true⟩ 5 0 1 3 0 0
      (by decide) (by decide)).2.1⟩

/-- C5 fails on the code: for node id 0 (outside [1,232]) the get entry invokes
the result callback with an error and then still calls
`znet_cc_configuration_get`, with node id 0. The same happens for node id 233. -/
theorem configuration_get_invalid_node_still_sent :
    znet_node_cmd_configuration_get (some ⟨0, true, true, true, true, true⟩) (fun _ => true)
        0 0 1 =
      .returned [.node_cmd_configuration_result (-1) ZNET_NODE_ID_INVALID 0 none 0,
        .lower (.znet_cc_configuration_get 0 1 (some ._znet_node_cmd_configuration_get_cb)
          none Encapsulation_None)] ∧
    (znet_node_cmd_configuration_get (some ⟨0, true, true, true, true, true⟩) (fun _ => true)
        233 0 1).lowerCalls =
      [.znet_cc_configuration_get 233 1 (some ._znet_node_cmd_configuration_get_cb)
          none Encapsulation_None] := by
  decide

/-- C6: for a node id outside [1,232], on an initialised library, none of the
entries set, bulk_set, bulk_get, name_get, info_get, properties_get and
default_reset calls its lower-layer send routine, whatever the other arguments
are; each of them returns (set under its asserted precondition, a non-zero
parameter number; for a zero one the assertion stops the call, again before any
lower-layer call). -/
theorem configuration_entries_invalid_node_not_sent (cb : znet_callbacks_t)
    (send : LowerCall → Bool)
    (node_id channel_id config_param_num config_size config_value : Nat)
    (set_to_default need_report : Int)
    (config_id config_count param_number : Nat) (config_values : List Nat)
    (hnode : node_id < ZNET_NODE_ID_MIN ∨ node_id > ZNET_NODE_ID_MAX) :
    (znet_node_cmd_configuration_set (some cb) node_id channel_id config_param_num
        config_size set_to_default config_value).lowerCalls = [] ∧
    (config_param_num > 0 →
      znet_node_cmd_configuration_set (some cb) node_id channel_id config_param_num
        config_size set_to_default config_value = .returned [.log "ZNET: Invalid node ID!\n"]) ∧
    znet_node_cmd_configuration_bulk_set (some cb) node_id channel_id config_id config_count
        config_size need_report set_to_default config_values = .returned [] ∧
    znet_node_cmd_configuration_bulk_get (some cb) send node_id channel_id config_id
        config_count = .returned [] ∧
    znet_node_cmd_configuration_name_get (some cb) send node_id channel_id param_number =
        .returned [] ∧
    znet_node_cmd_configuration_info_get (some cb) send node_id channel_id param_number =
        .returned [] ∧
    znet_node_cmd_configuration_properties_get (some cb) send node_id channel_id param_number =
        .returned [] ∧
    znet_node_cmd_configuration_default_reset (some cb) node_id channel_id =
        .returned [.log "ZNET: Wrong node ID!\n"] := by
  refine ⟨?_, ?_, ?_, ?_, ?_, ?_, ?_, ?_⟩
  · unfold znet_node_cmd_configuration_set
    by_cases hp : config_param_num > 0
    · simp only [hp, not_true_eq_false, if_false, if_pos hnode]; rfl
    · simp only [hp, not_false_eq_true, if_true]; rfl
  · intro hp
    unfold znet_node_cmd_configuration_set
    simp only [hp, not_true_eq_false, if_false, if_pos hnode]
  · unfold znet_node_cmd_configuration_bulk_set; simp only [if_pos hnode]
  · unfold znet_node_cmd_configuration_bulk_get; simp only [if_pos hnode]
  · unfold znet_node_cmd_configuration_name_get; simp only [if_pos hnode]
  · unfold znet_node_cmd_configuration_info_get; simp only [if_pos hnode]
  · unfold znet_node_cmd_configuration_properties_get; simp only [if_pos hnode]
  · unfold znet_node_cmd_configuration_default_reset; simp only [if_pos hnode]

/-- Witness of C6: node id 0, and a set call with parameter 1 and size 1. -/
theorem configuration_entries_invalid_node_not_sent_witness :
    (znet_node_cmd_configuration_set (some ⟨0, true, true, true, true, true⟩) 0 2 1 1 0
      7).lowerCalls = [] ∧
    znet_node_cmd_configuration_bulk_get (some ⟨0, true, true, true, true, true⟩)
      (fun _ => true) 0 2 1 1 = .returned [] :=
  have h := configuration_entries_invalid_node_not_sent ⟨0, true, true, true, true, true⟩
    (fun _ => true) 0 2 1 1 7 0 0 1 1 1 [] (by decide)
  ⟨h.1, h.2.2.2.1⟩

/-- C7: for a node id outside [1,232], the get entry on an initialised library
whose configuration result callback is present invokes that callback with the
non-zero error -1, the sentinel node id 0xFF, the requested channel id and a
null payload; and every user callback invoked during the call is of that form. -/
theorem configuration_get_invalid_node_reported (cb : znet_callbacks_t)
    (send : LowerCall → Bool) (node_id channel_id config_param_num : Nat)
    (hparam : config_param_num ≠ 0)
    (hnode : node_id < ZNET_NODE_ID_MIN ∨ node_id > ZNET_NODE_ID_MAX)
    (hcb : cb.node_cmd_configuration_result = true) :
    Event.node_cmd_configuration_result (-1) 0xFF channel_id none cb.arg ∈
      (znet_node_cmd_configuration_get (some cb) send node_id channel_id
        config_param_num).userCallbacks ∧
    ∀ e ∈ (znet_node_cmd_configuration_get (some cb) send node_id channel_id
        config_param_num).userCallbacks,
      e = Event.node_cmd_configuration_result (-1) 0xFF channel_id none cb.arg := by
  unfold znet_node_cmd_configuration_get
  simp only [hparam, if_false, if_pos hnode, hcb, if_true]
  constructor
  · simp [Outcome.userCallbacks, Outcome.trace, Event.isUserCallback]
  · intro e he
    simp only [Outcome.userCallbacks, Outcome.trace, List.mem_filter, List.mem_append,
      List.mem_cons, List.mem_singleton, List.not_mem_nil, or_false] at he
    obtain ⟨hmem, hcall⟩ := he
    rcases hmem with (h | h) | h
    · exact h
    · subst h; simp [Event.isUserCallback] at hcall
    · split_ifs at h <;>
        first
        | exact List.mem_singleton.mp h
        | exact absurd h (List.not_mem_nil _)

/-- Witness of C7: node id 0, channel 2, parameter 1, a send that succeeds. -/
theorem configuration_get_invalid_node_reported_witness :
    Event.node_cmd_configuration_result (-1) 0xFF 2 none 0 ∈
      (znet_node_cmd_configuration_get (some ⟨0, true, true, true, true, true⟩)
        (fun _ => true) 0 2 1).userCallbacks :=
  (configuration_get_invalid_node_reported ⟨0, true, true, true, true, true⟩ (fun _ => true)
    0 2 1 (by decide) (by decide) (by decide)).1

/-- C8 fails on the code: for node id 0, with every result callback present,
the entries bulk_get, name_get, info_get and properties_get return with an
empty trace: no result callback is invoked (and nothing is logged). -/
theorem configuration_getters_invalid_node_unreported :
    znet_node_cmd_configuration_bulk_get (some ⟨0, true, true, true, true, true⟩)
      (fun _ => true) 0 0 1 1 = .returned [] ∧
    znet_node_cmd_configuration_name_get (some ⟨0, true, true, true, true, true⟩)
      (fun _ => true) 0 0 1 = .returned [] ∧
    znet_node_cmd_configuration_info_get (some ⟨0, true, true, true, true, true⟩)
      (fun _ => true) 0 0 1 = .returned [] ∧
    znet_node_cmd_configuration_properties_get (some ⟨0, true, true, true, true, true⟩)
      (fun _ => true) 0 0 1 = .returned [] := by
  decide

/-! ### The lower-layer call of an accepted request -/

/-- A failure report appended after a send adds no lower-layer call. -/
theorem lowerCalls_send_then (call : LowerCall) (failed : List Event)
    (h : failed.filterMap Event.lowerCall = []) :
    (Outcome.returned ([.lower call] ++ failed)).lowerCalls = [call] := by
  simp [Outcome.lowerCalls, Outcome.trace, Event.lowerCall, h]

/-- A call whose endpoint and encapsulation arguments are the ones the entries
compute from `channel_id` is issued as the channel requires. -/
theorem issued_for_channel_of_args (channel_id : Nat) (call : LowerCall)
    (harg : call.callbackArg =
      if channel_id ≠ ZNET_CHANNEL_ID_ROOT then some (ZNET_CHANNEL_ID_ROOT, channel_id) else none)
    (hencap : call.encap =
      if channel_id ≠ ZNET_CHANNEL_ID_ROOT then Encapsulation_None ||| Encapsulation_MuCh
      else Encapsulation_None) :
    issued_for_channel channel_id call := by
  unfold issued_for_channel
  by_cases hc : channel_id ≠ ZNET_CHANNEL_ID_ROOT
  · rw [if_pos hc] at harg hencap ⊢
    rw [harg, hencap]
    exact ⟨by decide, rfl⟩
  · rw [if_neg hc] at harg hencap ⊢
    exact ⟨hencap, harg⟩

theorem failed_report_no_lowerCall (c d : Prop) [Decidable c] [Decidable d] (e : Event)
    (he : e.lowerCall = none) :
    List.filterMap Event.lowerCall (if c then (if d then [e] else []) else []) = [] := by
  split_ifs <;> simp [he]

theorem znet_node_cmd_configuration_get_lowerCalls (cb : znet_callbacks_t)
    (send : LowerCall → Bool) (node_id channel_id config_param_num : Nat)
    (hparam : config_param_num ≠ 0) :
    (znet_node_cmd_configuration_get (some cb) send node_id channel_id
      config_param_num).lowerCalls =
    [.znet_cc_configuration_get node_id config_param_num
      (some ._znet_node_cmd_configuration_get_cb)
      (if channel_id ≠ ZNET_CHANNEL_ID_ROOT then some (ZNET_CHANNEL_ID_ROOT, channel_id)
        else none)
      (if channel_id ≠ ZNET_CHANNEL_ID_ROOT then Encapsulation_None ||| Encapsulation_MuCh
        else Encapsulation_None)] := by
  unfold znet_node_cmd_configuration_get
  simp only [hparam, if_false]
  simp only [Outcome.lowerCalls, Outcome.trace, List.filterMap_append, List.filterMap_cons,
    List.filterMap_nil, Event.lowerCall]
  have h1 : ∀ (c : Prop) [Decidable c], List.filterMap Event.lowerCall
      (if c then (if cb.node_cmd_configuration_result = true then
        [Event.node_cmd_configuration_result (-1) ZNET_NODE_ID_INVALID channel_id none cb.arg]
        else []) else []) = [] :=
    fun c _ => failed_report_no_lowerCall c _ _ rfl
  rw [h1, h1]
  rfl

theorem znet_node_cmd_configuration_set_lowerCalls (cb : znet_callbacks_t)
    (node_id channel_id config_param_num config_size : Nat) (set_to_default : Int)
    (config_value : Nat)
    (hnode : ZNET_NODE_ID_MIN ≤ node_id ∧ node_id ≤ ZNET_NODE_ID_MAX)
    (hparam : config_param_num > 0)
    (hsize : config_size &&& 0x07 = 1 ∨ config_size &&& 0x07 = 2 ∨ config_size &&& 0x07 = 4) :
    znet_node_cmd_configuration_set (some cb) node_id channel_id config_param_num
      config_size set_to_default config_value =
    .returned [.lower (.znet_cc_configuration_set node_id config_param_num
      (decide (set_to_default ≠ 0)) config_value config_size none
      (if channel_id ≠ ZNET_CHANNEL_ID_ROOT then some (ZNET_CHANNEL_ID_ROOT, channel_id)
        else none)
      (if channel_id ≠ ZNET_CHANNEL_ID_ROOT then Encapsulation_None ||| Encapsulation_MuCh
        else Encapsulation_None))] := by
  have hnode2 : ¬ (node_id < ZNET_NODE_ID_MIN ∨ node_id > ZNET_NODE_ID_MAX) := by
    simp only [ZNET_NODE_ID_MIN, ZNET_NODE_ID_MAX] at *; omega
  have hacc := (not_congr (size_check_rejects_iff config_size)).mpr (by omega)
  unfold znet_node_cmd_configuration_set
  simp only [hparam, not_true_eq_false, if_false, if_neg hnode2, if_neg hacc]

theorem znet_node_cmd_configuration_bulk_set_lowerCalls (cb : znet_callbacks_t)
    (node_id channel_id config_id config_count config_size : Nat)
    (need_report set_to_default : Int) (config_value : List Nat)
    (hnode : ZNET_NODE_ID_MIN ≤ node_id ∧ node_id ≤ ZNET_NODE_ID_MAX)
    (hsize : config_size &&& 0x07 = 1 ∨ config_size &&& 0x07 = 2 ∨ config_size &&& 0x07 = 4) :
    znet_node_cmd_configuration_bulk_set (some cb) node_id channel_id config_id config_count
      config_size need_report set_to_default config_value =
    .returned [.lower (.znet_cc_configuration_bulk_set node_id config_id config_count
      (decide (set_to_default ≠ 0)) (decide (need_report ≠ 0))
      ((config_size &&& CONFIGURATION_SET_LEVEL_SIZE_MASK) % 256) config_value none
      (if channel_id ≠ ZNET_CHANNEL_ID_ROOT then some (ZNET_CHANNEL_ID_ROOT, channel_id)
        else none)
      (if channel_id ≠ ZNET_CHANNEL_ID_ROOT then Encapsulation_None ||| Encapsulation_MuCh
        else Encapsulation_None))] := by
  have hnode2 : ¬ (node_id < ZNET_NODE_ID_MIN ∨ node_id > ZNET_NODE_ID_MAX) := by
    simp only [ZNET_NODE_ID_MIN, ZNET_NODE_ID_MAX] at *; omega
  have hacc := (not_congr (size_check_rejects_iff config_size)).mpr (by omega)
  unfold znet_node_cmd_configuration_bulk_set
  simp only [if_neg hnode2, if_neg hacc]

theorem znet_node_cmd_configuration_bulk_get_lowerCalls (cb : znet_callbacks_t)
    (send : LowerCall → Bool) (node_id channel_id config_id config_count : Nat)
    (hnode : ZNET_NODE_ID_MIN ≤ node_id ∧ node_id ≤ ZNET_NODE_ID_MAX) :
    (znet_node_cmd_configuration_bulk_get (some cb) send node_id channel_id config_id
      config_count).lowerCalls =
    [.znet_cc_configuration_bulk_get node_id config_id config_count none
      (if channel_id ≠ ZNET_CHANNEL_ID_ROOT then some (ZNET_CHANNEL_ID_ROOT, channel_id)
        else none)
      (if channel_id ≠ ZNET_CHANNEL_ID_ROOT then Encapsulation_None ||| Encapsulation_MuCh
        else Encapsulation_None)] := by
  have hnode2 : ¬ (node_id < ZNET_NODE_ID_MIN ∨ node_id > ZNET_NODE_ID_MAX) := by
    simp only [ZNET_NODE_ID_MIN, ZNET_NODE_ID_MAX] at *; omega
  unfold znet_node_cmd_configuration_bulk_get
  simp only [if_neg hnode2]
  exact lowerCalls_send_then _ _ (failed_report_no_lowerCall _ _ _ rfl)

theorem znet_node_cmd_configuration_name_get_lowerCalls (cb : znet_callbacks_t)
    (send : LowerCall → Bool) (node_id channel_id param_number : Nat)
    (hnode : ZNET_NODE_ID_MIN ≤ node_id ∧ node_id ≤ ZNET_NODE_ID_MAX) :
    (znet_node_cmd_configuration_name_get (some cb) send node_id channel_id
      param_number).lowerCalls =
    [.znet_cc_configuration_name_get node_id param_number none
      (if channel_id ≠ ZNET_CHANNEL_ID_ROOT then some (ZNET_CHANNEL_ID_ROOT, channel_id)
        else none)
      (if channel_id ≠ ZNET_CHANNEL_ID_ROOT then Encapsulation_None ||| Encapsulation_MuCh
        else Encapsulation_None)] := by
  have hnode2 : ¬ (node_id < ZNET_NODE_ID_MIN ∨ node_id > ZNET_NODE_ID_MAX) := by
    simp only [ZNET_NODE_ID_MIN, ZNET_NODE_ID_MAX] at *; omega
  unfold znet_node_cmd_configuration_name_get
  simp only [if_neg hnode2]
  exact lowerCalls_send_then _ _ (failed_report_no_lowerCall _ _ _ rfl)

theorem znet_node_cmd_configuration_info_get_lowerCalls (cb : znet_callbacks_t)
    (send : LowerCall → Bool) (node_id channel_id param_number : Nat)
    (hnode : ZNET_NODE_ID_MIN ≤ node_id ∧ node_id ≤ ZNET_NODE_ID_MAX) :
    (znet_node_cmd_configuration_info_get (some cb) send node_id channel_id
      param_number).lowerCalls =
    [.znet_cc_configuration_info_get node_id param_number none
      (if channel_id ≠ ZNET_CHANNEL_ID_ROOT then some (ZNET_CHANNEL_ID_ROOT, channel_id)
        else none)
      (if channel_id ≠ ZNET_CHANNEL_ID_ROOT then Encapsulation_None ||| Encapsulation_MuCh
        else Encapsulation_None)] := by
  have hnode2 : ¬ (node_id < ZNET_NODE_ID_MIN ∨ node_id > ZNET_NODE_ID_MAX) := by
    simp only [ZNET_NODE_ID_MIN, ZNET_NODE_ID_MAX] at *; omega
  unfold znet_node_cmd_configuration_info_get
  simp only [if_neg hnode2]
  exact lowerCalls_send_then _ _ (failed_report_no_lowerCall _ _ _ rfl)

theorem znet_node_cmd_configuration_properties_get_lowerCalls (cb : znet_callbacks_t)
    (send : LowerCall → Bool) (node_id channel_id param_number : Nat)
    (hnode : ZNET_NODE_ID_MIN ≤ node_id ∧ node_id ≤ ZNET_NODE_ID_MAX) :
    (znet_node_cmd_configuration_properties_get (some cb) send node_id channel_id
      param_number).lowerCalls =
    [.znet_cc_configuration_properties_get node_id param_number none
      (if channel_id ≠ ZNET_CHANNEL_ID_ROOT then some (ZNET_CHANNEL_ID_ROOT, channel_id)
        else none)
      (if channel_id ≠ ZNET_CHANNEL_ID_ROOT then Encapsulation_None ||| Encapsulation_MuCh
        else Encapsulation_None)] := by
  have hnode2 : ¬ (node_id < ZNET_NODE_ID_MIN ∨ node_id > ZNET_NODE_ID_MAX) := by
    simp only [ZNET_NODE_ID_MIN, ZNET_NODE_ID_MAX] at *; omega
  unfold znet_node_cmd_configuration_properties_get
  simp only [if_neg hnode2]
  exact lowerCalls_send_then _ _ (failed_report_no_lowerCall _ _ _ rfl)

/-- C9: every accepted call (initialised library, node id in [1,232], asserted
parameter number non-zero, size check passed) of get, set, bulk_set, bulk_get,
name_get, info_get and properties_get issues exactly one lower-layer request;
for a non-root channel it carries the Multi-Channel flag and the endpoint pair
(0, channel_id), for the root channel no encapsulation and a null endpoint
argument. -/
theorem configuration_requests_encapsulation (cb : znet_callbacks_t)
    (send : LowerCall → Bool)
    (node_id channel_id config_param_num config_size config_value : Nat)
    (set_to_default need_report : Int)
    (config_id config_count param_number : Nat) (config_values : List Nat)
    (hnode : ZNET_NODE_ID_MIN ≤ node_id ∧ node_id ≤ ZNET_NODE_ID_MAX)
    (hparam : config_param_num > 0)
    (hsize : config_size &&& 0x07 = 1 ∨ config_size &&& 0x07 = 2 ∨ config_size &&& 0x07 = 4) :
    (∃ c, (znet_node_cmd_configuration_get (some cb) send node_id channel_id
        config_param_num).lowerCalls = [c] ∧ issued_for_channel channel_id c) ∧
    (∃ c, (znet_node_cmd_configuration_set (some cb) node_id channel_id config_param_num
        config_size set_to_default config_value).lowerCalls = [c] ∧
        issued_for_channel channel_id c) ∧
    (∃ c, (znet_node_cmd_configuration_bulk_set (some cb) node_id channel_id config_id
        config_count config_size need_report set_to_default config_values).lowerCalls = [c] ∧
        issued_for_channel channel_id c) ∧
    (∃ c, (znet_node_cmd_configuration_bulk_get (some cb) send node_id channel_id config_id
        config_count).lowerCalls = [c] ∧ issued_for_channel channel_id c) ∧
    (∃ c, (znet_node_cmd_configuration_name_get (some cb) send node_id channel_id
        param_number).lowerCalls = [c] ∧ issued_for_channel channel_id c) ∧
    (∃ c, (znet_node_cmd_configuration_info_get (some cb) send node_id channel_id
        param_number).lowerCalls = [c] ∧ issued_for_channel channel_id c) ∧
    (∃ c, (znet_node_cmd_configuration_properties_get (some cb) send node_id channel_id
        param_number).lowerCalls = [c] ∧ issued_for_channel channel_id c) := by
  have hp0 : config_param_num ≠ 0 := by omega
  refine ⟨⟨_, znet_node_cmd_configuration_get_lowerCalls cb send node_id channel_id
      config_param_num hp0, issued_for_channel_of_args _ _ rfl rfl⟩,
    ?_, ?_,
    ⟨_, znet_node_cmd_configuration_bulk_get_lowerCalls cb send node_id channel_id config_id
      config_count hnode, issued_for_channel_of_args _ _ rfl rfl⟩,
    ⟨_, znet_node_cmd_configuration_name_get_lowerCalls cb send node_id channel_id
      param_number hnode, issued_for_channel_of_args _ _ rfl rfl⟩,
    ⟨_, znet_node_cmd_configuration_info_get_lowerCalls cb send node_id channel_id
      param_number hnode, issued_for_channel_of_args _ _ rfl rfl⟩,
    ⟨_, znet_node_cmd_configuration_properties_get_lowerCalls cb send node_id channel_id
      param_number hnode, issued_for_channel_of_args _ _ rfl rfl⟩⟩
  · rw [znet_node_cmd_configuration_set_lowerCalls cb node_id channel_id config_param_num
      config_size set_to_default config_value hnode hparam hsize]
    exact ⟨_, rfl, issued_for_channel_of_args _ _ rfl rfl⟩
  · rw [znet_node_cmd_configuration_bulk_set_lowerCalls cb node_id channel_id config_id
      config_count config_size need_report set_to_default config_values hnode hsize]
    exact ⟨_, rfl, issued_for_channel_of_args _ _ rfl rfl⟩

/-- Witness of C9: node 9, channel 2, parameter 1, size 2; the get request
carries the Multi-Channel flag and the endpoint pair (0, 2). -/
theorem configuration_requests_encapsulation_witness :
    issued_for_channel 2 (.znet_cc_configuration_get 9 1
      (some ._znet_node_cmd_configuration_get_cb) (some (ZNET_CHANNEL_ID_ROOT, 2))
      (Encapsulation_None ||| Encapsulation_MuCh)) := by
  obtain ⟨c, hc, hi⟩ := (configuration_requests_encapsulation
    ⟨0, true, true, true, true, true⟩ (fun _ => true) 9 2 1 2 0 0 0 1 1 1 []
    (by decide) (by decide) (by decide)).1
  have h0 : (znet_node_cmd_configuration_get (some ⟨0, true, true, true, true, true⟩)
      (fun _ => true) 9 2 1).lowerCalls =
      [.znet_cc_configuration_get 9 1 (some ._znet_node_cmd_configuration_get_cb)
        (some (ZNET_CHANNEL_ID_ROOT, 2)) (Encapsulation_None ||| Encapsulation_MuCh)] := by
    decide
  rw [h0] at hc
  have hcc := List.head_eq_of_cons_eq hc
  rw [hcc]
  exact hi

/-- C10 fails on the code: for node 5 and the non-root channel 2 the
default_reset entry passes the endpoint pair (0, 2) but the constant
`Encapsulation_None` as encapsulation argument, so the Multi-Channel flag is not
set and the request is not issued as the channel requires. -/
theorem configuration_default_reset_not_encapsulated :
    znet_node_cmd_configuration_default_reset (some ⟨0, true, true, true, true, true⟩) 5 2 =
      .returned [.lower (.znet_cc_configuration_default_reset 5 none
        (some (ZNET_CHANNEL_ID_ROOT, 2)) Encapsulation_None)] ∧
    Encapsulation_None &&& Encapsulation_MuCh ≠ Encapsulation_MuCh ∧
    ¬ issued_for_channel 2 (.znet_cc_configuration_default_reset 5 none
        (some (ZNET_CHANNEL_ID_ROOT, 2)) Encapsulation_None) := by
  decide

/-! ### The copy loop -/

/-- Under the length guard the copy loop reads no byte past the frame and
writes the `count` bytes that follow `offset`. -/
theorem copy_bytes_eq (cc_data : List Nat) (count offset : Nat)
    (h : offset + count ≤ cc_data.length) :
    copy_bytes cc_data offset count = .ok ((cc_data.drop offset).take count) := by
  induction count generalizing offset with
  | zero => simp [copy_bytes]
  | succ n ih =>
    have hlt : offset < cc_data.length := by omega
    have hread : read cc_data offset = .ok (cc_data[offset]) := by
      simp [read, List.getElem?_eq_getElem hlt]
    rw [copy_bytes, hread]
    simp only
    rw [ih (offset + 1) (by omega)]
    simp only
    rw [List.drop_eq_getElem_cons hlt, List.take_succ_cons]

/-- A copy loop that runs past the reserved bytes faults at the first index
that is not reserved, provided the frame holds the bytes read up to there. -/
theorem copy_bytes_reserved_overflow (cc_data : List Nat) (reserved offset count i : Nat)
    (hi : i ≤ reserved) (hcount : reserved < i + count)
    (hlen : offset + reserved < cc_data.length) :
    copy_bytes_reserved cc_data reserved offset i count =
      .error (.write_past_buffer reserved) := by
  induction count generalizing i with
  | zero => omega
  | succ n ih =>
    have hlt : offset + i < cc_data.length := by omega
    have hread : read cc_data (offset + i) = .ok (cc_data[offset + i]) := by
      simp [read, List.getElem?_eq_getElem hlt]
    rw [copy_bytes_reserved, hread]
    simp only
    by_cases hri : reserved ≤ i
    · have heq : i = reserved := by omega
      rw [if_pos hri, heq]
    · rw [if_neg hri, ih (i + 1) (by omega) (by omega)]

/-! ### The runs of the report handlers on the frames they accept -/

theorem znet_cc_configuration_bulk_report_accepted (cb : znet_callbacks_t) (func : ZFunction)
    (node_id : Nat) (cc_data : List Nat) (hvalid : bulk_report_valid cc_data) :
    znet_cc_configuration_bulk_report (some cb) func node_id cc_data =
      .returned
        (if (ZNET_NODE_ID_MIN ≤ node_id ∧ node_id ≤ ZNET_NODE_ID_MAX) ∧
            cb.node_cmd_configuration_bulk_result = true then
          [.node_cmd_configuration_bulk_result 0 node_id func._endpoint
            (some { __ver := 0,
                    param_offset := ((cc_data.getD 2 0 <<< 8) ||| cc_data.getD 3 0) % 2 ^ 16,
                    param_number := cc_data.getD 4 0,
                    rep_to_follows := cc_data.getD 5 0,
                    data_count := cc_data.getD 6 0 &&& 0x07,
                    data := (cc_data.drop 7).take
                      ((cc_data.getD 6 0 &&& 0x07) * cc_data.getD 4 0) }) cb.arg]
        else []) := by
  obtain ⟨hlen, hclass, hcmd, hcount, hoff, hsize, hlen2⟩ := hvalid
  have hq : (cc_data.getD 6 0 &&& CONFIGURATION_BULK_REPORT_PROPERTIES1_SIZE_MASK_V2) % 256 =
      cc_data.getD 6 0 &&& 0x07 := by
    show (cc_data.getD 6 0 &&& 7) % 256 = cc_data.getD 6 0 &&& 7
    rw [and_seven_eq_mod]
    omega
  have hacc : ¬ (cc_data.getD 6 0 &&& 0x07 > ZNET_CMD_CONFIGURATION_PARAM_NUM_MAX ∨
      cc_data.getD 6 0 &&& 0x07 = 0 ∨
      cc_data.getD 6 0 &&& 0x07 = ZNET_CMD_CONFIGURATION_PARAM_NUM_INVALID) := by
    simp only [ZNET_CMD_CONFIGURATION_PARAM_NUM_MAX, ZNET_CMD_CONFIGURATION_PARAM_NUM_INVALID]
    omega
  unfold znet_cc_configuration_bulk_report
  rw [if_neg (by simp only [ZNET_CMD_CONFIGURATION_BULK_REPORT_CHECK_LEN]; omega),
    if_neg (not_not.mpr hclass), if_neg (not_not.mpr hcmd), if_neg hcount]
  simp only [hq]
  rw [if_neg hoff, if_neg hacc]
  by_cases hnode : node_id < ZNET_NODE_ID_MIN ∨ node_id > ZNET_NODE_ID_MAX
  · rw [if_pos hnode, if_neg]
    simp only [ZNET_NODE_ID_MIN, ZNET_NODE_ID_MAX] at hnode ⊢
    omega
  · rw [if_neg hnode,
      if_neg (by simp only [ZNET_CMD_CONFIGURATION_BULK_REPORT_CHECK_LEN]; omega),
      copy_bytes_eq _ _ _ (by simp only [ZNET_CMD_CONFIGURATION_BULK_REPORT_CHECK_LEN]; omega)]
    have hin : ZNET_NODE_ID_MIN ≤ node_id ∧ node_id ≤ ZNET_NODE_ID_MAX := by
      simp only [ZNET_NODE_ID_MIN, ZNET_NODE_ID_MAX] at hnode ⊢
      omega
    simp only [hin, true_and]
    by_cases hcb : cb.node_cmd_configuration_bulk_result = true
    · simp only [hcb, if_true, and_self]
    · simp only [hcb, if_false, Bool.false_eq_true]

theorem znet_cc_configuration_name_report_accepted (cb : znet_callbacks_t) (func : ZFunction)
    (node_id : Nat) (cc_data : List Nat) (hvalid : name_report_valid cc_data) :
    znet_cc_configuration_name_report (some cb) func node_id cc_data =
      .returned
        (if (ZNET_NODE_ID_MIN ≤ node_id ∧ node_id ≤ ZNET_NODE_ID_MAX) ∧
            cb.node_cmd_configuration_name_result = true then
          [.node_cmd_configuration_name_result 0 node_id func._endpoint
            (some { __ver := 0,
                    param_number := ((cc_data.getD 2 0 <<< 8) ||| cc_data.getD 3 0) % 2 ^ 16,
                    rep_to_follows := cc_data.getD 4 0,
                    data := (cc_data.drop 5).take
                      (((cc_data.getD 2 0 <<< 8) ||| cc_data.getD 3 0) % 2 ^ 16) }) cb.arg]
        else []) := by
  obtain ⟨hclass, hcmd, hlen⟩ := hvalid
  unfold znet_cc_configuration_name_report
  rw [if_neg (by simp only [ZNET_CMD_CONFIGURATION_NIP_REPORT_CHECK_LEN]; omega),
    if_neg (not_not.mpr hclass), if_neg (not_not.mpr hcmd)]
  by_cases hnode : node_id < ZNET_NODE_ID_MIN ∨ node_id > ZNET_NODE_ID_MAX
  · rw [if_pos hnode, if_neg]
    simp only [ZNET_NODE_ID_MIN, ZNET_NODE_ID_MAX] at hnode ⊢
    omega
  · rw [if_neg hnode]
    simp only
    rw [if_neg (by simp only [ZNET_CMD_CONFIGURATION_NIP_REPORT_CHECK_LEN]; omega),
      copy_bytes_eq _ _ _ (by simp only [ZNET_CMD_CONFIGURATION_NIP_REPORT_CHECK_LEN]; omega)]
    have hin : ZNET_NODE_ID_MIN ≤ node_id ∧ node_id ≤ ZNET_NODE_ID_MAX := by
      simp only [ZNET_NODE_ID_MIN, ZNET_NODE_ID_MAX] at hnode ⊢
      omega
    simp only [hin, true_and]
    by_cases hcb : cb.node_cmd_configuration_name_result = true
    · simp only [hcb, if_true, and_self]
    · simp only [hcb, if_false, Bool.false_eq_true]

theorem znet_cc_configuration_info_report_accepted (cb : znet_callbacks_t) (func : ZFunction)
    (node_id : Nat) (cc_data : List Nat) (hvalid : info_report_valid cc_data) :
    znet_cc_configuration_info_report (some cb) func node_id cc_data =
      .returned
        (if (ZNET_NODE_ID_MIN ≤ node_id ∧ node_id ≤ ZNET_NODE_ID_MAX) ∧
            cb.node_cmd_configuration_info_result = true then
          [.node_cmd_configuration_info_result 0 node_id func._endpoint
            (some { __ver := 0,
                    param_number :=
                      (((cc_data.getD 2 0 <<< 8) % 2 ^ 16) ||| cc_data.getD 3 0) % 2 ^ 16,
                    rep_to_follows := cc_data.getD 4 0,
                    data := (cc_data.drop 5).take
                      ((((cc_data.getD 2 0 <<< 8) % 2 ^ 16) ||| cc_data.getD 3 0) % 2 ^ 16) })
            cb.arg]
        else []) := by
  obtain ⟨hclass, hcmd, hlen⟩ := hvalid
  unfold znet_cc_configuration_info_report
  rw [if_neg (by simp only [ZNET_CMD_CONFIGURATION_NIP_REPORT_CHECK_LEN]; omega),
    if_neg (not_not.mpr hclass), if_neg (not_not.mpr hcmd)]
  by_cases hnode : node_id < ZNET_NODE_ID_MIN ∨ node_id > ZNET_NODE_ID_MAX
  · rw [if_pos hnode, if_neg]
    simp only [ZNET_NODE_ID_MIN, ZNET_NODE_ID_MAX] at hnode ⊢
    omega
  · rw [if_neg hnode]
    simp only
    rw [if_neg (by simp only [ZNET_CMD_CONFIGURATION_NIP_REPORT_CHECK_LEN]; omega),
      copy_bytes_eq _ _ _ (by simp only [ZNET_CMD_CONFIGURATION_NIP_REPORT_CHECK_LEN]; omega)]
    have hin : ZNET_NODE_ID_MIN ≤ node_id ∧ node_id ≤ ZNET_NODE_ID_MAX := by
      simp only [ZNET_NODE_ID_MIN, ZNET_NODE_ID_MAX] at hnode ⊢
      omega
    simp only [hin, true_and]
    by_cases hcb : cb.node_cmd_configuration_info_result = true
    · simp only [hcb, if_true, and_self]
    · simp only [hcb, if_false, Bool.false_eq_true]

/-- The run of the properties handler on a frame that passes every check of
the handler: for a node id in range the copy loop leaves the reserved bytes of
`data` at index `param_size`, before the callback is reached; for a node id out
of range the handler returns at the node check. -/
theorem znet_cc_configuration_properties_report_valid_run
    (znet_cb : Option znet_callbacks_t)
    (func : ZFunction) (node_id : Nat) (cc_data : List Nat)
    (hvalid : properties_report_valid cc_data) :
    znet_cc_configuration_properties_report znet_cb func node_id cc_data =
      if ZNET_NODE_ID_MIN ≤ node_id ∧ node_id ≤ ZNET_NODE_ID_MAX then
        .aborted (.write_past_buffer ((cc_data.getD 4 0 &&& 0x07) * 3)) []
      else .returned [] := by
  obtain ⟨hclass, hcmd, hsize, hparam, hlen⟩ := hvalid
  unfold znet_cc_configuration_properties_report
  rw [if_neg (by simp only [ZNET_CMD_CONFIGURATION_PROP_REPORT_CHECK_LEN]; omega),
    if_neg (not_not.mpr hclass), if_neg (not_not.mpr hcmd), if_neg (not_not.mpr hsize)]
  by_cases hnode : node_id < ZNET_NODE_ID_MIN ∨ node_id > ZNET_NODE_ID_MAX
  · rw [if_pos hnode, if_neg]
    simp only [ZNET_NODE_ID_MIN, ZNET_NODE_ID_MAX] at hnode ⊢
    omega
  · rw [if_neg hnode]
    simp only
    rw [if_neg hparam,
      if_neg (by simp only [ZNET_CMD_CONFIGURATION_PROP_REPORT_CHECK_LEN]; omega),
      copy_bytes_reserved_overflow _ _ _ _ _ (Nat.zero_le _) (by omega)
        (by simp only [ZNET_CMD_CONFIGURATION_PROP_REPORT_CHECK_LEN]; omega)]
    have hin : ZNET_NODE_ID_MIN ≤ node_id ∧ node_id ≤ ZNET_NODE_ID_MAX := by
      simp only [ZNET_NODE_ID_MIN, ZNET_NODE_ID_MAX] at hnode ⊢
      omega
    rw [if_pos hin]

/-- On a frame that holds its value bytes the v1 report is built without a
fault. -/
theorem znet_cc_configuration_report_build_ok (cc_data : List Nat) (s : Nat)
    (hlegal : s = 1 ∨ s = 2 ∨ s = 4) (hlen : 4 + s ≤ cc_data.length) :
    ∃ report, znet_cc_configuration_report_build s cc_data = .ok report := by
  have hs1 : 1 ≤ s := by omega
  rcases cc_data with _ | ⟨c0, _ | ⟨c1, _ | ⟨p, _ | ⟨q, _ | ⟨v0, rest⟩⟩⟩⟩⟩ <;>
    simp only [List.length_cons, List.length_nil] at hlen <;> try omega
  rcases hlegal with h | h | h
  · subst h
    exact ⟨_, by simp [znet_cc_configuration_report_build, read, bind, Except.bind, pure,
      Except.pure]; rfl⟩
  · subst h
    rcases rest with _ | ⟨v1, rest⟩ <;>
      simp only [List.length_cons, List.length_nil] at hlen <;> try omega
    exact ⟨_, by simp [znet_cc_configuration_report_build, read, bind, Except.bind, pure,
      Except.pure]; rfl⟩
  · subst h
    rcases rest with _ | ⟨v1, _ | ⟨v2, _ | ⟨v3, rest⟩⟩⟩ <;>
      simp only [List.length_cons, List.length_nil] at hlen <;> try omega
    exact ⟨_, by simp [znet_cc_configuration_report_build, read, bind, Except.bind, pure,
      Except.pure]; rfl⟩

/-- The run of the v1 report handler on a valid frame: one callback when the
node id is in range and the callback is present, nothing otherwise. -/
theorem znet_cc_configuration_report_valid_run (cb : znet_callbacks_t) (func : ZFunction)
    (node_id : Nat) (cc_data : List Nat) (hvalid : configuration_report_valid cc_data) :
    ∃ report, znet_cc_configuration_report (some cb) func node_id cc_data =
      .returned
        (if (ZNET_NODE_ID_MIN ≤ node_id ∧ node_id ≤ ZNET_NODE_ID_MAX) ∧
            cb.node_cmd_configuration_result = true then
          [.node_cmd_configuration_result 0 node_id func._endpoint (some report) cb.arg]
        else []) := by
  obtain ⟨hclass, hcmd, hparam, hsize, hlen⟩ := hvalid
  obtain ⟨report, hreport⟩ := znet_cc_configuration_report_build_ok cc_data _ hsize hlen
  refine ⟨report, ?_⟩
  have hq : (cc_data.getD 3 0 &&& CONFIGURATION_SET_LEVEL_SIZE_MASK) % 256 =
      cc_data.getD 3 0 &&& 0x07 := by
    show (cc_data.getD 3 0 &&& 7) % 256 = cc_data.getD 3 0 &&& 7
    rw [and_seven_eq_mod]
    omega
  have hacc : ¬ (cc_data.getD 3 0 &&& 0x07 > ZNET_CMD_CONFIGURATION_PARAM_NUM_MAX ∨
      cc_data.getD 3 0 &&& 0x07 = 0 ∨
      cc_data.getD 3 0 &&& 0x07 = ZNET_CMD_CONFIGURATION_PARAM_NUM_INVALID) := by
    simp only [ZNET_CMD_CONFIGURATION_PARAM_NUM_MAX, ZNET_CMD_CONFIGURATION_PARAM_NUM_INVALID]
    omega
  unfold znet_cc_configuration_report
  rw [if_neg (by simp only [ZNET_CMD_CONFIGURATION_REPORT_CHECK_LEN]; omega),
    if_neg (not_not.mpr hclass), if_neg (not_not.mpr hcmd), if_neg hparam]
  by_cases hnode : node_id < ZNET_NODE_ID_MIN ∨ node_id > ZNET_NODE_ID_MAX
  · rw [if_pos hnode, if_neg]
    simp only [ZNET_NODE_ID_MIN, ZNET_NODE_ID_MAX] at hnode ⊢
    omega
  · rw [if_neg hnode]
    simp only [hq]
    rw [if_neg hacc, hreport]
    have hin : ZNET_NODE_ID_MIN ≤ node_id ∧ node_id ≤ ZNET_NODE_ID_MAX := by
      simp only [ZNET_NODE_ID_MIN, ZNET_NODE_ID_MAX] at hnode ⊢
      omega
    simp only [hin, true_and]
    by_cases hcb : cb.node_cmd_configuration_result = true
    · simp only [hcb, if_true, and_self]
    · simp only [hcb, if_false, Bool.false_eq_true]

theorem getD_lt_of_bytes (cc_data : List Nat) (hbytes : ∀ b ∈ cc_data, b < 256) (i : Nat) :
    cc_data.getD i 0 < 256 := by
  by_cases h : i < cc_data.length
  · rw [List.getD_eq_getElem _ _ h]
    exact hbytes _ (List.getElem_mem _)
  · rw [List.getD_eq_default _ _ (by omega)]
    norm_num

/-- The 16-bit value of two bytes, as the handlers compute it. -/
theorem word_of_bytes (hi lo : Nat) (hhi : hi < 256) (hlo : lo < 256) :
    ((hi <<< 8) ||| lo) % 2 ^ 16 = 256 * hi + lo := by
  rw [shl8_or_eq hi lo hlo]
  omega

/-- C11 fails on the code: the handler uses the 16-bit parameter number
`cc_data[2..3]` as the number of name bytes. For parameter 7 with the segment
"par" (and with the segment "t1") the length assertion fails and no callback is
invoked; for parameter 2 with the segment "par" only the two bytes "pa" are
delivered. -/
theorem configuration_name_report_param_as_length :
    znet_cc_configuration_name_report (some ⟨0, true, true, true, true, true⟩) ⟨0⟩ 5
        [0x70, 0x0B, 0, 7, 1, 112, 97, 114] =
      .aborted (.assertion
        "cc_data_len >= ZNET_CMD_CONFIGURATION_NIP_REPORT_CHECK_LEN + name_count") [] ∧
    znet_cc_configuration_name_report (some ⟨0, true, true, true, true, true⟩) ⟨0⟩ 5
        [0x70, 0x0B, 0, 7, 0, 116, 49] =
      .aborted (.assertion
        "cc_data_len >= ZNET_CMD_CONFIGURATION_NIP_REPORT_CHECK_LEN + name_count") [] ∧
    znet_cc_configuration_name_report (some ⟨0, true, true, true, true, true⟩) ⟨0⟩ 5
        [0x70, 0x0B, 0, 2, 1, 112, 97, 114] =
      .returned [.node_cmd_configuration_name_result 0 5 0
        (some { __ver := 0, param_number := 2, rep_to_follows := 1, data := [112, 97] }) 0] := by
  decide

/-- C13: a Bulk Report that meets the preconditions of the handler, with
non-zero offset, size s in 1, 2, 4, count m at least 1 and at least 7 + s m
bytes, for a node in [1,232], makes the handler invoke the bulk result callback
exactly once (the trace is that single event), with err 0, the node, the
endpoint of the session and the report: offset 256 cc_data[2] + cc_data[3],
count m, reports-to-follow cc_data[5], size s, and the s m bytes that follow
index 7, in order. -/
theorem configuration_bulk_report_delivers (cb : znet_callbacks_t) (func : ZFunction)
    (node_id : Nat) (cc_data : List Nat) (s m : Nat)
    (hbytes : ∀ b ∈ cc_data, b < 256)
    (hmin : ZNET_CMD_CONFIGURATION_BULK_REPORT_CHECK_LEN ≤ cc_data.length)
    (hclass : cc_data.getD 0 0 = ZNET_COMMAND_CLASS_CONFIGURATION)
    (hcmd : cc_data.getD 1 0 = CONFIGURATION_BULK_REPORT_V4)
    (hcount : cc_data.getD 4 0 = m) (hm : 1 ≤ m)
    (hoffset : 256 * cc_data.getD 2 0 + cc_data.getD 3 0 ≠ 0)
    (hsize : cc_data.getD 6 0 &&& 0x07 = s)
    (hlegal : s = 1 ∨ s = 2 ∨ s = 4)
    (hlen : 7 + s * m ≤ cc_data.length)
    (hnode : ZNET_NODE_ID_MIN ≤ node_id ∧ node_id ≤ ZNET_NODE_ID_MAX)
    (hcb : cb.node_cmd_configuration_bulk_result = true) :
    znet_cc_configuration_bulk_report (some cb) func node_id cc_data =
      .returned [.node_cmd_configuration_bulk_result 0 node_id func._endpoint
        (some { __ver := 0,
                param_offset := 256 * cc_data.getD 2 0 + cc_data.getD 3 0,
                param_number := m,
                rep_to_follows := cc_data.getD 5 0,
                data_count := s,
                data := (cc_data.drop 7).take (s * m) }) cb.arg] := by
  have hword := word_of_bytes (cc_data.getD 2 0) (cc_data.getD 3 0)
    (getD_lt_of_bytes cc_data hbytes 2) (getD_lt_of_bytes cc_data hbytes 3)
  have hvalid : bulk_report_valid cc_data := by
    refine ⟨hmin, hclass, hcmd, by omega, by rw [hword]; exact hoffset, ?_, ?_⟩
    · rw [hsize]; exact hlegal
    · rw [hsize, hcount]; exact hlen
  rw [znet_cc_configuration_bulk_report_accepted cb func node_id cc_data hvalid,
    if_pos ⟨hnode, hcb⟩, hword, hsize, hcount]

/-- Witness of C13: node 5, endpoint 3, offset 0x0102, two parameters of size
2, one report to follow. -/
theorem configuration_bulk_report_delivers_witness :
    znet_cc_configuration_bulk_report (some ⟨9, true, true, true, true, true⟩) ⟨3⟩ 5
      [0x70, 0x09, 1, 2, 2, 1, 2, 0xAA, 0xBB, 0xCC, 0xDD] =
      .returned [.node_cmd_configuration_bulk_result 0 5 3
        (some { __ver := 0, param_offset := 258, param_number := 2, rep_to_follows := 1,
                data_count := 2, data := [0xAA, 0xBB, 0xCC, 0xDD] }) 9] :=
  configuration_bulk_report_delivers ⟨9, true, true, true, true, true⟩ ⟨3⟩ 5
    [0x70, 0x09, 1, 2, 2, 1, 2, 0xAA, 0xBB, 0xCC, 0xDD] 2 2 (by decide) (by decide)
    (by decide) (by decide) (by decide) (by decide) (by decide) (by decide) (by decide)
    (by decide) (by decide) (by decide)

/-- C14 fails on the code: the 4-byte frame with parameter 1 and size 1 passes
the minimum-length check (4 >= 4) and every other check of
`znet_cc_configuration_report`, and the routine then reads `cc_data[4]`, an
index that is not below the length 4. With size 4 and 5 bytes it reads
`cc_data[5]`. -/
theorem configuration_report_reads_past_frame :
    ZNET_CMD_CONFIGURATION_REPORT_CHECK_LEN ≤ [0x70, 0x06, 1, 1].length ∧
    znet_cc_configuration_report (some ⟨0, true, true, true, true, true⟩) ⟨0⟩ 5
        [0x70, 0x06, 1, 1] = .aborted (.out_of_bounds 4) [] ∧
    znet_cc_configuration_report (some ⟨0, true, true, true, true, true⟩) ⟨0⟩ 5
        [0x70, 0x06, 1, 4, 0x12] = .aborted (.out_of_bounds 5) [] := by
  decide

/-- C15, as stated, fails: on a 3-byte frame the v1 report handler does not
return normally and logs nothing; its minimum-length assertion stops the call.
The same holds for the bulk handler on a 6-byte frame. -/
theorem configuration_report_short_frame_asserts :
    znet_cc_configuration_report (some ⟨0, true, true, true, true, true⟩) ⟨0⟩ 5
        [0x70, 0x06, 1] =
      .aborted (.assertion "cc_data_len >= ZNET_CMD_CONFIGURATION_REPORT_CHECK_LEN") [] ∧
    znet_cc_configuration_bulk_report (some ⟨0, true, true, true, true, true⟩) ⟨0⟩ 5
        [0x70, 0x09, 0, 1, 1, 0] =
      .aborted (.assertion "cc_data_len >= ZNET_CMD_CONFIGURATION_BULK_REPORT_CHECK_LEN") [] := by
  decide

/-- C15, amended: for each parse routine and every frame shorter than the
minimum length of that routine (4, 7, 5, 5 and 6 bytes), whatever the callback
table and the node id are, the minimum-length assertion of the routine fails:
the call stops there, before any log line and before any user callback. -/
theorem configuration_reports_short_frame_stopped (znet_cb : Option znet_callbacks_t)
    (func : ZFunction) (node_id : Nat)
    (report_frame bulk_frame name_frame info_frame properties_frame : List Nat)
    (hreport : report_frame.length < ZNET_CMD_CONFIGURATION_REPORT_CHECK_LEN)
    (hbulk : bulk_frame.length < ZNET_CMD_CONFIGURATION_BULK_REPORT_CHECK_LEN)
    (hname : name_frame.length < ZNET_CMD_CONFIGURATION_NIP_REPORT_CHECK_LEN)
    (hinfo : info_frame.length < ZNET_CMD_CONFIGURATION_NIP_REPORT_CHECK_LEN)
    (hproperties : properties_frame.length < ZNET_CMD_CONFIGURATION_PROP_REPORT_CHECK_LEN) :
    znet_cc_configuration_report znet_cb func node_id report_frame =
      .aborted (.assertion "cc_data_len >= ZNET_CMD_CONFIGURATION_REPORT_CHECK_LEN") [] ∧
    znet_cc_configuration_bulk_report znet_cb func node_id bulk_frame =
      .aborted (.assertion "cc_data_len >= ZNET_CMD_CONFIGURATION_BULK_REPORT_CHECK_LEN") [] ∧
    znet_cc_configuration_name_report znet_cb func node_id name_frame =
      .aborted (.assertion "cc_data_len >= ZNET_CMD_CONFIGURATION_NIP_REPORT_CHECK_LEN") [] ∧
    znet_cc_configuration_info_report znet_cb func node_id info_frame =
      .aborted (.assertion "cc_data_len >= ZNET_CMD_CONFIGURATION_NIP_REPORT_CHECK_LEN") [] ∧
    znet_cc_configuration_properties_report znet_cb func node_id properties_frame =
      .aborted (.assertion "cc_data_len >= ZNET_CMD_CONFIGURATION_PROP_REPORT_CHECK_LEN") [] := by
  refine ⟨?_, ?_, ?_, ?_, ?_⟩
  · unfold znet_cc_configuration_report; rw [if_pos hreport]
  · unfold znet_cc_configuration_bulk_report; rw [if_pos hbulk]
  · unfold znet_cc_configuration_name_report; rw [if_pos hname]
  · unfold znet_cc_configuration_info_report; rw [if_pos hinfo]
  · unfold znet_cc_configuration_properties_report; rw [if_pos hproperties]

/-- Witness of C15 amended: a 3-byte frame for every routine, node 5. -/
theorem configuration_reports_short_frame_stopped_witness :
    (znet_cc_configuration_report (some ⟨0, true, true, true, true, true⟩) ⟨0⟩ 5
        [0x70, 0x06, 1]).userCallbacks = [] ∧
    (znet_cc_configuration_report (some ⟨0, true, true, true, true, true⟩) ⟨0⟩ 5
        [0x70, 0x06, 1]).logs = [] := by
  have h := (configuration_reports_short_frame_stopped
    (some ⟨0, true, true, true, true, true⟩) ⟨0⟩ 5
    [0x70, 0x06, 1] [0x70, 0x09, 1] [0x70, 0x0B, 1] [0x70, 0x0D, 1] [0x70, 0x0F, 1]
    (by decide) (by decide) (by decide) (by decide) (by decide)).1
  rw [h]
  exact ⟨rfl, rfl⟩

/-! ### The user callbacks of an accepted request -/

theorem znet_node_cmd_configuration_get_userCallbacks (cb : znet_callbacks_t)
    (send : LowerCall → Bool) (node_id channel_id config_param_num : Nat)
    (hnode : ZNET_NODE_ID_MIN ≤ node_id ∧ node_id ≤ ZNET_NODE_ID_MAX)
    (hparam : config_param_num ≠ 0)
    (hcb : cb.node_cmd_configuration_result = true) :
    (znet_node_cmd_configuration_get (some cb) send node_id channel_id config_param_num).userCallbacks =
      if send (.znet_cc_configuration_get node_id config_param_num (some ._znet_node_cmd_configuration_get_cb)
        (if channel_id ≠ ZNET_CHANNEL_ID_ROOT then some (ZNET_CHANNEL_ID_ROOT, channel_id)
          else none)
        (if channel_id ≠ ZNET_CHANNEL_ID_ROOT then Encapsulation_None ||| Encapsulation_MuCh
          else Encapsulation_None)) = true then []
      else [.node_cmd_configuration_result (-1) ZNET_NODE_ID_INVALID channel_id none cb.arg] := by
  have hnode2 : ¬ (node_id < ZNET_NODE_ID_MIN ∨ node_id > ZNET_NODE_ID_MAX) := by
    simp only [ZNET_NODE_ID_MIN, ZNET_NODE_ID_MAX] at *; omega
  unfold znet_node_cmd_configuration_get
  simp only [hparam, if_false]
  simp only [if_neg hnode2, hcb, if_true]
  split_ifs with h1 h2 h2 <;>
    simp_all [Outcome.userCallbacks, Outcome.trace, Event.isUserCallback]

theorem znet_node_cmd_configuration_bulk_get_userCallbacks (cb : znet_callbacks_t)
    (send : LowerCall → Bool) (node_id channel_id config_id config_count : Nat)
    (hnode : ZNET_NODE_ID_MIN ≤ node_id ∧ node_id ≤ ZNET_NODE_ID_MAX)
    (hcb : cb.node_cmd_configuration_bulk_result = true) :
    (znet_node_cmd_configuration_bulk_get (some cb) send node_id channel_id config_id config_count).userCallbacks =
      if send (.znet_cc_configuration_bulk_get node_id config_id config_count none
        (if channel_id ≠ ZNET_CHANNEL_ID_ROOT then some (ZNET_CHANNEL_ID_ROOT, channel_id)
          else none)
        (if channel_id ≠ ZNET_CHANNEL_ID_ROOT then Encapsulation_None ||| Encapsulation_MuCh
          else Encapsulation_None)) = true then []
      else [.node_cmd_configuration_bulk_result (-1) ZNET_NODE_ID_INVALID channel_id none cb.arg] := by
  have hnode2 : ¬ (node_id < ZNET_NODE_ID_MIN ∨ node_id > ZNET_NODE_ID_MAX) := by
    simp only [ZNET_NODE_ID_MIN, ZNET_NODE_ID_MAX] at *; omega
  unfold znet_node_cmd_configuration_bulk_get
  simp only [if_neg hnode2, hcb, if_true]
  split_ifs with h1 h2 h2 <;>
    simp_all [Outcome.userCallbacks, Outcome.trace, Event.isUserCallback]

theorem znet_node_cmd_configuration_name_get_userCallbacks (cb : znet_callbacks_t)
    (send : LowerCall → Bool) (node_id channel_id param_number : Nat)
    (hnode : ZNET_NODE_ID_MIN ≤ node_id ∧ node_id ≤ ZNET_NODE_ID_MAX)
    (hcb : cb.node_cmd_configuration_name_result = true) :
    (znet_node_cmd_configuration_name_get (some cb) send node_id channel_id param_number).userCallbacks =
      if send (.znet_cc_configuration_name_get node_id param_number none
        (if channel_id ≠ ZNET_CHANNEL_ID_ROOT then some (ZNET_CHANNEL_ID_ROOT, channel_id)
          else none)
        (if channel_id ≠ ZNET_CHANNEL_ID_ROOT then Encapsulation_None ||| Encapsulation_MuCh
          else Encapsulation_None)) = true then []
      else [.node_cmd_configuration_name_result (-1) ZNET_NODE_ID_INVALID channel_id none cb.arg] := by
  have hnode2 : ¬ (node_id < ZNET_NODE_ID_MIN ∨ node_id > ZNET_NODE_ID_MAX) := by
    simp only [ZNET_NODE_ID_MIN, ZNET_NODE_ID_MAX] at *; omega
  unfold znet_node_cmd_configuration_name_get
  simp only [if_neg hnode2, hcb, if_true]
  split_ifs with h1 h2 h2 <;>
    simp_all [Outcome.userCallbacks, Outcome.trace, Event.isUserCallback]

theorem znet_node_cmd_configuration_info_get_userCallbacks (cb : znet_callbacks_t)
    (send : LowerCall → Bool) (node_id channel_id param_number : Nat)
    (hnode : ZNET_NODE_ID_MIN ≤ node_id ∧ node_id ≤ ZNET_NODE_ID_MAX)
    (hcb : cb.node_cmd_configuration_info_result = true) :
    (znet_node_cmd_configuration_info_get (some cb) send node_id channel_id param_number).userCallbacks =
      if send (.znet_cc_configuration_info_get node_id param_number none
        (if channel_id ≠ ZNET_CHANNEL_ID_ROOT then some (ZNET_CHANNEL_ID_ROOT, channel_id)
          else none)
        (if channel_id ≠ ZNET_CHANNEL_ID_ROOT then Encapsulation_None ||| Encapsulation_MuCh
          else Encapsulation_None)) = true then []
      else [.node_cmd_configuration_info_result (-1) ZNET_NODE_ID_INVALID channel_id none cb.arg] := by
  have hnode2 : ¬ (node_id < ZNET_NODE_ID_MIN ∨ node_id > ZNET_NODE_ID_MAX) := by
    simp only [ZNET_NODE_ID_MIN, ZNET_NODE_ID_MAX] at *; omega
  unfold znet_node_cmd_configuration_info_get
  simp only [if_neg hnode2, hcb, if_true]
  split_ifs with h1 h2 h2 <;>
    simp_all [Outcome.userCallbacks, Outcome.trace, Event.isUserCallback]

theorem znet_node_cmd_configuration_properties_get_userCallbacks (cb : znet_callbacks_t)
    (send : LowerCall → Bool) (node_id channel_id param_number : Nat)
    (hnode : ZNET_NODE_ID_MIN ≤ node_id ∧ node_id ≤ ZNET_NODE_ID_MAX)
    (hcb : cb.node_cmd_configuration_properties_result = true) :
    (znet_node_cmd_configuration_properties_get (some cb) send node_id channel_id param_number).userCallbacks =
      if send (.znet_cc_configuration_properties_get node_id param_number none
        (if channel_id ≠ ZNET_CHANNEL_ID_ROOT then some (ZNET_CHANNEL_ID_ROOT, channel_id)
          else none)
        (if channel_id ≠ ZNET_CHANNEL_ID_ROOT then Encapsulation_None ||| Encapsulation_MuCh
          else Encapsulation_None)) = true then []
      else [.node_cmd_configuration_properties_result (-1) ZNET_NODE_ID_INVALID channel_id none cb.arg] := by
  have hnode2 : ¬ (node_id < ZNET_NODE_ID_MIN ∨ node_id > ZNET_NODE_ID_MAX) := by
    simp only [ZNET_NODE_ID_MIN, ZNET_NODE_ID_MAX] at *; omega
  unfold znet_node_cmd_configuration_properties_get
  simp only [if_neg hnode2, hcb, if_true]
  split_ifs with h1 h2 h2 <;>
    simp_all [Outcome.userCallbacks, Outcome.trace, Event.isUserCallback]

/-- C16: each of get, bulk_get, name_get, info_get and properties_get, called
with a node id in [1,232] on an initialised library whose callback table holds
the result callback of that entry (whatever its other callbacks are), issues
one lower-layer request; if the send routine reports failure for it, the result
callback is invoked exactly once, with error -1, node id 0xFF, the requested
channel id and a null payload; if it reports success, no user callback is
invoked during the call. -/
theorem configuration_getters_send_outcome
    (get_cb bulk_cb name_cb info_cb properties_cb : znet_callbacks_t)
    (send : LowerCall → Bool)
    (node_id channel_id config_param_num config_id config_count param_number : Nat)
    (hnode : ZNET_NODE_ID_MIN ≤ node_id ∧ node_id ≤ ZNET_NODE_ID_MAX)
    (hparam : config_param_num ≠ 0)
    (hget_cb : get_cb.node_cmd_configuration_result = true)
    (hbulk_cb : bulk_cb.node_cmd_configuration_bulk_result = true)
    (hname_cb : name_cb.node_cmd_configuration_name_result = true)
    (hinfo_cb : info_cb.node_cmd_configuration_info_result = true)
    (hproperties_cb : properties_cb.node_cmd_configuration_properties_result = true) :
    (∃ c, (znet_node_cmd_configuration_get (some get_cb) send node_id channel_id
          config_param_num).lowerCalls = [c] ∧
        (znet_node_cmd_configuration_get (some get_cb) send node_id channel_id
          config_param_num).userCallbacks =
        if send c = true then []
        else [.node_cmd_configuration_result (-1) 0xFF channel_id none get_cb.arg]) ∧
    (∃ c, (znet_node_cmd_configuration_bulk_get (some bulk_cb) send node_id channel_id
          config_id config_count).lowerCalls = [c] ∧
        (znet_node_cmd_configuration_bulk_get (some bulk_cb) send node_id channel_id
          config_id config_count).userCallbacks =
        if send c = true then []
        else [.node_cmd_configuration_bulk_result (-1) 0xFF channel_id none bulk_cb.arg]) ∧
    (∃ c, (znet_node_cmd_configuration_name_get (some name_cb) send node_id channel_id
          param_number).lowerCalls = [c] ∧
        (znet_node_cmd_configuration_name_get (some name_cb) send node_id channel_id
          param_number).userCallbacks =
        if send c = true then []
        else [.node_cmd_configuration_name_result (-1) 0xFF channel_id none name_cb.arg]) ∧
    (∃ c, (znet_node_cmd_configuration_info_get (some info_cb) send node_id channel_id
          param_number).lowerCalls = [c] ∧
        (znet_node_cmd_configuration_info_get (some info_cb) send node_id channel_id
          param_number).userCallbacks =
        if send c = true then []
        else [.node_cmd_configuration_info_result (-1) 0xFF channel_id none info_cb.arg]) ∧
    (∃ c, (znet_node_cmd_configuration_properties_get (some properties_cb) send node_id
          channel_id param_number).lowerCalls = [c] ∧
        (znet_node_cmd_configuration_properties_get (some properties_cb) send node_id
          channel_id param_number).userCallbacks =
        if send c = true then []
        else [.node_cmd_configuration_properties_result (-1) 0xFF channel_id none
          properties_cb.arg]) :=
  ⟨⟨_, znet_node_cmd_configuration_get_lowerCalls get_cb send node_id channel_id
      config_param_num hparam,
    znet_node_cmd_configuration_get_userCallbacks get_cb send node_id channel_id
      config_param_num hnode hparam hget_cb⟩,
   ⟨_, znet_node_cmd_configuration_bulk_get_lowerCalls bulk_cb send node_id channel_id
      config_id config_count hnode,
    znet_node_cmd_configuration_bulk_get_userCallbacks bulk_cb send node_id channel_id
      config_id config_count hnode hbulk_cb⟩,
   ⟨_, znet_node_cmd_configuration_name_get_lowerCalls name_cb send node_id channel_id
      param_number hnode,
    znet_node_cmd_configuration_name_get_userCallbacks name_cb send node_id channel_id
      param_number hnode hname_cb⟩,
   ⟨_, znet_node_cmd_configuration_info_get_lowerCalls info_cb send node_id channel_id
      param_number hnode,
    znet_node_cmd_configuration_info_get_userCallbacks info_cb send node_id channel_id
      param_number hnode hinfo_cb⟩,
   ⟨_, znet_node_cmd_configuration_properties_get_lowerCalls properties_cb send node_id
      channel_id param_number hnode,
    znet_node_cmd_configuration_properties_get_userCallbacks properties_cb send node_id
      channel_id param_number hnode hproperties_cb⟩⟩

/-- Witness of C16: node 5, channel 2, a send layer that fails every request,
and for each entry a callback table that holds its own result callback only:
the get entry and the name_get entry report the failure once. -/
theorem configuration_getters_send_outcome_witness :
    (znet_node_cmd_configuration_get (some ⟨0, true, false, false, false, false⟩)
        (fun _ => false) 5 2 1).userCallbacks =
      [.node_cmd_configuration_result (-1) 0xFF 2 none 0] ∧
    (znet_node_cmd_configuration_name_get (some ⟨0, false, false, true, false, false⟩)
        (fun _ => false) 5 2 1).userCallbacks =
      [.node_cmd_configuration_name_result (-1) 0xFF 2 none 0] := by
  obtain ⟨⟨c1, _, h1⟩, _, ⟨c3, _, h3⟩, _, _⟩ := configuration_getters_send_outcome
    ⟨0, true, false, false, false, false⟩ ⟨0, false, true, false, false, false⟩
    ⟨0, false, false, true, false, false⟩ ⟨0, false, false, false, true, false⟩
    ⟨0, false, false, false, false, true⟩ (fun _ => false) 5 2 1 1 1 1
    (by decide) (by decide) (by decide) (by decide) (by decide) (by decide) (by decide)
  rw [h1, h3]
  exact ⟨rfl, rfl⟩

/-- C17: the get entry registers `_znet_node_cmd_configuration_get_cb` as
completion handler of its request, and that handler, with the configuration
result callback present, invokes it if and only if the completion reason is
not `FUNC_OK`: for `FUNC_OK` the trace is empty, otherwise it is the single
callback with error -1, node id 0xFF, the endpoint of the session and a null
payload. -/
theorem configuration_get_completion_reports (cb : znet_callbacks_t) (func : ZFunction)
    (reason_ok : Bool) (send : LowerCall → Bool) (node_id channel_id config_param_num : Nat)
    (hparam : config_param_num ≠ 0)
    (hcb : cb.node_cmd_configuration_result = true) :
    (znet_node_cmd_configuration_get (some cb) send node_id channel_id
        config_param_num).lowerCalls.map LowerCall.cb =
      [some ._znet_node_cmd_configuration_get_cb] ∧
    _znet_node_cmd_configuration_get_cb (some cb) func reason_ok =
      .returned (if reason_ok = true then []
        else [.node_cmd_configuration_result (-1) 0xFF func._endpoint none cb.arg]) := by
  constructor
  · rw [znet_node_cmd_configuration_get_lowerCalls cb send node_id channel_id
      config_param_num hparam]
    rfl
  · unfold _znet_node_cmd_configuration_get_cb
    cases reason_ok <;> simp [hcb]

/-- Witness of C17: a completion with a reason other than `FUNC_OK`, for a
session on endpoint 2. -/
theorem configuration_get_completion_reports_witness :
    _znet_node_cmd_configuration_get_cb (some ⟨0, true, true, true, true, true⟩) ⟨2⟩ false =
      .returned [.node_cmd_configuration_result (-1) 0xFF 2 none 0] :=
  (configuration_get_completion_reports ⟨0, true, true, true, true, true⟩ ⟨2⟩ false
    (fun _ => true) 5 2 1 (by decide) (by decide)).2

/-- C18 fails on the code: the accepted requests of bulk_get, name_get,
info_get and properties_get (node 5, root channel) are passed to the lower
layer with a null completion handler, so no handler of this file reports a
later failure of the request; the get entry registers one. -/
theorem configuration_getters_no_completion_handler :
    (znet_node_cmd_configuration_bulk_get (some ⟨0, true, true, true, true, true⟩)
        (fun _ => true) 5 0 1 1).lowerCalls.map LowerCall.cb = [none] ∧
    (znet_node_cmd_configuration_name_get (some ⟨0, true, true, true, true, true⟩)
        (fun _ => true) 5 0 1).lowerCalls.map LowerCall.cb = [none] ∧
    (znet_node_cmd_configuration_info_get (some ⟨0, true, true, true, true, true⟩)
        (fun _ => true) 5 0 1).lowerCalls.map LowerCall.cb = [none] ∧
    (znet_node_cmd_configuration_properties_get (some ⟨0, true, true, true, true, true⟩)
        (fun _ => true) 5 0 1).lowerCalls.map LowerCall.cb = [none] ∧
    (znet_node_cmd_configuration_get (some ⟨0, true, true, true, true, true⟩)
        (fun _ => true) 5 0 1).lowerCalls.map LowerCall.cb =
      [some ._znet_node_cmd_configuration_get_cb] := by
  decide

/-- C19, as stated, fails: on a library that is not initialised, the get and
the set entry called with parameter number 0 stop at their assertion, which
precedes the initialisation check; nothing is logged. -/
theorem configuration_uninitialized_zero_param_asserts :
    znet_node_cmd_configuration_get none (fun _ => true) 5 0 0 =
      .aborted (.assertion "config_param_num") [] ∧
    znet_node_cmd_configuration_set none 5 0 0 1 0 0 =
      .aborted (.assertion "config_param_num > 0") [] := by
  decide

/-- C19, amended: on a library that is not initialised, every configuration
entry called with arguments that satisfy its asserted precondition (a non-zero
parameter number for get and set; any arguments for the others) returns
normally, and its whole trace is the error log line: no lower-layer request and
no callback. -/
theorem configuration_entries_uninitialized_logged (send : LowerCall → Bool)
    (node_id channel_id config_param_num config_size config_value : Nat)
    (set_to_default need_report : Int)
    (config_id config_count param_number : Nat) (config_values : List Nat)
    (hparam : config_param_num ≠ 0) :
    znet_node_cmd_configuration_get none send node_id channel_id config_param_num =
      .returned [.log "ZNET: Library not initialized!\n"] ∧
    znet_node_cmd_configuration_set none node_id channel_id config_param_num config_size
      set_to_default config_value = .returned [.log "ZNET: Library not initialized!\n"] ∧
    znet_node_cmd_configuration_bulk_set none node_id channel_id config_id config_count
      config_size need_report set_to_default config_values =
      .returned [.log "ZNET: Library not initialized!\n"] ∧
    znet_node_cmd_configuration_bulk_get none send node_id channel_id config_id config_count =
      .returned [.log "ZNET: Library not initialized!\n"] ∧
    znet_node_cmd_configuration_name_get none send node_id channel_id param_number =
      .returned [.log "ZNET: Library not initialized!\n"] ∧
    znet_node_cmd_configuration_info_get none send node_id channel_id param_number =
      .returned [.log "ZNET: Library not initialized!\n"] ∧
    znet_node_cmd_configuration_properties_get none send node_id channel_id param_number =
      .returned [.log "ZNET: Library not initialized!\n"] ∧
    znet_node_cmd_configuration_default_reset none node_id channel_id =
      .returned [.log "ZNET: Library not initialized!\n"] := by
  have hpos : config_param_num > 0 := by omega
  refine ⟨?_, ?_, rfl, rfl, rfl, rfl, rfl, rfl⟩
  · unfold znet_node_cmd_configuration_get
    rw [if_neg hparam]
  · unfold znet_node_cmd_configuration_set
    rw [if_neg (not_not.mpr hpos)]

/-- Witness of C19 amended: node 5, parameter 1, library not initialised. -/
theorem configuration_entries_uninitialized_logged_witness :
    znet_node_cmd_configuration_get none (fun _ => true) 5 0 1 =
      .returned [.log "ZNET: Library not initialized!\n"] :=
  (configuration_entries_uninitialized_logged (fun _ => true) 5 0 1 1 0 0 0 1 1 1 []
    (by decide)).1

/-- C20 fails on the code for the properties handler: on a frame that passes
every check, for node 5 and with the properties result callback alone absent,
the handler does not complete normally. Its copy loop stores `data[3]` into a
buffer that reserves 3 data bytes (the defect of C23) before the callback is
tested, so the run stops at that store. The other four handlers, each on a
valid frame and with its own result callback alone absent, return with an empty
trace. -/
theorem configuration_properties_report_absent_callback_overruns :
    properties_report_valid [0x70, 0x0F, 0, 7, 1, 0, 9, 3, 4] ∧
    znet_cc_configuration_properties_report (some ⟨0, true, true, true, true, false⟩) ⟨0⟩ 5
        [0x70, 0x0F, 0, 7, 1, 0, 9, 3, 4] = .aborted (.write_past_buffer 3) [] ∧
    (znet_cc_configuration_properties_report (some ⟨0, true, true, true, true, false⟩) ⟨0⟩ 5
        [0x70, 0x0F, 0, 7, 1, 0, 9, 3, 4]).isReturned = false ∧
    znet_cc_configuration_report (some ⟨0, false, true, true, true, true⟩) ⟨0⟩ 5
        [0x70, 0x06, 7, 2, 0x12, 0x34] = .returned [] ∧
    znet_cc_configuration_bulk_report (some ⟨0, true, false, true, true, true⟩) ⟨0⟩ 5
        [0x70, 0x09, 0, 1, 1, 0, 1, 5] = .returned [] ∧
    znet_cc_configuration_name_report (some ⟨0, true, true, false, true, true⟩) ⟨0⟩ 5
        [0x70, 0x0B, 0, 3, 1, 112, 97, 114] = .returned [] ∧
    znet_cc_configuration_info_report (some ⟨0, true, true, true, false, true⟩) ⟨0⟩ 5
        [0x70, 0x0D, 0, 2, 0, 116, 49] = .returned [] := by
  decide

/-- C21, as stated, fails: on a valid v1 report frame and on a valid name frame
for node 5, each handler running with its own result callback alone absent (the
other callbacks are registered), the handler returns without a single log
entry. -/
theorem configuration_report_absent_callback_unlogged :
    configuration_report_valid [0x70, 0x06, 7, 2, 0x12, 0x34] ∧
    (znet_cc_configuration_report (some ⟨0, false, true, true, true, true⟩) ⟨0⟩ 5
        [0x70, 0x06, 7, 2, 0x12, 0x34]).logs = [] ∧
    name_report_valid [0x70, 0x0B, 0, 3, 1, 112, 97, 114] ∧
    (znet_cc_configuration_name_report (some ⟨0, true, true, false, true, true⟩) ⟨0⟩ 5
        [0x70, 0x0B, 0, 3, 1, 112, 97, 114]).logs = [] := by
  decide

/-- C21, amended: on a valid frame, with the library initialised and the result
callback of the handler absent (whatever the other callbacks are), each of the
configuration, bulk, name and info handlers drops the result without logging
it: the run returns with an empty trace, so it has no log entry. The properties
handler has no log entry on a valid frame either, whatever the callback table
is. -/
theorem configuration_reports_absent_callback_unlogged
    (report_cb bulk_cb name_cb info_cb : znet_callbacks_t)
    (properties_znet_cb : Option znet_callbacks_t)
    (func : ZFunction) (node_id : Nat)
    (report_frame bulk_frame name_frame info_frame properties_frame : List Nat)
    (hreport : configuration_report_valid report_frame)
    (hbulk : bulk_report_valid bulk_frame)
    (hname : name_report_valid name_frame)
    (hinfo : info_report_valid info_frame)
    (hproperties : properties_report_valid properties_frame)
    (hreport_cb : report_cb.node_cmd_configuration_result = false)
    (hbulk_cb : bulk_cb.node_cmd_configuration_bulk_result = false)
    (hname_cb : name_cb.node_cmd_configuration_name_result = false)
    (hinfo_cb : info_cb.node_cmd_configuration_info_result = false) :
    (znet_cc_configuration_report (some report_cb) func node_id report_frame = .returned [] ∧
      znet_cc_configuration_bulk_report (some bulk_cb) func node_id bulk_frame = .returned [] ∧
      znet_cc_configuration_name_report (some name_cb) func node_id name_frame = .returned [] ∧
      znet_cc_configuration_info_report (some info_cb) func node_id info_frame =
        .returned []) ∧
    (znet_cc_configuration_report (some report_cb) func node_id report_frame).logs = [] ∧
    (znet_cc_configuration_bulk_report (some bulk_cb) func node_id bulk_frame).logs = [] ∧
    (znet_cc_configuration_name_report (some name_cb) func node_id name_frame).logs = [] ∧
    (znet_cc_configuration_info_report (some info_cb) func node_id info_frame).logs = [] ∧
    (znet_cc_configuration_properties_report properties_znet_cb func node_id
      properties_frame).logs = [] := by
  obtain ⟨report, hrun⟩ :=
    znet_cc_configuration_report_valid_run report_cb func node_id report_frame hreport
  rw [hrun, znet_cc_configuration_bulk_report_accepted bulk_cb func node_id bulk_frame hbulk,
    znet_cc_configuration_name_report_accepted name_cb func node_id name_frame hname,
    znet_cc_configuration_info_report_accepted info_cb func node_id info_frame hinfo,
    znet_cc_configuration_properties_report_valid_run properties_znet_cb func node_id
      properties_frame hproperties,
    hreport_cb, hbulk_cb, hname_cb, hinfo_cb]
  refine ⟨by simp, by simp [Outcome.logs, Outcome.trace], by simp [Outcome.logs, Outcome.trace],
    by simp [Outcome.logs, Outcome.trace], by simp [Outcome.logs, Outcome.trace], ?_⟩
  split_ifs <;> rfl

/-- Witness of C21 amended: node 5, one valid frame for each handler, each of
the first four handlers with its own result callback alone absent. -/
theorem configuration_reports_absent_callback_unlogged_witness :
    (znet_cc_configuration_bulk_report (some ⟨0, true, false, true, true, true⟩) ⟨0⟩ 5
        [0x70, 0x09, 0, 1, 1, 0, 1, 5]).logs = [] ∧
    (znet_cc_configuration_info_report (some ⟨0, true, true, true, false, true⟩) ⟨0⟩ 5
        [0x70, 0x0D, 0, 2, 0, 116, 49]).logs = [] :=
  have h := configuration_reports_absent_callback_unlogged
    ⟨0, false, true, true, true, true⟩ ⟨0, true, false, true, true, true⟩
    ⟨0, true, true, false, true, true⟩ ⟨0, true, true, true, false, true⟩
    (some ⟨0, true, true, true, true, false⟩) ⟨0⟩ 5
    [0x70, 0x06, 7, 2, 0x12, 0x34] [0x70, 0x09, 0, 1, 1, 0, 1, 5]
    [0x70, 0x0B, 0, 3, 1, 112, 97, 114] [0x70, 0x0D, 0, 2, 0, 116, 49]
    [0x70, 0x0F, 0, 7, 1, 0, 9, 3, 4]
    (by decide) (by decide) (by decide) (by decide) (by decide)
    (by decide) (by decide) (by decide) (by decide)
  ⟨h.2.2.1, h.2.2.2.2.1⟩

/-! ### Reads stay inside the frame -/

theorem znet_cc_configuration_bulk_report_reads_lt (node_id : Nat) (cc_data : List Nat) :
    ∀ i ∈ znet_cc_configuration_bulk_report_reads node_id cc_data, i < cc_data.length := by
  intro i hi
  unfold znet_cc_configuration_bulk_report_reads at hi
  simp only [ZNET_CMD_CONFIGURATION_BULK_REPORT_CHECK_LEN] at hi
  split_ifs at hi <;>
    simp only [List.mem_cons, List.mem_append, List.mem_map, List.mem_range, List.mem_singleton,
      List.not_mem_nil, or_false] at hi <;>
    omega

theorem znet_cc_configuration_name_report_reads_lt (node_id : Nat) (cc_data : List Nat) :
    ∀ i ∈ znet_cc_configuration_name_report_reads node_id cc_data, i < cc_data.length := by
  intro i hi
  unfold znet_cc_configuration_name_report_reads at hi
  simp only [ZNET_CMD_CONFIGURATION_NIP_REPORT_CHECK_LEN] at hi
  split_ifs at hi <;>
    simp only [List.mem_cons, List.mem_append, List.mem_map, List.mem_range, List.mem_singleton,
      List.not_mem_nil, or_false] at hi <;>
    omega

theorem znet_cc_configuration_info_report_reads_lt (node_id : Nat) (cc_data : List Nat) :
    ∀ i ∈ znet_cc_configuration_info_report_reads node_id cc_data, i < cc_data.length := by
  intro i hi
  unfold znet_cc_configuration_info_report_reads at hi
  simp only [ZNET_CMD_CONFIGURATION_NIP_REPORT_CHECK_LEN] at hi
  split_ifs at hi <;>
    simp only [List.mem_cons, List.mem_append, List.mem_map, List.mem_range, List.mem_singleton,
      List.not_mem_nil, or_false] at hi <;>
    omega

theorem znet_cc_configuration_properties_report_reads_lt (node_id : Nat) (cc_data : List Nat) :
    ∀ i ∈ znet_cc_configuration_properties_report_reads node_id cc_data, i < cc_data.length := by
  intro i hi
  unfold znet_cc_configuration_properties_report_reads at hi
  simp only [ZNET_CMD_CONFIGURATION_PROP_REPORT_CHECK_LEN] at hi
  split_ifs at hi <;>
    simp only [List.mem_cons, List.mem_append, List.mem_map, List.mem_range, List.mem_singleton,
      List.not_mem_nil, or_false] at hi <;>
    omega

theorem znet_cc_configuration_bulk_report_no_readPastFrame (znet_cb : Option znet_callbacks_t)
    (func : ZFunction) (node_id : Nat) (cc_data : List Nat) :
    (znet_cc_configuration_bulk_report znet_cb func node_id cc_data).readPastFrame = false := by
  unfold znet_cc_configuration_bulk_report
  dsimp only
  split_ifs <;> try rfl
  all_goals
    rw [copy_bytes_eq _ _ _ (by simp only [ZNET_CMD_CONFIGURATION_BULK_REPORT_CHECK_LEN] at *; omega)]
    cases znet_cb with
    | none => rfl
    | some cb => simp only; split_ifs <;> rfl

theorem znet_cc_configuration_name_report_no_readPastFrame (znet_cb : Option znet_callbacks_t)
    (func : ZFunction) (node_id : Nat) (cc_data : List Nat) :
    (znet_cc_configuration_name_report znet_cb func node_id cc_data).readPastFrame = false := by
  unfold znet_cc_configuration_name_report
  dsimp only
  split_ifs <;> try rfl
  all_goals
    rw [copy_bytes_eq _ _ _ (by simp only [ZNET_CMD_CONFIGURATION_NIP_REPORT_CHECK_LEN] at *; omega)]
    cases znet_cb with
    | none => rfl
    | some cb => simp only; split_ifs <;> rfl

theorem znet_cc_configuration_info_report_no_readPastFrame (znet_cb : Option znet_callbacks_t)
    (func : ZFunction) (node_id : Nat) (cc_data : List Nat) :
    (znet_cc_configuration_info_report znet_cb func node_id cc_data).readPastFrame = false := by
  unfold znet_cc_configuration_info_report
  dsimp only
  split_ifs <;> try rfl
  all_goals
    rw [copy_bytes_eq _ _ _ (by simp only [ZNET_CMD_CONFIGURATION_NIP_REPORT_CHECK_LEN] at *; omega)]
    cases znet_cb with
    | none => rfl
    | some cb => simp only; split_ifs <;> rfl

theorem znet_cc_configuration_properties_report_no_readPastFrame (znet_cb : Option znet_callbacks_t)
    (func : ZFunction) (node_id : Nat) (cc_data : List Nat) :
    (znet_cc_configuration_properties_report znet_cb func node_id cc_data).readPastFrame = false := by
  unfold znet_cc_configuration_properties_report
  dsimp only
  split_ifs <;> try rfl
  all_goals
    rw [copy_bytes_reserved_overflow _ _ _ _ _ (Nat.zero_le _) (by omega)
      (by simp only [ZNET_CMD_CONFIGURATION_PROP_REPORT_CHECK_LEN] at *; omega)]
    rfl

/-- C22: every index of `cc_data` that the bulk, name, info and properties
handlers read is below the length of the frame. The assertions on the minimum
length and on the computed payload length precede the reads they cover, so this
holds for every frame and node id, in particular for the frames that pass all
the length checks, where the copy loop runs; accordingly no run of these
handlers stops at a read past the frame. The last four conjuncts show the reads
of one accepted frame per handler. -/
theorem configuration_reports_read_within_frame (znet_cb : Option znet_callbacks_t)
    (func : ZFunction) (node_id : Nat) (cc_data : List Nat) :
    ((∀ i ∈ znet_cc_configuration_bulk_report_reads node_id cc_data, i < cc_data.length) ∧
      (∀ i ∈ znet_cc_configuration_name_report_reads node_id cc_data, i < cc_data.length) ∧
      (∀ i ∈ znet_cc_configuration_info_report_reads node_id cc_data, i < cc_data.length) ∧
      (∀ i ∈ znet_cc_configuration_properties_report_reads node_id cc_data,
        i < cc_data.length)) ∧
    ((znet_cc_configuration_bulk_report znet_cb func node_id cc_data).readPastFrame = false ∧
      (znet_cc_configuration_name_report znet_cb func node_id cc_data).readPastFrame = false ∧
      (znet_cc_configuration_info_report znet_cb func node_id cc_data).readPastFrame = false ∧
      (znet_cc_configuration_properties_report znet_cb func node_id cc_data).readPastFrame =
        false) ∧
    (znet_cc_configuration_bulk_report_reads 5 [0x70, 0x09, 1, 2, 2, 1, 2, 0xAA, 0xBB, 0xCC, 0xDD]
        = [0, 1, 4, 2, 3, 6, 4, 4, 5, 7, 8, 9, 10] ∧
      znet_cc_configuration_name_report_reads 5 [0x70, 0x0B, 0, 3, 1, 112, 97, 114]
        = [0, 1, 2, 3, 4, 5, 6, 7] ∧
      znet_cc_configuration_info_report_reads 5 [0x70, 0x0D, 0, 2, 0, 116, 49]
        = [0, 1, 2, 3, 4, 5, 6] ∧
      znet_cc_configuration_properties_report_reads 5 [0x70, 0x0F, 0, 7, 1, 0, 9, 3, 4]
        = [0, 1, 4, 2, 3, 4, 4, 4, 4, 5, 6, 7, 8]) :=
  ⟨⟨znet_cc_configuration_bulk_report_reads_lt node_id cc_data,
      znet_cc_configuration_name_report_reads_lt node_id cc_data,
      znet_cc_configuration_info_report_reads_lt node_id cc_data,
      znet_cc_configuration_properties_report_reads_lt node_id cc_data⟩,
    ⟨znet_cc_configuration_bulk_report_no_readPastFrame znet_cb func node_id cc_data,
      znet_cc_configuration_name_report_no_readPastFrame znet_cb func node_id cc_data,
      znet_cc_configuration_info_report_no_readPastFrame znet_cb func node_id cc_data,
      znet_cc_configuration_properties_report_no_readPastFrame znet_cb func node_id cc_data⟩,
    by decide⟩

/-- C23 fails on the code: the copy loop of the properties handler writes the
indices 0 .. param_size + 1 of `data`, while the output buffer reserves
param_size bytes for it. For the accepted frame with size field 1 (param_size
3) the indices written are 0, 1, 2, 3, 4; and for every frame the indices
param_size and param_size + 1 are written. -/
theorem configuration_properties_report_writes_past_buffer :
    properties_report_valid [0x70, 0x0F, 0, 7, 1, 0, 9, 3, 4] ∧
    znet_cc_configuration_properties_report_data_reserved [0x70, 0x0F, 0, 7, 1, 0, 9, 3, 4]
      = 3 ∧
    znet_cc_configuration_properties_report_data_writes [0x70, 0x0F, 0, 7, 1, 0, 9, 3, 4]
      = [0, 1, 2, 3, 4] ∧
    (∀ cc_data : List Nat,
      znet_cc_configuration_properties_report_data_reserved cc_data ∈
        znet_cc_configuration_properties_report_data_writes cc_data ∧
      znet_cc_configuration_properties_report_data_reserved cc_data + 1 ∈
        znet_cc_configuration_properties_report_data_writes cc_data) := by
  refine ⟨by decide, by decide, by decide, ?_⟩
  intro cc_data
  simp [znet_cc_configuration_properties_report_data_reserved,
    znet_cc_configuration_properties_report_data_writes]

/-- The size bits of a byte fit a byte. -/
theorem size_field_lt (x : Nat) : x &&& 0x07 < 256 := by
  have h : x &&& 0x07 ≤ 0x07 := Nat.and_le_right
  omega

/-- C24 fails on the code: for node 5, endpoint 3 and the frame with parameter
7 and properties byte 0x09 (format 1, size field 1, 6 + 3 bytes), which meets
every precondition of the handler, with the properties result callback
registered, the handler invokes no callback. The buffer reserves 3 data bytes
and the copy loop runs over 5 indices: the run stops at the store to `data[3]`
(the defect of C23), before the callback. -/
theorem configuration_properties_report_overruns_before_delivery :
    properties_report_valid [0x70, 0x0F, 0, 7, 0x09, 0, 9, 3, 4] ∧
    znet_cc_configuration_properties_report_data_reserved
      [0x70, 0x0F, 0, 7, 0x09, 0, 9, 3, 4] = 3 ∧
    znet_cc_configuration_properties_report (some ⟨9, true, true, true, true, true⟩) ⟨3⟩ 5
        [0x70, 0x0F, 0, 7, 0x09, 0, 9, 3, 4] = .aborted (.write_past_buffer 3) [] ∧
    (znet_cc_configuration_properties_report (some ⟨9, true, true, true, true, true⟩) ⟨3⟩ 5
        [0x70, 0x0F, 0, 7, 0x09, 0, 9, 3, 4]).userCallbacks = [] := by
  decide

/-- The bulk handler invokes no callback when the offset is zero, the size
field is not 1, 2 or 4, or the node id is out of range. -/
theorem znet_cc_configuration_bulk_report_rejected (znet_cb : Option znet_callbacks_t)
    (func : ZFunction) (node_id : Nat) (cc_data : List Nat)
    (hrej : ((cc_data.getD 2 0 <<< 8) ||| cc_data.getD 3 0) % 2 ^ 16 = 0 ∨
      ¬ (cc_data.getD 6 0 &&& 0x07 = 1 ∨ cc_data.getD 6 0 &&& 0x07 = 2 ∨
        cc_data.getD 6 0 &&& 0x07 = 4) ∨
      ¬ (ZNET_NODE_ID_MIN ≤ node_id ∧ node_id ≤ ZNET_NODE_ID_MAX)) :
    (znet_cc_configuration_bulk_report znet_cb func node_id cc_data).userCallbacks = [] := by
  have hsz := size_check_rejects_iff (cc_data.getD 6 0)
  unfold znet_cc_configuration_bulk_report
  dsimp only
  split_ifs with h1 h2 h3 h4 h5 h6 h7 h8 <;> try rfl
  all_goals
    exfalso
    rcases hrej with h | h | h
    · exact h5 h
    · exact h (by
        have := (not_congr hsz).mp h6
        omega)
    · exact h (by simp only [ZNET_NODE_ID_MIN, ZNET_NODE_ID_MAX] at h7 ⊢; omega)

/-- C26: on an initialised library and a Bulk Report frame that meets the
assertions of the handler (minimum length, class and command bytes, non-zero
count, and the payload length where that assertion is reached), the bulk result
callback is invoked if and only if the 16-bit offset is non-zero, the size
field is 1, 2 or 4, the node id is in [1,232] and the callback is present; in
every other case no user callback is invoked, and never more than one. -/
theorem configuration_bulk_report_callback_iff (cb : znet_callbacks_t) (func : ZFunction)
    (node_id : Nat) (cc_data : List Nat)
    (hbytes : ∀ b ∈ cc_data, b < 256)
    (hmin : ZNET_CMD_CONFIGURATION_BULK_REPORT_CHECK_LEN ≤ cc_data.length)
    (hclass : cc_data.getD 0 0 = ZNET_COMMAND_CLASS_CONFIGURATION)
    (hcmd : cc_data.getD 1 0 = CONFIGURATION_BULK_REPORT_V4)
    (hcount : cc_data.getD 4 0 ≠ 0)
    (hpayload : 256 * cc_data.getD 2 0 + cc_data.getD 3 0 ≠ 0 →
      (cc_data.getD 6 0 &&& 0x07 = 1 ∨ cc_data.getD 6 0 &&& 0x07 = 2 ∨
        cc_data.getD 6 0 &&& 0x07 = 4) →
      (ZNET_NODE_ID_MIN ≤ node_id ∧ node_id ≤ ZNET_NODE_ID_MAX) →
      7 + (cc_data.getD 6 0 &&& 0x07) * cc_data.getD 4 0 ≤ cc_data.length) :
    ((znet_cc_configuration_bulk_report (some cb) func node_id cc_data).userCallbacks ≠ [] ↔
      (256 * cc_data.getD 2 0 + cc_data.getD 3 0 ≠ 0 ∧
        (cc_data.getD 6 0 &&& 0x07 = 1 ∨ cc_data.getD 6 0 &&& 0x07 = 2 ∨
          cc_data.getD 6 0 &&& 0x07 = 4) ∧
        (ZNET_NODE_ID_MIN ≤ node_id ∧ node_id ≤ ZNET_NODE_ID_MAX) ∧
        cb.node_cmd_configuration_bulk_result = true)) ∧
    (znet_cc_configuration_bulk_report (some cb) func node_id cc_data).userCallbacks.length
      ≤ 1 := by
  have hword := word_of_bytes (cc_data.getD 2 0) (cc_data.getD 3 0)
    (getD_lt_of_bytes cc_data hbytes 2) (getD_lt_of_bytes cc_data hbytes 3)
  by_cases hoff : 256 * cc_data.getD 2 0 + cc_data.getD 3 0 ≠ 0
  · by_cases hsize : cc_data.getD 6 0 &&& 0x07 = 1 ∨ cc_data.getD 6 0 &&& 0x07 = 2 ∨
        cc_data.getD 6 0 &&& 0x07 = 4
    · by_cases hnode : ZNET_NODE_ID_MIN ≤ node_id ∧ node_id ≤ ZNET_NODE_ID_MAX
      · have hvalid : bulk_report_valid cc_data :=
          ⟨hmin, hclass, hcmd, hcount, by rw [hword]; exact hoff, hsize,
            hpayload hoff hsize hnode⟩
        rw [znet_cc_configuration_bulk_report_accepted cb func node_id cc_data hvalid]
        by_cases hcb : cb.node_cmd_configuration_bulk_result = true
        · rw [if_pos ⟨hnode, hcb⟩]
          exact ⟨⟨fun _ => ⟨hoff, hsize, hnode, hcb⟩, fun _ => by
            simp [Outcome.userCallbacks, Outcome.trace, Event.isUserCallback]⟩,
            by simp [Outcome.userCallbacks, Outcome.trace, Event.isUserCallback]⟩
        · rw [if_neg (fun h => hcb h.2)]
          exact ⟨⟨fun h => absurd rfl h, fun h => absurd h.2.2.2 hcb⟩, by
            simp [Outcome.userCallbacks, Outcome.trace]⟩
      · rw [znet_cc_configuration_bulk_report_rejected (some cb) func node_id cc_data
          (Or.inr (Or.inr hnode))]
        exact ⟨⟨fun h => absurd rfl h, fun h => absurd h.2.2.1 hnode⟩, by simp⟩
    · rw [znet_cc_configuration_bulk_report_rejected (some cb) func node_id cc_data
        (Or.inr (Or.inl hsize))]
      exact ⟨⟨fun h => absurd rfl h, fun h => absurd h.2.1 hsize⟩, by simp⟩
  · rw [znet_cc_configuration_bulk_report_rejected (some cb) func node_id cc_data
      (Or.inl (by rw [hword]; exact not_not.mp hoff))]
    exact ⟨⟨fun h => absurd rfl h, fun h => absurd h.1 hoff⟩, by simp⟩

/-- Witness of C26: node 5, offset 0x0102, two parameters of size 2, callback
present: the callback is invoked. -/
theorem configuration_bulk_report_callback_iff_witness :
    (znet_cc_configuration_bulk_report (some ⟨9, true, true, true, true, true⟩) ⟨3⟩ 5
      [0x70, 0x09, 1, 2, 2, 1, 2, 0xAA, 0xBB, 0xCC, 0xDD]).userCallbacks ≠ [] :=
  (configuration_bulk_report_callback_iff ⟨9, true, true, true, true, true⟩ ⟨3⟩ 5
    [0x70, 0x09, 1, 2, 2, 1, 2, 0xAA, 0xBB, 0xCC, 0xDD] (by decide) (by decide) (by decide)
    (by decide) (by decide) (fun _ _ _ => by decide)).1.mpr (by decide)

/-- C27: for a node id in [1,232] on an initialised library, the bulk_set entry
issues a lower-layer request if and only if the low three bits of config_size
are 1, 2 or 4; when it does, the run is that single request and the size passed
is config_size & 0x07 (hence 1, 2 or 4); when it does not, the run is the error
log line. -/
theorem configuration_bulk_set_size_masked (cb : znet_callbacks_t)
    (node_id channel_id config_id config_count config_size : Nat)
    (need_report set_to_default : Int) (config_value : List Nat)
    (hnode : ZNET_NODE_ID_MIN ≤ node_id ∧ node_id ≤ ZNET_NODE_ID_MAX) :
    ((znet_node_cmd_configuration_bulk_set (some cb) node_id channel_id config_id config_count
        config_size need_report set_to_default config_value).lowerCalls ≠ [] ↔
      (config_size &&& 0x07 = 1 ∨ config_size &&& 0x07 = 2 ∨ config_size &&& 0x07 = 4)) ∧
    ((config_size &&& 0x07 = 1 ∨ config_size &&& 0x07 = 2 ∨ config_size &&& 0x07 = 4) →
      znet_node_cmd_configuration_bulk_set (some cb) node_id channel_id config_id config_count
        config_size need_report set_to_default config_value =
      .returned [.lower (.znet_cc_configuration_bulk_set node_id config_id config_count
        (decide (set_to_default ≠ 0)) (decide (need_report ≠ 0))
        (config_size &&& 0x07) config_value none
        (if channel_id ≠ ZNET_CHANNEL_ID_ROOT then some (ZNET_CHANNEL_ID_ROOT, channel_id)
          else none)
        (if channel_id ≠ ZNET_CHANNEL_ID_ROOT then Encapsulation_None ||| Encapsulation_MuCh
          else Encapsulation_None))]) ∧
    (¬ (config_size &&& 0x07 = 1 ∨ config_size &&& 0x07 = 2 ∨ config_size &&& 0x07 = 4) →
      znet_node_cmd_configuration_bulk_set (some cb) node_id channel_id config_id config_count
        config_size need_report set_to_default config_value =
      .returned [.log "ZNET: Invalid size ID!\n"]) := by
  have hmask : (config_size &&& CONFIGURATION_SET_LEVEL_SIZE_MASK) % 256 =
      config_size &&& 0x07 := Nat.mod_eq_of_lt (size_field_lt config_size)
  have hnode2 : ¬ (node_id < ZNET_NODE_ID_MIN ∨ node_id > ZNET_NODE_ID_MAX) := by
    simp only [ZNET_NODE_ID_MIN, ZNET_NODE_ID_MAX] at *; omega
  have hyes : (config_size &&& 0x07 = 1 ∨ config_size &&& 0x07 = 2 ∨
      config_size &&& 0x07 = 4) → _ := fun hsize =>
    znet_node_cmd_configuration_bulk_set_lowerCalls cb node_id channel_id config_id
      config_count config_size need_report set_to_default config_value hnode hsize
  have hno : ¬ (config_size &&& 0x07 = 1 ∨ config_size &&& 0x07 = 2 ∨
      config_size &&& 0x07 = 4) →
      znet_node_cmd_configuration_bulk_set (some cb) node_id channel_id config_id config_count
        config_size need_report set_to_default config_value =
      .returned [.log "ZNET: Invalid size ID!\n"] := by
    intro hsize
    have hrej := (size_check_rejects_iff config_size).mpr (by omega)
    unfold znet_node_cmd_configuration_bulk_set
    simp only [if_neg hnode2, if_pos hrej]
  refine ⟨?_, ?_, hno⟩
  · by_cases hsize : config_size &&& 0x07 = 1 ∨ config_size &&& 0x07 = 2 ∨
        config_size &&& 0x07 = 4
    · rw [hyes hsize]
      exact ⟨fun _ => hsize, fun _ => by simp [Outcome.lowerCalls, Outcome.trace,
        Event.lowerCall]⟩
    · rw [hno hsize]
      exact ⟨fun h => absurd rfl h, fun h => absurd h hsize⟩
  · intro hsize
    rw [hyes hsize, hmask]

/-- Witness of C27: node 5, size byte 0x0A (low three bits 2): the request is
issued with size 2. -/
theorem configuration_bulk_set_size_masked_witness :
    znet_node_cmd_configuration_bulk_set (some ⟨0, true, true, true, true, true⟩) 5 0 1 1
        0x0A 0 0 [1, 2] =
      .returned [.lower (.znet_cc_configuration_bulk_set 5 1 1 false false 2 [1, 2] none none
        Encapsulation_None)] :=
  (configuration_bulk_set_size_masked ⟨0, true, true, true, true, true⟩ 5 0 1 1 0x0A 0 0
    [1, 2] (by decide)).2.1 (by decide)

/-- C28: an accepted call of the set entry (initialised library, parameter
number above 0, node id in [1,232], size check passed) issues exactly one
lower-layer request (the run is that single call), carrying node_id, the
parameter number and config_value unchanged, the default flag true if and only
if set_to_default is not 0, and as size the config_size of the caller itself,
not its low three bits. -/
theorem configuration_set_request_arguments (cb : znet_callbacks_t)
    (node_id channel_id config_param_num config_size : Nat) (set_to_default : Int)
    (config_value : Nat)
    (hparam : config_param_num > 0)
    (hnode : ZNET_NODE_ID_MIN ≤ node_id ∧ node_id ≤ ZNET_NODE_ID_MAX)
    (hsize : config_size &&& 0x07 = 1 ∨ config_size &&& 0x07 = 2 ∨ config_size &&& 0x07 = 4) :
    ∃ default_flag : Bool,
      znet_node_cmd_configuration_set (some cb) node_id channel_id config_param_num
        config_size set_to_default config_value =
      .returned [.lower (.znet_cc_configuration_set node_id config_param_num
        default_flag config_value config_size none
        (if channel_id ≠ ZNET_CHANNEL_ID_ROOT then some (ZNET_CHANNEL_ID_ROOT, channel_id)
          else none)
        (if channel_id ≠ ZNET_CHANNEL_ID_ROOT then Encapsulation_None ||| Encapsulation_MuCh
          else Encapsulation_None))] ∧
      (default_flag = true ↔ set_to_default ≠ 0) :=
  ⟨decide (set_to_default ≠ 0),
    znet_node_cmd_configuration_set_lowerCalls cb node_id channel_id config_param_num
      config_size set_to_default config_value hnode hparam hsize,
    by simp⟩

/-- Witness of C28: node 5, parameter 1, size byte 0x0A, default flag 7, value
0x1234: the request carries the size byte 0x0A itself. -/
theorem configuration_set_request_arguments_witness :
    (znet_node_cmd_configuration_set (some ⟨0, true, true, true, true, true⟩) 5 0 1 0x0A 7
        0x1234).lowerCalls =
      [.znet_cc_configuration_set 5 1 true 0x1234 0x0A none none Encapsulation_None] := by
  obtain ⟨flag, h, hflag⟩ := configuration_set_request_arguments
    ⟨0, true, true, true, true, true⟩ 5 0 1 0x0A 7 0x1234 (by decide) (by decide) (by decide)
  have hf : flag = true := hflag.mpr (by decide)
  rw [h, hf]
  rfl

/-- C29 fails on the code: for node id 0, with the callback present and a send
that fails, the get entry invokes the configuration result callback twice, once
at the node id check and once more after the failed send. -/
theorem configuration_get_reports_twice :
    (znet_node_cmd_configuration_get (some ⟨0, true, true, true, true, true⟩)
        (fun _ => false) 0 0 1).userCallbacks =
      [.node_cmd_configuration_result (-1) ZNET_NODE_ID_INVALID 0 none 0,
       .node_cmd_configuration_result (-1) ZNET_NODE_ID_INVALID 0 none 0] ∧
    znet_node_cmd_configuration_get (some ⟨0, true, true, true, true, true⟩)
        (fun _ => false) 0 0 1 =
      .returned [.node_cmd_configuration_result (-1) ZNET_NODE_ID_INVALID 0 none 0,
        .lower (.znet_cc_configuration_get 0 1 (some ._znet_node_cmd_configuration_get_cb)
          none Encapsulation_None),
        .node_cmd_configuration_result (-1) ZNET_NODE_ID_INVALID 0 none 0] := by
  decide

/-! ### The value of a v1 report -/

theorem read_lt (cc_data : List Nat) (hbytes : ∀ b ∈ cc_data, b < 256) (i b : Nat)
    (h : read cc_data i = .ok b) : b < 256 := by
  unfold read at h
  split at h
  · rename_i b1 hb
    cases h
    exact hbytes _ (List.getElem?_mem hb)
  · cases h

/-- A report built from bytes has the size it was asked for and a value below
256 to the power of that size. -/
theorem znet_cc_configuration_report_build_lt (s : Nat) (cc_data : List Nat)
    (hbytes : ∀ b ∈ cc_data, b < 256)
    (hs : s = 1 ∨ s = 2 ∨ s = 4) (r : znet_configuration_report_t)
    (h : znet_cc_configuration_report_build s cc_data = .ok r) :
    r.data_count = s ∧ r.value < 2 ^ (8 * s) := by
  unfold znet_cc_configuration_report_build at h
  simp only [bind, Except.bind, pure, Except.pure] at h
  cases h2 : read cc_data 2 with
  | error e => simp [h2] at h
  | ok p =>
    cases h4 : read cc_data 4 with
    | error e => simp [h2, h4] at h
    | ok v0 =>
      have hv0 := read_lt cc_data hbytes 4 v0 h4
      rcases hs with hs | hs | hs
      · subst hs
        simp [h2, h4] at h
        subst h
        exact ⟨rfl, by simpa using hv0⟩
      · subst hs
        cases h5 : read cc_data 5 with
        | error e => simp [h2, h4, h5] at h
        | ok v1 =>
          have hv1 := read_lt cc_data hbytes 5 v1 h5
          simp [h2, h4, h5] at h
          subst h
          refine ⟨rfl, ?_⟩
          show (v0 <<< 8 ||| v1) % 4294967296 < 2 ^ (8 * 2)
          rw [shl8_or_eq v0 v1 hv1]
          omega
      · subst hs
        cases h5 : read cc_data 5 with
        | error e => simp [h2, h4, h5] at h
        | ok v1 =>
          cases h6 : read cc_data 6 with
          | error e => simp [h2, h4, h5, h6] at h
          | ok v2 =>
            cases h7 : read cc_data 7 with
            | error e => simp [h2, h4, h5, h6, h7] at h
            | ok v3 =>
              simp [h2, h4, h5, h6, h7] at h
              subst h
              refine ⟨rfl, ?_⟩
              show _ % 4294967296 < 2 ^ (8 * 4)
              exact Nat.mod_lt _ (by norm_num)

/-- C30: every report that `znet_cc_configuration_report` delivers to the
configuration result callback, for a frame of bytes, has value below
2^(8 data_count): the value bytes are zero-extended. -/
theorem configuration_report_value_zero_extended (znet_cb : Option znet_callbacks_t)
    (func : ZFunction) (node_id : Nat) (cc_data : List Nat)
    (hbytes : ∀ b ∈ cc_data, b < 256)
    (err : Int) (node channel : Nat) (report : znet_configuration_report_t) (arg : Nat)
    (hdelivered : Event.node_cmd_configuration_result err node channel (some report) arg ∈
      (znet_cc_configuration_report znet_cb func node_id cc_data).trace) :
    report.value < 2 ^ (8 * report.data_count) := by
  unfold znet_cc_configuration_report at hdelivered
  dsimp only at hdelivered
  split_ifs at hdelivered with h1 h2 h3 h4 h5 h6 <;>
    try (simp [Outcome.trace] at hdelivered; done)
  have hlegal : (cc_data.getD 3 0 &&& CONFIGURATION_SET_LEVEL_SIZE_MASK) % 256 = 1 ∨
      (cc_data.getD 3 0 &&& CONFIGURATION_SET_LEVEL_SIZE_MASK) % 256 = 2 ∨
      (cc_data.getD 3 0 &&& CONFIGURATION_SET_LEVEL_SIZE_MASK) % 256 = 4 := by
    have hq := size_field_eq (cc_data.getD 3 0)
    simp only [ZNET_CMD_CONFIGURATION_PARAM_NUM_MAX,
      ZNET_CMD_CONFIGURATION_PARAM_NUM_INVALID] at h6
    omega
  cases hb : znet_cc_configuration_report_build
      ((cc_data.getD 3 0 &&& CONFIGURATION_SET_LEVEL_SIZE_MASK) % 256) cc_data with
  | error fault =>
    rw [hb] at hdelivered
    simp [Outcome.trace] at hdelivered
  | ok r =>
    obtain ⟨hcount, hvalue⟩ :=
      znet_cc_configuration_report_build_lt _ cc_data hbytes hlegal r hb
    rw [hb] at hdelivered
    cases znet_cb with
    | none => simp [Outcome.trace] at hdelivered
    | some cb =>
      dsimp only at hdelivered
      split_ifs at hdelivered
      · simp only [Outcome.trace, List.mem_singleton, Event.node_cmd_configuration_result.injEq,
          Option.some.injEq] at hdelivered
        obtain ⟨_, _, _, hr, _⟩ := hdelivered
        rw [hr, hcount]
        exact hvalue
      · simp [Outcome.trace] at hdelivered

/-- Witness of C30: the 2-byte parameter 0xFFFF of node 5 is delivered as
65535. -/
theorem configuration_report_value_zero_extended_witness :
    znet_cc_configuration_report (some ⟨0, true, true, true, true, true⟩) ⟨0⟩ 5
        [0x70, 0x06, 1, 2, 0xFF, 0xFF] =
      .returned [.node_cmd_configuration_result 0 5 0
        (some { __ver := 0, param_number := 1, data_count := 2, value := 65535 }) 0] ∧
    znet_cc_configuration_report (some ⟨0, true, true, true, true, true⟩) ⟨0⟩ 5
        [0x70, 0x06, 1, 1, 0xFF] =
      .returned [.node_cmd_configuration_result 0 5 0
        (some { __ver := 0, param_number := 1, data_count := 1, value := 255 }) 0] ∧
    (65535 : Nat) < 2 ^ (8 * 2) :=
  ⟨by decide, by decide,
    configuration_report_value_zero_extended (some ⟨0, true, true, true, true, true⟩) ⟨0⟩ 5
      [0x70, 0x06, 1, 2, 0xFF, 0xFF] (by decide) 0 5 0
      { __ver := 0, param_number := 1, data_count := 2, value := 65535 } 0 (by decide)⟩

/-- C31: for a node id outside [1,232], none of the five report handlers
invokes a user callback, whatever the frame and the callback table are. -/
theorem configuration_reports_invalid_node_silent (znet_cb : Option znet_callbacks_t)
    (func : ZFunction) (node_id : Nat) (cc_data : List Nat)
    (hnode : node_id < ZNET_NODE_ID_MIN ∨ node_id > ZNET_NODE_ID_MAX) :
    (znet_cc_configuration_report znet_cb func node_id cc_data).userCallbacks = [] ∧
    (znet_cc_configuration_bulk_report znet_cb func node_id cc_data).userCallbacks = [] ∧
    (znet_cc_configuration_name_report znet_cb func node_id cc_data).userCallbacks = [] ∧
    (znet_cc_configuration_info_report znet_cb func node_id cc_data).userCallbacks = [] ∧
    (znet_cc_configuration_properties_report znet_cb func node_id cc_data).userCallbacks =
      [] := by
  refine ⟨?_, ?_, ?_, ?_, ?_⟩
  · unfold znet_cc_configuration_report
    dsimp only
    split_ifs <;> rfl
  · exact znet_cc_configuration_bulk_report_rejected znet_cb func node_id cc_data
      (Or.inr (Or.inr (by simp only [ZNET_NODE_ID_MIN, ZNET_NODE_ID_MAX] at hnode ⊢; omega)))
  · unfold znet_cc_configuration_name_report
    dsimp only
    split_ifs <;> rfl
  · unfold znet_cc_configuration_info_report
    dsimp only
    split_ifs <;> rfl
  · unfold znet_cc_configuration_properties_report
    dsimp only
    split_ifs <;> rfl

/-- Witness of C31: node id 0 and node id 233 with valid frames and every
callback present. -/
theorem configuration_reports_invalid_node_silent_witness :
    (znet_cc_configuration_report (some ⟨0, true, true, true, true, true⟩) ⟨0⟩ 0
        [0x70, 0x06, 7, 2, 0x12, 0x34]).userCallbacks = [] ∧
    (znet_cc_configuration_name_report (some ⟨0, true, true, true, true, true⟩) ⟨0⟩ 233
        [0x70, 0x0B, 0, 3, 1, 112, 97, 114]).userCallbacks = [] :=
  ⟨(configuration_reports_invalid_node_silent (some ⟨0, true, true, true, true, true⟩) ⟨0⟩ 0
      [0x70, 0x06, 7, 2, 0x12, 0x34] (by decide)).1,
    (configuration_reports_invalid_node_silent (some ⟨0, true, true, true, true, true⟩) ⟨0⟩
      233 [0x70, 0x0B, 0, 3, 1, 112, 97, 114] (by decide)).2.2.1⟩

/-- C32: the set, bulk_set and default_reset entries invoke no user callback
and pass a null completion handler with every lower-layer request, for every
state of the library and all arguments (the entries ignore what the lower-layer
send returns). -/
theorem configuration_setters_no_callback (znet_cb : Option znet_callbacks_t)
    (node_id channel_id config_param_num config_size config_value : Nat)
    (set_to_default need_report : Int)
    (config_id config_count : Nat) (config_values : List Nat) :
    ((znet_node_cmd_configuration_set znet_cb node_id channel_id config_param_num
        config_size set_to_default config_value).userCallbacks = [] ∧
      (znet_node_cmd_configuration_bulk_set znet_cb node_id channel_id config_id config_count
        config_size need_report set_to_default config_values).userCallbacks = [] ∧
      (znet_node_cmd_configuration_default_reset znet_cb node_id channel_id).userCallbacks
        = []) ∧
    ((∀ c ∈ (znet_node_cmd_configuration_set znet_cb node_id channel_id config_param_num
        config_size set_to_default config_value).lowerCalls, c.cb = none) ∧
      (∀ c ∈ (znet_node_cmd_configuration_bulk_set znet_cb node_id channel_id config_id
        config_count config_size need_report set_to_default config_values).lowerCalls,
        c.cb = none) ∧
      (∀ c ∈ (znet_node_cmd_configuration_default_reset znet_cb node_id
        channel_id).lowerCalls, c.cb = none)) ∧
    ((znet_node_cmd_configuration_set (some ⟨0, true, true, true, true, true⟩) 5 2 1 2 0
        7).lowerCalls.map LowerCall.cb = [none] ∧
      (znet_node_cmd_configuration_bulk_set (some ⟨0, true, true, true, true, true⟩) 5 2 1 1 2
        0 0 [1, 2]).lowerCalls.map LowerCall.cb = [none] ∧
      (znet_node_cmd_configuration_default_reset (some ⟨0, true, true, true, true, true⟩) 5
        2).lowerCalls.map LowerCall.cb = [none]) := by
  refine ⟨⟨?_, ?_, ?_⟩, ⟨?_, ?_, ?_⟩, by decide⟩
  · unfold znet_node_cmd_configuration_set
    cases znet_cb <;> dsimp only <;> (try split_ifs) <;> rfl
  · unfold znet_node_cmd_configuration_bulk_set
    cases znet_cb <;> dsimp only <;> (try split_ifs) <;> rfl
  · unfold znet_node_cmd_configuration_default_reset
    cases znet_cb <;> dsimp only <;> (try split_ifs) <;> rfl
  · intro c hc
    unfold znet_node_cmd_configuration_set at hc
    cases znet_cb <;> dsimp only at hc <;> (try split_ifs at hc) <;>
      simp [Outcome.lowerCalls, Outcome.trace, Event.lowerCall] at hc <;>
      (subst hc; rfl)
  · intro c hc
    unfold znet_node_cmd_configuration_bulk_set at hc
    cases znet_cb <;> dsimp only at hc <;> (try split_ifs at hc) <;>
      simp [Outcome.lowerCalls, Outcome.trace, Event.lowerCall] at hc <;>
      (subst hc; rfl)
  · intro c hc
    unfold znet_node_cmd_configuration_default_reset at hc
    cases znet_cb <;> dsimp only at hc <;> (try split_ifs at hc) <;>
      simp [Outcome.lowerCalls, Outcome.trace, Event.lowerCall] at hc <;>
      (subst hc; rfl)

/-- C33: the get entry does not validate the channel id. For a node id in
[1,232], a non-zero parameter number and every channel id (0..255, also above
127), the entry issues its lower-layer request, as the first event of the run;
for a non-zero channel id the endpoint pair passed is (0, channel_id) and the
Multi-Channel flag is set. -/
theorem configuration_get_any_channel (cb : znet_callbacks_t) (send : LowerCall → Bool)
    (node_id channel_id config_param_num : Nat)
    (hnode : ZNET_NODE_ID_MIN ≤ node_id ∧ node_id ≤ ZNET_NODE_ID_MAX)
    (hparam : config_param_num ≠ 0) :
    ∃ c, (znet_node_cmd_configuration_get (some cb) send node_id channel_id
        config_param_num).lowerCalls = [c] ∧
      (znet_node_cmd_configuration_get (some cb) send node_id channel_id
        config_param_num).trace.head? = some (.lower c) ∧
      (channel_id ≠ 0 →
        c.callbackArg = some (ZNET_CHANNEL_ID_ROOT, channel_id) ∧
        c.encap &&& Encapsulation_MuCh = Encapsulation_MuCh) := by
  have hnode2 : ¬ (node_id < ZNET_NODE_ID_MIN ∨ node_id > ZNET_NODE_ID_MAX) := by
    simp only [ZNET_NODE_ID_MIN, ZNET_NODE_ID_MAX] at *; omega
  refine ⟨_, znet_node_cmd_configuration_get_lowerCalls cb send node_id channel_id
    config_param_num hparam, ?_, ?_⟩
  · unfold znet_node_cmd_configuration_get
    simp only [hparam, if_false, if_neg hnode2]
    rfl
  · intro hc
    have hc2 : channel_id ≠ ZNET_CHANNEL_ID_ROOT := hc
    constructor
    · show (if channel_id ≠ ZNET_CHANNEL_ID_ROOT then _ else _) = _
      rw [if_pos hc2]
    · show (if channel_id ≠ ZNET_CHANNEL_ID_ROOT then _ else _) &&& _ = _
      rw [if_pos hc2]
      decide

/-- Witness of C33: node 5, parameter 1, channel 200 (above the documented
maximum 127): the request is issued with the endpoint pair (0, 200). -/
theorem configuration_get_any_channel_witness :
    (znet_node_cmd_configuration_get (some ⟨0, true, true, true, true, true⟩)
        (fun _ => true) 5 200 1).lowerCalls.map LowerCall.callbackArg =
      [some (ZNET_CHANNEL_ID_ROOT, 200)] := by
  obtain ⟨c, hc, _, harg⟩ := configuration_get_any_channel
    ⟨0, true, true, true, true, true⟩ (fun _ => true) 5 200 1 (by decide) (by decide)
  rw [hc, List.map_singleton, (harg (by decide)).1]

/-! ### The name and the info handler -/

theorem or_mod_two_pow (a b n : Nat) : (a ||| b) % 2 ^ n = (a % 2 ^ n) ||| (b % 2 ^ n) := by
  apply Nat.eq_of_testBit_eq
  intro i
  simp only [Nat.testBit_mod_two_pow, Nat.testBit_or]
  cases decide (i < n) <;> simp

/-- The two ways the handlers form the 16-bit value of `cc_data[2..3]` agree. -/
theorem info_word_eq_name_word (hi lo : Nat) :
    (((hi <<< 8) % 2 ^ 16) ||| lo) % 2 ^ 16 = ((hi <<< 8) ||| lo) % 2 ^ 16 := by
  rw [or_mod_two_pow, or_mod_two_pow (hi <<< 8), Nat.mod_mod]

/-- The info handler on a frame runs as the name handler does on the frame with
the name command byte: the same events, with the info result callback in place
of the name result callback, and the same kind of termination. -/
theorem znet_cc_configuration_info_report_as_name_report (cb : znet_callbacks_t)
    (func : ZFunction) (node_id c0 : Nat) (rest : List Nat)
    (hflag : cb.node_cmd_configuration_name_result = cb.node_cmd_configuration_info_result) :
    (znet_cc_configuration_info_report (some cb) func node_id
        (c0 :: CONFIGURATION_INFO_REPORT_V4 :: rest)).trace =
      (znet_cc_configuration_name_report (some cb) func node_id
        (c0 :: CONFIGURATION_NAME_REPORT_V4 :: rest)).trace.map name_result_as_info_result ∧
    (znet_cc_configuration_info_report (some cb) func node_id
        (c0 :: CONFIGURATION_INFO_REPORT_V4 :: rest)).isReturned =
      (znet_cc_configuration_name_report (some cb) func node_id
        (c0 :: CONFIGURATION_NAME_REPORT_V4 :: rest)).isReturned := by
  unfold znet_cc_configuration_info_report znet_cc_configuration_name_report
  simp only [List.getD_cons_zero, List.getD_cons_succ, List.length_cons, info_word_eq_name_word,
    ne_eq, not_true_eq_false, if_false, hflag]
  split_ifs with h1 h2 h3 h4 h5
  all_goals
    first
    | exact ⟨rfl, rfl⟩
    | (rw [copy_bytes_eq _ _ _ (by simp only [List.length_cons] at h4 ⊢; omega),
        copy_bytes_eq _ _ _ (by simp only [List.length_cons] at h4 ⊢; omega)]
       exact ⟨rfl, rfl⟩)

/-- C34: the info handler and the name handler compute the same report. For
every pair of frames that differ only in the command byte (the info frame
carries the info command byte, the name frame the name command byte), every
node id and session, on an initialised library where the two result callbacks
are both present or both absent: the two runs end alike (both return or both
stop), and the events of the info run are those of the name run with the info
result callback in place of the name result callback and the same error, node,
endpoint, param_number, rep_to_follows and data. The two expressions that form
the 16-bit value of `cc_data[2..3]` agree for all values. -/
theorem configuration_info_report_refines_name_report (cb : znet_callbacks_t)
    (func : ZFunction) (node_id c0 : Nat) (rest : List Nat)
    (hflag : cb.node_cmd_configuration_name_result = cb.node_cmd_configuration_info_result) :
    ((znet_cc_configuration_info_report (some cb) func node_id
          (c0 :: CONFIGURATION_INFO_REPORT_V4 :: rest)).isReturned =
        (znet_cc_configuration_name_report (some cb) func node_id
          (c0 :: CONFIGURATION_NAME_REPORT_V4 :: rest)).isReturned ∧
      (znet_cc_configuration_info_report (some cb) func node_id
          (c0 :: CONFIGURATION_INFO_REPORT_V4 :: rest)).trace =
        (znet_cc_configuration_name_report (some cb) func node_id
          (c0 :: CONFIGURATION_NAME_REPORT_V4 :: rest)).trace.map
            name_result_as_info_result) ∧
    (∀ hi lo : Nat,
      (((hi <<< 8) % 2 ^ 16) ||| lo) % 2 ^ 16 = ((hi <<< 8) ||| lo) % 2 ^ 16) :=
  ⟨⟨(znet_cc_configuration_info_report_as_name_report cb func node_id c0 rest hflag).2,
      (znet_cc_configuration_info_report_as_name_report cb func node_id c0 rest hflag).1⟩,
    info_word_eq_name_word⟩

/-- Witness of C34: node 5, parameter bytes 0 and 3, one report to follow, the
segment "par"; both callbacks present. -/
theorem configuration_info_report_refines_name_report_witness :
    (znet_cc_configuration_info_report (some ⟨0, true, true, true, true, true⟩) ⟨0⟩ 5
        [0x70, CONFIGURATION_INFO_REPORT_V4, 0, 3, 1, 112, 97, 114]).trace =
      (znet_cc_configuration_name_report (some ⟨0, true, true, true, true, true⟩) ⟨0⟩ 5
        [0x70, CONFIGURATION_NAME_REPORT_V4, 0, 3, 1, 112, 97, 114]).trace.map
          name_result_as_info_result ∧
    (znet_cc_configuration_info_report (some ⟨0, true, true, true, true, true⟩) ⟨0⟩ 5
        [0x70, CONFIGURATION_INFO_REPORT_V4, 0, 3, 1, 112, 97, 114]).trace =
      [.node_cmd_configuration_info_result 0 5 0
        (some { __ver := 0, param_number := 3, rep_to_follows := 1,
                data := [112, 97, 114] }) 0] :=
  ⟨(configuration_info_report_refines_name_report ⟨0, true, true, true, true, true⟩ ⟨0⟩ 5
      0x70 [0, 3, 1, 112, 97, 114] (by decide)).1.2, by decide⟩

/-! ### The size byte of a v1 report -/

/-- No read of the v1 report builder is at index 3. -/
theorem znet_cc_configuration_report_build_congr (s c0 c1 c2 q1 q2 : Nat) (rest : List Nat) :
    znet_cc_configuration_report_build s (c0 :: c1 :: c2 :: q1 :: rest) =
      znet_cc_configuration_report_build s (c0 :: c1 :: c2 :: q2 :: rest) := by
  unfold znet_cc_configuration_report_build read
  simp only [List.getElem?_cons_succ, List.getElem?_cons_zero]

/-- C35: two frames that are equal except for the bits 3..7 of `cc_data[3]`
(the low three bits of that byte agree) are treated alike by
`znet_cc_configuration_report`, for every callback table, session and node id:
the two runs are equal, so either both are rejected in the same way or both
deliver the same report. -/
theorem configuration_report_ignores_upper_size_bits (znet_cb : Option znet_callbacks_t)
    (func : ZFunction) (node_id c0 c1 c2 q1 q2 : Nat) (rest : List Nat)
    (hbits : q1 &&& 0x07 = q2 &&& 0x07) :
    znet_cc_configuration_report znet_cb func node_id (c0 :: c1 :: c2 :: q1 :: rest) =
      znet_cc_configuration_report znet_cb func node_id (c0 :: c1 :: c2 :: q2 :: rest) := by
  have hsize : (q1 &&& CONFIGURATION_SET_LEVEL_SIZE_MASK) % 256 =
      (q2 &&& CONFIGURATION_SET_LEVEL_SIZE_MASK) % 256 := by
    show (q1 &&& 7) % 256 = (q2 &&& 7) % 256
    rw [hbits]
  unfold znet_cc_configuration_report
  simp only [List.getD_cons_zero, List.getD_cons_succ, List.length_cons, hsize,
    znet_cc_configuration_report_build_congr _ c0 c1 c2 q1 q2 rest]


/-- Witness of C35: the size bytes 0xFA and 0x02 (low three bits 2) in an
otherwise equal frame of node 5. -/
theorem configuration_report_ignores_upper_size_bits_witness :
    znet_cc_configuration_report (some ⟨0, true, true, true, true, true⟩) ⟨0⟩ 5
        [0x70, 0x06, 7, 0xFA, 0x12, 0x34] =
      znet_cc_configuration_report (some ⟨0, true, true, true, true, true⟩) ⟨0⟩ 5
        [0x70, 0x06, 7, 0x02, 0x12, 0x34] ∧
    znet_cc_configuration_report (some ⟨0, true, true, true, true, true⟩) ⟨0⟩ 5
        [0x70, 0x06, 7, 0xFA, 0x12, 0x34] =
      .returned [.node_cmd_configuration_result 0 5 0
        (some { __ver := 0, param_number := 7, data_count := 2, value := 0x1234 }) 0] :=
  ⟨configuration_report_ignores_upper_size_bits (some ⟨0, true, true, true, true, true⟩) ⟨0⟩
      5 0x70 0x06 7 0xFA 0x02 [0x12, 0x34] (by decide), by decide⟩

end Znet
